import Mathlib

/-!
Shallow embedding of the `gars_field` library (GARS grid codecs and the
field enumeration engine) together with proofs of its specified properties.

Coordinates are modelled as rationals; Python float `%`, `//` and
`math.floor` become exact rational operations with integer floor.
Strings are Lean `String`s; the regular-expression grammars of the three
codec variants are written out as explicit total matchers on the
character list of the identifier.
-/

/-- Python `x % m` on numbers (used with a positive modulus): `x - m * ⌊x / m⌋`. -/
def pymod (x m : ℚ) : ℚ := x - m * ⌊x / m⌋

/-- Axis-aligned rectangle, as built by `shapely.geometry.box(minx, miny, maxx, maxy)`. -/
structure Box where
  minx : ℚ
  miny : ℚ
  maxx : ℚ
  maxy : ℚ
deriving DecidableEq, Repr

/-- `shapely` `intersects` restricted to rectangles: closed boxes, touching counts. -/
def Box.intersects (a b : Box) : Bool :=
  decide (a.minx ≤ b.maxx) && decide (b.minx ≤ a.maxx) &&
  decide (a.miny ≤ b.maxy) && decide (b.miny ≤ a.maxy)

/-- Membership of a point in a closed rectangle. -/
def Box.containsPt (b : Box) (x y : ℚ) : Prop :=
  b.minx ≤ x ∧ x ≤ b.maxx ∧ b.miny ≤ y ∧ y ≤ b.maxy

instance (b : Box) (x y : ℚ) : Decidable (b.containsPt x y) := by
  unfold Box.containsPt; infer_instance

/-- Membership of a point in the interior of a rectangle. -/
def Box.containsPtInterior (b : Box) (x y : ℚ) : Prop :=
  b.minx < x ∧ x < b.maxx ∧ b.miny < y ∧ y < b.maxy

/-- The character of a decimal digit. -/
def dCh (d : ℕ) : Char := Char.ofNat (48 + d)

/-- The numeric value of a decimal digit character. -/
def digitVal (c : Char) : ℕ := c.toNat - 48

/-- The regex class `\d`. -/
def isDigitCh (c : Char) : Bool := decide ('0' ≤ c) && decide (c ≤ '9')

/-- Python `int(s)` on a string of decimal digits. -/
def strToNat (s : String) : ℕ := s.data.foldl (fun a c => 10 * a + digitVal c) 0

/-- Python `f"{n:02d}"` (all uses have `n ≤ 99`, so two digits always suffice). -/
def natTo2 (n : ℕ) : String := ⟨[dCh (n / 10), dCh (n % 10)]⟩

/-- Python `f"{n:03d}"` (all uses have `n ≤ 721`, so three digits always suffice). -/
def natTo3 (n : ℕ) : String := ⟨[dCh (n / 100), dCh (n / 10 % 10), dCh (n % 10)]⟩

/-- Python `str(n)` for a one-digit number. -/
def dStr (n : ℕ) : String := ⟨[dCh n]⟩

/-- Python `s[:n]`. -/
def strTake (s : String) (n : ℕ) : String := ⟨s.data.take n⟩

/-- Python `s[i]` for an in-range index. -/
def charAt (s : String) (i : ℕ) : Char := s.data.getD i 'A'

/-- `GARSGrid.LETTERS = "ABCDEFGHJKLMNPQRSTUVWXYZ"`. -/
def GARS_LETTERS : List Char :=
  ['A', 'B', 'C', 'D', 'E', 'F', 'G', 'H', 'J', 'K', 'L', 'M',
   'N', 'P', 'Q', 'R', 'S', 'T', 'U', 'V', 'W', 'X', 'Y', 'Z']

/-- The regex class `[A-HJ-NP-Q]` (first latitude letter of a standard GARS id). -/
def lat1Chars : List Char := GARS_LETTERS.take 15

/-- The regex class `[A-HJ-NP-Z]` (second latitude letter of a standard GARS id). -/
def lat2Chars : List Char := GARS_LETTERS

/-- The named groups of `GARSGrid.RE_PATTERN`. -/
structure GarsGroups where
  quadrant_30min : String
  quadrant_15min : Option String
  quadrant_5min : Option String
  quadrant_1min : Option String
deriving DecidableEq, Repr

/-- `GARSGrid.RE_PATTERN`:
`^(\d{3}[A-HJ-NP-Q][A-HJ-NP-Z])(([1-4])(([1-9])(\d{2})?)?)?$`,
returning the matched groups. -/
def garsRegexMatch (s : String) : Option GarsGroups :=
  match s.data with
  | [d1, d2, d3, a1, a2] =>
      if isDigitCh d1 && isDigitCh d2 && isDigitCh d3 &&
          lat1Chars.contains a1 && lat2Chars.contains a2 then
        some ⟨⟨[d1, d2, d3, a1, a2]⟩, none, none, none⟩
      else none
  | [d1, d2, d3, a1, a2, q] =>
      if isDigitCh d1 && isDigitCh d2 && isDigitCh d3 &&
          lat1Chars.contains a1 && lat2Chars.contains a2 &&
          decide ('1' ≤ q) && decide (q ≤ '4') then
        some ⟨⟨[d1, d2, d3, a1, a2]⟩, some ⟨[q]⟩, none, none⟩
      else none
  | [d1, d2, d3, a1, a2, q, k] =>
      if isDigitCh d1 && isDigitCh d2 && isDigitCh d3 &&
          lat1Chars.contains a1 && lat2Chars.contains a2 &&
          decide ('1' ≤ q) && decide (q ≤ '4') &&
          decide ('1' ≤ k) && decide (k ≤ '9') then
        some ⟨⟨[d1, d2, d3, a1, a2]⟩, some ⟨[q]⟩, some ⟨[k]⟩, none⟩
      else none
  | [d1, d2, d3, a1, a2, q, k, m1, m2] =>
      if isDigitCh d1 && isDigitCh d2 && isDigitCh d3 &&
          lat1Chars.contains a1 && lat2Chars.contains a2 &&
          decide ('1' ≤ q) && decide (q ≤ '4') &&
          decide ('1' ≤ k) && decide (k ≤ '9') &&
          isDigitCh m1 && isDigitCh m2 then
        some ⟨⟨[d1, d2, d3, a1, a2]⟩, some ⟨[q]⟩, some ⟨[k]⟩, some ⟨[m1, m2]⟩⟩
      else none
  | _ => none

/-- `GARSGrid.VALID_RESOLUTIONS = (1, 5, 15, 30)`. -/
def GARS_VALID_RESOLUTIONS : List ℕ := [1, 5, 15, 30]

/-- The state of a constructed `GARSGrid` object. -/
structure GARSGrid where
  gars_id : String
  quadrant_30min : String
  quadrant_15min : Option String
  quadrant_5min : Option String
  quadrant_1min : Option String
  resolution : ℕ
deriving DecidableEq, Repr

/-- The validation part of `GARSGrid.__init__` after truncation: regex match,
longitude-number check, 1-minute quadrant check, resolution inference.
`none` models a raised `ValueError`. -/
def GARSGrid.initCore (gars_id : String) : Option GARSGrid :=
  match garsRegexMatch gars_id with
  | none => none
  | some m =>
    let lon_num := strToNat (strTake m.quadrant_30min 3)
    if lon_num < 1 ∨ 720 < lon_num then none
    else
      match m.quadrant_1min with
      | some q1 =>
          if strToNat q1 < 1 ∨ 25 < strToNat q1 then none
          else some ⟨gars_id, m.quadrant_30min, m.quadrant_15min,
                     m.quadrant_5min, m.quadrant_1min, 1⟩
      | none =>
        match m.quadrant_5min with
        | some _ => some ⟨gars_id, m.quadrant_30min, m.quadrant_15min,
                          m.quadrant_5min, none, 5⟩
        | none =>
          match m.quadrant_15min with
          | some _ => some ⟨gars_id, m.quadrant_30min, m.quadrant_15min,
                            none, none, 15⟩
          | none => some ⟨gars_id, m.quadrant_30min, none, none, none, 30⟩

/-- `GARSGrid.__init__(gars_id, max_resolution)`: optional resolution
validation, truncation of the id to the resolution width, then validation. -/
def GARSGrid.init (gars_id : String) (max_resolution : Option ℕ) : Option GARSGrid :=
  match max_resolution with
  | none => GARSGrid.initCore gars_id
  | some r =>
    if r ∈ GARS_VALID_RESOLUTIONS then
      GARSGrid.initCore
        (if r = 30 then strTake gars_id 5
         else if r = 15 then strTake gars_id 6
         else if r = 5 then strTake gars_id 7
         else gars_id)
    else none

/-- `LETTERS.index(c)`. -/
def GARSGrid.letIdx (c : Char) : ℕ := GARS_LETTERS.indexOf c

/-- `LETTERS[i]` (all uses are in range). -/
def lchar (i : ℕ) : Char := GARS_LETTERS.getD i 'A'

/-- The helper `index_from_degrees` of `GARSGrid.from_latlon`:
minute indices at the 15/5/1-minute levels, latitude ones inverted. -/
def index_from_degrees (num_degrees : ℚ) (inverse : Bool) : ℤ × ℤ × ℤ :=
  let minutes : ℚ := (num_degrees - (⌊num_degrees⌋ : ℚ)) * 60
  let minutes_30 := pymod minutes 30
  let minutes_15 := pymod minutes 15
  let minutes_5 := pymod minutes 5
  let idx_15 := ⌊minutes_30 / 15⌋ + 1
  let idx_5 := ⌊minutes_15 / 5⌋ + 1
  let idx_1 := ⌊minutes_5⌋ + 1
  if inverse then (3 - idx_15, 4 - idx_5, 6 - idx_1) else (idx_15, idx_5, idx_1)

/-- `GARSGrid.from_latlon(latitude, longitude, resolution)`. -/
def GARSGrid.from_latlon (latitude longitude : ℚ) (resolution : ℕ) : Option GARSGrid :=
  if resolution ∈ GARS_VALID_RESOLUTIONS then
    let lon : ℚ := if longitude ≠ 180 then pymod (longitude + 180) 360 else 360
    let lat : ℚ := if latitude ≠ 90 then pymod (latitude + 90) 180 else 179.9999999999
    let lon_idx : ℚ := lon * 2
    let lat_idx : ℚ := lat * 2
    let quadrant_30min : String :=
      natTo3 (⌊lon_idx + 1⌋.toNat) ++
        ⟨[lchar (⌊lat_idx / 24⌋.toNat), lchar (⌊pymod lat_idx 24⌋.toNat)]⟩
    let lonIdxs := index_from_degrees lon false
    let latIdxs := index_from_degrees lat true
    let quadrant_15min : String :=
      if resolution < 30 then dStr ((latIdxs.1 - 1) * 2 + lonIdxs.1).toNat else ""
    let quadrant_5min : String :=
      if resolution < 15 then dStr ((latIdxs.2.1 - 1) * 3 + lonIdxs.2.1).toNat else ""
    let quadrant_1min : String :=
      if resolution < 5 then natTo2 ((latIdxs.2.2 - 1) * 5 + lonIdxs.2.2).toNat else ""
    GARSGrid.init (quadrant_30min ++ quadrant_15min ++ quadrant_5min ++ quadrant_1min)
      (some resolution)
  else none

/-- `GARSGrid._15_minute_delta`. -/
def GARSGrid._15_minute_delta (g : GARSGrid) : ℚ × ℚ :=
  match g.quadrant_15min with
  | none => (0, 0)
  | some q =>
    let v := strToNat q
    ((if v = 2 ∨ v = 4 then 15 else 0), (if v = 1 ∨ v = 2 then 15 else 0))

/-- `GARSGrid._5_minute_delta`. -/
def GARSGrid._5_minute_delta (g : GARSGrid) : ℚ × ℚ :=
  match g.quadrant_5min with
  | none => (0, 0)
  | some q =>
    let v := strToNat q
    ((if v = 2 ∨ v = 5 ∨ v = 8 then 5 else if v = 3 ∨ v = 6 ∨ v = 9 then 10 else 0),
     (if v = 4 ∨ v = 5 ∨ v = 6 then 5 else if v = 1 ∨ v = 2 ∨ v = 3 then 10 else 0))

/-- `GARSGrid._1_minute_delta`. -/
def GARSGrid._1_minute_delta (g : GARSGrid) : ℚ × ℚ :=
  match g.quadrant_1min with
  | none => (0, 0)
  | some q =>
    let v := strToNat q
    ((if v = 2 ∨ v = 7 ∨ v = 12 ∨ v = 17 ∨ v = 22 then 1
      else if v = 3 ∨ v = 8 ∨ v = 13 ∨ v = 18 ∨ v = 23 then 2
      else if v = 4 ∨ v = 9 ∨ v = 14 ∨ v = 19 ∨ v = 24 then 3
      else if v = 5 ∨ v = 10 ∨ v = 15 ∨ v = 20 ∨ v = 25 then 4 else 0),
     (if v ≤ 5 then 4
      else if 6 ≤ v ∧ v ≤ 10 then 3
      else if 11 ≤ v ∧ v ≤ 15 then 2
      else if 16 ≤ v ∧ v ≤ 20 then 1 else 0))

/-- `GARSGrid.polygon`: the bounding rectangle of the cell. -/
def GARSGrid.polygon (g : GARSGrid) : Box :=
  let longitude : ℚ := (((strToNat (strTake g.quadrant_30min 3) : ℚ)) - 1) / 2 - 180
  let latitude : ℚ :=
    (-90 + (GARSGrid.letIdx (charAt g.quadrant_30min 3) : ℚ) * 12) +
      (GARSGrid.letIdx (charAt g.quadrant_30min 4) : ℚ) / 2
  let d15 := g._15_minute_delta
  let d5 := g._5_minute_delta
  let d1 := g._1_minute_delta
  let ll_latitude := latitude + (d15.2 + d5.2 + d1.2) / 60
  let ll_longitude := longitude + (d15.1 + d5.1 + d1.1) / 60
  ⟨ll_longitude, ll_latitude,
   ll_longitude + (g.resolution : ℚ) / 60, ll_latitude + (g.resolution : ℚ) / 60⟩

/-! ### Extended-Degree GARS codec (`edgarsgrid.py`) -/

/-- `EDGARSGrid.LETTERS = "ABCDEFGHJKLMNPQRSTUV"`. -/
def ED_LETTERS : List Char :=
  ['A', 'B', 'C', 'D', 'E', 'F', 'G', 'H', 'J', 'K',
   'L', 'M', 'N', 'P', 'Q', 'R', 'S', 'T', 'U', 'V']

/-- The regex class `[A-HJ-NP-V]` (second latitude letter of an ED-GARS id). -/
def edLat2Chars : List Char := ED_LETTERS

/-- The named groups of `EDGARSGrid.RE_PATTERN`. -/
structure EdGarsGroups where
  quadrant_6deg : String
  quadrant_3deg : Option String
  quadrant_1deg : Option String
deriving DecidableEq, Repr

/-- `EDGARSGrid.RE_PATTERN`: `^D(\d{2}[A-B][A-HJ-NP-V])(([1-9])([1-9])?)?$`. -/
def edRegexMatch (s : String) : Option EdGarsGroups :=
  match s.data with
  | ['D', d1, d2, a1, a2] =>
      if isDigitCh d1 && isDigitCh d2 &&
          decide ('A' ≤ a1) && decide (a1 ≤ 'B') && edLat2Chars.contains a2 then
        some ⟨⟨[d1, d2, a1, a2]⟩, none, none⟩
      else none
  | ['D', d1, d2, a1, a2, q] =>
      if isDigitCh d1 && isDigitCh d2 &&
          decide ('A' ≤ a1) && decide (a1 ≤ 'B') && edLat2Chars.contains a2 &&
          decide ('1' ≤ q) && decide (q ≤ '9') then
        some ⟨⟨[d1, d2, a1, a2]⟩, some ⟨[q]⟩, none⟩
      else none
  | ['D', d1, d2, a1, a2, q, k] =>
      if isDigitCh d1 && isDigitCh d2 &&
          decide ('A' ≤ a1) && decide (a1 ≤ 'B') && edLat2Chars.contains a2 &&
          decide ('1' ≤ q) && decide (q ≤ '9') &&
          decide ('1' ≤ k) && decide (k ≤ '9') then
        some ⟨⟨[d1, d2, a1, a2]⟩, some ⟨[q]⟩, some ⟨[k]⟩⟩
      else none
  | _ => none

/-- `EDGARSGrid.VALID_RESOLUTIONS = (1, 3, 6)`. -/
def ED_VALID_RESOLUTIONS : List ℕ := [1, 3, 6]

/-- The state of a constructed `EDGARSGrid` object. -/
structure EDGARSGrid where
  gars_id : String
  quadrant_6deg : String
  quadrant_3deg : Option String
  quadrant_1deg : Option String
  resolution : ℕ
deriving DecidableEq, Repr

/-- The validation part of `EDGARSGrid.__init__` after truncation. -/
def EDGARSGrid.initCore (gars_id : String) : Option EDGARSGrid :=
  match edRegexMatch gars_id with
  | none => none
  | some m =>
    let lon_num := strToNat (strTake m.quadrant_6deg 2)
    if lon_num < 1 ∨ 60 < lon_num then none
    else if charAt m.quadrant_6deg 2 = 'B' ∧ 'K' < charAt m.quadrant_6deg 3 then none
    else
      match m.quadrant_1deg with
      | some _ => some ⟨gars_id, m.quadrant_6deg, m.quadrant_3deg, m.quadrant_1deg, 1⟩
      | none =>
        match m.quadrant_3deg with
        | some _ => some ⟨gars_id, m.quadrant_6deg, m.quadrant_3deg, none, 3⟩
        | none => some ⟨gars_id, m.quadrant_6deg, none, none, 6⟩

/-- `EDGARSGrid.__init__(gars_id, max_resolution)`. -/
def EDGARSGrid.init (gars_id : String) (max_resolution : Option ℕ) : Option EDGARSGrid :=
  match max_resolution with
  | none => EDGARSGrid.initCore gars_id
  | some r =>
    if r ∈ ED_VALID_RESOLUTIONS then
      EDGARSGrid.initCore
        (if r = 6 then strTake gars_id 5
         else if r = 3 then strTake gars_id 6
         else gars_id)
    else none

/-- `EDGARSGrid.LETTERS.index(c)`. -/
def EDGARSGrid.letIdx (c : Char) : ℕ := ED_LETTERS.indexOf c

/-- `EDGARSGrid.LETTERS[i]` (all uses are in range). -/
def edChar (i : ℕ) : Char := ED_LETTERS.getD i 'A'

/-- `EDGARSGrid.from_latlon(latitude, longitude, resolution)`. -/
def EDGARSGrid.from_latlon (latitude longitude : ℚ) (resolution : ℕ) : Option EDGARSGrid :=
  if resolution ∈ ED_VALID_RESOLUTIONS then
    let lon : ℚ := if longitude ≠ 180 then pymod (longitude + 180) 360 else 360
    let lat : ℚ := if latitude ≠ 90 then pymod (latitude + 90) 180 else 179.9999999999
    let lon_idx : ℚ := lon / 6
    let lat_idx : ℚ := lat / 6
    let quadrant_6deg : String :=
      natTo2 (⌊lon_idx + 1⌋.toNat) ++
        ⟨[edChar (⌊lat_idx / 20⌋.toNat), edChar (⌊pymod lat_idx 20⌋.toNat)]⟩
    let quadrant_3deg : String :=
      if resolution < 6 then
        let lon_3deg_idx := ⌊pymod lon 6 / 3⌋ + 1
        let lat_3deg_idx := 2 - ⌊pymod lat 6 / 3⌋
        dStr ((lat_3deg_idx - 1) * 2 + lon_3deg_idx).toNat
      else ""
    let quadrant_1deg : String :=
      if resolution < 3 then
        let lon_1deg_idx := ⌊pymod lon 3⌋ + 1
        let lat_1deg_idx := 3 - ⌊pymod lat 3⌋
        dStr ((lat_1deg_idx - 1) * 3 + lon_1deg_idx).toNat
      else ""
    EDGARSGrid.init ("D" ++ quadrant_6deg ++ quadrant_3deg ++ quadrant_1deg)
      (some resolution)
  else none

/-- `EDGARSGrid.polygon`. -/
def EDGARSGrid.polygon (g : EDGARSGrid) : Box :=
  let lon0 : ℚ := (((strToNat (strTake g.quadrant_6deg 2) : ℚ)) - 1) * 6 - 180
  let lat0 : ℚ :=
    (-90 + (EDGARSGrid.letIdx (charAt g.quadrant_6deg 2) : ℚ) * 120) +
      (EDGARSGrid.letIdx (charAt g.quadrant_6deg 3) : ℚ) * 6
  let d3 : ℚ × ℚ :=
    match g.quadrant_3deg with
    | none => (0, 0)
    | some q =>
      let v := strToNat q
      ((if v = 2 ∨ v = 4 then 3 else 0), (if v = 1 ∨ v = 2 then 3 else 0))
  let d1 : ℚ × ℚ :=
    match g.quadrant_1deg with
    | none => (0, 0)
    | some q =>
      let v := strToNat q
      ((if v = 2 ∨ v = 5 ∨ v = 8 then 1 else if v = 3 ∨ v = 6 ∨ v = 9 then 2 else 0),
       (if v = 4 ∨ v = 5 ∨ v = 6 then 1 else if v = 1 ∨ v = 2 ∨ v = 3 then 2 else 0))
  let longitude := lon0 + d3.1 + d1.1
  let latitude := lat0 + d3.2 + d1.2
  ⟨longitude, latitude, longitude + (g.resolution : ℚ), latitude + (g.resolution : ℚ)⟩

/-! ### Giant-Extended-Degree GARS codec (`gedgarsgrid.py`) -/

/-- `GEDGARSGrid.LETTERS = "ABC"`. -/
def GED_LETTERS : List Char := ['A', 'B', 'C']

/-- The named groups of `GEDGARSGrid.RE_PATTERN`. -/
structure GedGarsGroups where
  quadrant_60deg : String
  quadrant_30deg : Option String
deriving DecidableEq, Repr

/-- `GEDGARSGrid.RE_PATTERN`: `^GD(\d{1}[A-C])([1-4])?$`. -/
def gedRegexMatch (s : String) : Option GedGarsGroups :=
  match s.data with
  | ['G', 'D', d1, a1] =>
      if isDigitCh d1 && decide ('A' ≤ a1) && decide (a1 ≤ 'C') then
        some ⟨⟨[d1, a1]⟩, none⟩
      else none
  | ['G', 'D', d1, a1, q] =>
      if isDigitCh d1 && decide ('A' ≤ a1) && decide (a1 ≤ 'C') &&
          decide ('1' ≤ q) && decide (q ≤ '4') then
        some ⟨⟨[d1, a1]⟩, some ⟨[q]⟩⟩
      else none
  | _ => none

/-- `GEDGARSGrid.VALID_RESOLUTIONS = (30, 60)`. -/
def GED_VALID_RESOLUTIONS : List ℕ := [30, 60]

/-- The state of a constructed `GEDGARSGrid` object. -/
structure GEDGARSGrid where
  gars_id : String
  quadrant_60deg : String
  quadrant_30deg : Option String
  resolution : ℕ
deriving DecidableEq, Repr

/-- The validation part of `GEDGARSGrid.__init__` after truncation. -/
def GEDGARSGrid.initCore (gars_id : String) : Option GEDGARSGrid :=
  match gedRegexMatch gars_id with
  | none => none
  | some m =>
    let lon_num := digitVal (charAt m.quadrant_60deg 0)
    if lon_num < 1 ∨ 6 < lon_num then none
    else
      match m.quadrant_30deg with
      | some _ => some ⟨gars_id, m.quadrant_60deg, m.quadrant_30deg, 30⟩
      | none => some ⟨gars_id, m.quadrant_60deg, none, 60⟩

/-- `GEDGARSGrid.__init__(gars_id, max_resolution)`. -/
def GEDGARSGrid.init (gars_id : String) (max_resolution : Option ℕ) : Option GEDGARSGrid :=
  match max_resolution with
  | none => GEDGARSGrid.initCore gars_id
  | some r =>
    if r ∈ GED_VALID_RESOLUTIONS then
      GEDGARSGrid.initCore (if r = 60 then strTake gars_id 4 else gars_id)
    else none

/-- `GEDGARSGrid.utm_epsg`: "Not valid since it spans UTM Zones" — the
override returns `None` unconditionally, never calling the CRS lookup. -/
def GEDGARSGrid.utm_epsg (_g : GEDGARSGrid) : Option String := none

/-- The base-class `GARSGridBase.utm_epsg`, parameterised by the external
CRS-lookup collaborator `query_utm_crs_info` (its first result's code). -/
def GARSGridBase.utm_epsg (query_utm_crs_info : ℚ → ℚ → String) (poly : Box) : String :=
  let latitude := (poly.miny + poly.maxy) / 2
  if latitude ≤ -80 then "EPSG:32761"
  else if 84 ≤ latitude then "EPSG:32661"
  else
    let longitude := (poly.minx + poly.maxx) / 2
    "EPSG:" ++ query_utm_crs_info longitude latitude

/-- `GEDGARSGrid.LETTERS[i]` (all uses are in range). -/
def gedChar (i : ℕ) : Char := GED_LETTERS.getD i 'A'

/-- `GEDGARSGrid.from_latlon(latitude, longitude, resolution)`. -/
def GEDGARSGrid.from_latlon (latitude longitude : ℚ) (resolution : ℕ) : Option GEDGARSGrid :=
  if resolution ∈ GED_VALID_RESOLUTIONS then
    let lon : ℚ := if longitude ≠ 180 then pymod (longitude + 180) 360 else 360
    let lat : ℚ := if latitude ≠ 90 then pymod (latitude + 90) 180 else 179.9999999999
    let lon_idx : ℤ := ⌊lon / 60⌋
    let lat_idx : ℤ := ⌊lat / 60⌋
    let quadrant_60deg : String := dStr (lon_idx + 1).toNat ++ ⟨[gedChar lat_idx.toNat]⟩
    let quadrant_30deg : String :=
      if resolution < 60 then
        let lon_30deg_idx := ⌊pymod lon 60 / 30⌋ + 1
        let lat_30deg_idx := 2 - ⌊pymod lat 60 / 30⌋
        dStr ((lat_30deg_idx - 1) * 2 + lon_30deg_idx).toNat
      else ""
    GEDGARSGrid.init ("GD" ++ quadrant_60deg ++ quadrant_30deg) (some resolution)
  else none

/-- `GEDGARSGrid.polygon`. -/
def GEDGARSGrid.polygon (g : GEDGARSGrid) : Box :=
  let lon0 : ℚ := ((digitVal (charAt g.quadrant_60deg 0) : ℚ) - 1) * 60 - 180
  let lat0 : ℚ := -90 + (GED_LETTERS.indexOf (charAt g.quadrant_60deg 1) : ℚ) * 60
  let d30 : ℚ × ℚ :=
    match g.quadrant_30deg with
    | none => (0, 0)
    | some q =>
      let v := strToNat q
      ((if v = 2 ∨ v = 4 then 30 else 0), (if v = 1 ∨ v = 2 then 30 else 0))
  let longitude := lon0 + d30.1
  let latitude := lat0 + d30.2
  ⟨longitude, latitude, longitude + (g.resolution : ℚ), latitude + (g.resolution : ℚ)⟩

/-! ### The field enumeration engine (`field.py`)

The bounding region is modelled as a rectangle (`Box`) for a simple
geometry and as a list of rectangles for a `Multi*` geometry.  A raised
`ValueError` that escapes the enumeration is modelled as `none`; the
`try/except ValueError: continue` of the top-level loops is modelled by
skipping candidates whose construction returns `none`. -/

/-- Python `s[a:b]` for `0 ≤ a ≤ b`. -/
def strSlice (s : String) (a b : ℕ) : String := ⟨(s.data.take b).drop a⟩

/-- A construct-filter-append loop with no exception handler: the first
candidate whose construction fails aborts the whole enumeration. -/
def buildStrict {γ : Type} (mk : String → Option γ) (poly : γ → Box) (R : Box) :
    List String → Option (List γ)
  | [] => some []
  | cid :: rest =>
    match mk cid with
    | none => none
    | some g =>
      (buildStrict mk poly R rest).map
        (fun tl => if (poly g).intersects R then g :: tl else tl)

/-- A construct-filter-append loop wrapped in `try/except ValueError: continue`:
candidates whose construction fails are silently skipped. -/
def buildSkip {γ : Type} (mk : String → Option γ) (poly : γ → Box) (R : Box)
    (cands : List String) : List γ :=
  cands.filterMap (fun cid =>
    (mk cid).bind (fun g => if (poly g).intersects R then some g else none))

/-- `GARSField._get_bounds`: bounds of the geometry with the longitude
clamping of the source. -/
def GARSField._get_bounds (R : Box) : ℚ × ℚ × ℚ × ℚ :=
  let min_lon := if R.minx < -180 then -180 else R.minx
  let max_lon := if 180 ≤ R.maxx then 179.999999999999 else R.maxx
  (min_lon, R.miny, max_lon, R.maxy)

/-- `GARSField._get_lat_letter_range`, generic over the variant's letters. -/
def GARSField._get_lat_letter_range (letters : List Char) (ll1 ll2 ur1 ur2 : Char) :
    List String :=
  let lat_letter1_range := (letters.take (letters.indexOf ur1 + 1)).drop (letters.indexOf ll1)
  let lat_letter2_range := (letters.take (letters.indexOf ur2 + 1)).drop (letters.indexOf ll2)
  if ll1 ≠ ur1 then
    (letters.drop (letters.indexOf ll2)).map (fun c2 => (⟨[ll1, c2]⟩ : String))
    ++ ((lat_letter1_range.drop 1).dropLast.map
          (fun c1 => letters.map (fun c2 => (⟨[c1, c2]⟩ : String)))).flatten
    ++ (letters.take (letters.indexOf ur2 + 1)).map (fun c2 => (⟨[ur1, c2]⟩ : String))
  else
    (lat_letter1_range.map
      (fun c1 => lat_letter2_range.map (fun c2 => (⟨[c1, c2]⟩ : String)))).flatten

/-- `GARSField._get_30min_ranges`. -/
def GARSField._get_30min_ranges (R : Box) : Option (List String × List String) :=
  let b := GARSField._get_bounds R
  match GARSGrid.from_latlon b.2.1 b.1 30, GARSGrid.from_latlon b.2.2.2 b.2.2.1 30 with
  | some llg, some urg =>
    let ll_gars := llg.gars_id
    let ur_gars := urg.gars_id
    let lon_num_range :=
      (List.range' (strToNat (strSlice ll_gars 0 3))
        (strToNat (strSlice ur_gars 0 3) + 1 - strToNat (strSlice ll_gars 0 3))).map natTo3
    let lat_letter_range :=
      GARSField._get_lat_letter_range GARS_LETTERS
        (charAt ll_gars 3) (charAt ll_gars 4) (charAt ur_gars 3) (charAt ur_gars 4)
    some (lon_num_range, lat_letter_range)
  | _, _ => none

/-- `GARSField.gars_30min` on a simple (rectangular) region. -/
def GARSField.gars_30min (R : Box) : Option (List GARSGrid) :=
  (GARSField._get_30min_ranges R).map (fun ranges =>
    buildSkip (fun s => GARSGrid.init s none) GARSGrid.polygon R
      ((ranges.1.map (fun ln => ranges.2.map (fun lt => ln ++ lt))).flatten))

/-- The quadrant suffixes `str(q) for q in range(1, 5)`. -/
def quads15Strs : List String := (List.range' 1 4).map dStr

/-- The keypad suffixes `str(q) for q in range(1, 10)`. -/
def quads5Strs : List String := (List.range' 1 9).map dStr

/-- The keypad suffixes `f"{q:02d}" for q in range(1, 26)`. -/
def quads1Strs : List String := (List.range' 1 25).map natTo2

/-- `GARSField.gars_15min` on a simple region. -/
def GARSField.gars_15min (R : Box) : Option (List GARSGrid) :=
  (GARSField.gars_30min R).bind (fun parents =>
    buildStrict (fun s => GARSGrid.init s none) GARSGrid.polygon R
      ((parents.map (fun p => quads15Strs.map (fun q => p.gars_id ++ q))).flatten))

/-- `GARSField.gars_5min` on a simple region. -/
def GARSField.gars_5min (R : Box) : Option (List GARSGrid) :=
  (GARSField.gars_15min R).bind (fun parents =>
    buildStrict (fun s => GARSGrid.init s none) GARSGrid.polygon R
      ((parents.map (fun p => quads5Strs.map (fun q => p.gars_id ++ q))).flatten))

/-- `GARSField.gars_1min` on a simple region. -/
def GARSField.gars_1min (R : Box) : Option (List GARSGrid) :=
  (GARSField.gars_5min R).bind (fun parents =>
    buildStrict (fun s => GARSGrid.init s none) GARSGrid.polygon R
      ((parents.map (fun p => quads1Strs.map (fun q => p.gars_id ++ q))).flatten))

/-- Deduplication by a key, keeping one representative per key
(Python `set(...)`, where `__eq__`/`__hash__` are keyed on `gars_id`). -/
def dedupBy {γ : Type} (key : γ → String) : List γ → List γ
  | [] => []
  | g :: rest => g :: dedupBy key (rest.filter (fun h => key h ≠ key g))
termination_by l => l.length
decreasing_by
  exact Nat.lt_succ_of_le (List.length_filter_le _ _)

/-- Insertion into a list sorted by key (Python string comparison). -/
def orderedInsertBy {γ : Type} (key : γ → String) (a : γ) : List γ → List γ
  | [] => [a]
  | b :: l => if key a < key b ∨ key a = key b then a :: b :: l else b :: orderedInsertBy key a l

/-- Insertion sort by key. -/
def sortBy {γ : Type} (key : γ → String) : List γ → List γ
  | [] => []
  | a :: l => orderedInsertBy key a (sortBy key l)

/-- Python `sorted(set(l))` where equality and order are keyed on `gars_id`. -/
def sortedSet {γ : Type} (key : γ → String) (l : List γ) : List γ :=
  sortBy key (dedupBy key l)

/-- `GARSField.gars_30min` on a `Multi*` region: per-part enumeration,
concatenated, deduplicated and sorted. -/
def GARSField.gars_30min_multi (parts : List Box) : Option (List GARSGrid) :=
  (parts.mapM GARSField.gars_30min).map
    (fun ls => sortedSet GARSGrid.gars_id ls.flatten)

/-- `GARSField.gars_60deg` on a simple region: all `6 × 3` top-level
60-degree candidates, filtered by intersection (no exception handler). -/
def GARSField.gars_60deg (R : Box) : Option (List GEDGARSGrid) :=
  buildStrict (fun s => GEDGARSGrid.init s none) GEDGARSGrid.polygon R
    (((List.range' 1 6).map
        (fun n => GED_LETTERS.map (fun c => "GD" ++ dStr n ++ (⟨[c]⟩ : String)))).flatten)

/-- `GARSField.gars_60deg` on a `Multi*` region. -/
def GARSField.gars_60deg_multi (parts : List Box) : Option (List GEDGARSGrid) :=
  (parts.mapM GARSField.gars_60deg).map
    (fun ls => sortedSet GEDGARSGrid.gars_id ls.flatten)

/-! ### Arithmetic facts about `pymod` and integer floors -/

theorem floor_div_pnat (x : ℚ) (n : ℕ) (hn : 0 < n) : ⌊x / (n : ℚ)⌋ = ⌊x⌋ / (n : ℤ) := by
  have hn' : (0 : ℚ) < (n : ℚ) := by exact_mod_cast hn
  have hnz : (0 : ℤ) < (n : ℤ) := by exact_mod_cast hn
  set q : ℤ := ⌊x⌋ / (n : ℤ) with hq
  have hdm : (n : ℤ) * q + ⌊x⌋ % (n : ℤ) = ⌊x⌋ := Int.ediv_add_emod ⌊x⌋ (n : ℤ)
  have hr0 : 0 ≤ ⌊x⌋ % (n : ℤ) := Int.emod_nonneg ⌊x⌋ (ne_of_gt hnz)
  have hr1 : ⌊x⌋ % (n : ℤ) < (n : ℤ) := Int.emod_lt_of_pos ⌊x⌋ hnz
  have hfl : (⌊x⌋ : ℚ) ≤ x := Int.floor_le x
  have hfu : x < (⌊x⌋ : ℚ) + 1 := Int.lt_floor_add_one x
  rw [Int.floor_eq_iff]
  constructor
  · rw [le_div_iff₀ hn']
    have : ((n : ℤ) * q : ℚ) ≤ ((⌊x⌋ : ℤ) : ℚ) := by exact_mod_cast (by omega : (n : ℤ) * q ≤ ⌊x⌋)
    push_cast at this ⊢
    linarith
  · rw [div_lt_iff₀ hn']
    have hexp : (n : ℤ) * (q + 1) = (n : ℤ) * q + (n : ℤ) := by ring
    have : ((⌊x⌋ : ℤ) : ℚ) + 1 ≤ ((n : ℤ) * (q + 1) : ℚ) := by
      exact_mod_cast (by omega : ⌊x⌋ + 1 ≤ (n : ℤ) * (q + 1))
    push_cast at this ⊢
    linarith

theorem floor_pymod (x : ℚ) (n : ℕ) (hn : 0 < n) : ⌊pymod x (n : ℚ)⌋ = ⌊x⌋ % (n : ℤ) := by
  unfold pymod
  rw [floor_div_pnat x n hn]
  have : x - (n : ℚ) * ((⌊x⌋ / (n : ℤ) : ℤ) : ℚ) = x - (((n : ℤ) * (⌊x⌋ / (n : ℤ)) : ℤ) : ℚ) := by
    push_cast; ring
  rw [this, Int.floor_sub_int, Int.emod_def]

theorem pymod_nonneg (x m : ℚ) (hm : 0 < m) : 0 ≤ pymod x m := by
  unfold pymod
  have := Int.floor_le (x / m)
  have h : (⌊x / m⌋ : ℚ) * m ≤ x / m * m := by
    exact mul_le_mul_of_nonneg_right this (le_of_lt hm)
  rw [div_mul_cancel₀ x (ne_of_gt hm)] at h
  linarith

theorem pymod_lt (x m : ℚ) (hm : 0 < m) : pymod x m < m := by
  unfold pymod
  have := Int.lt_floor_add_one (x / m)
  have h : x / m * m < ((⌊x / m⌋ : ℚ) + 1) * m := by
    exact mul_lt_mul_of_pos_right this hm
  rw [div_mul_cancel₀ x (ne_of_gt hm)] at h
  linarith

theorem pymod_eq_self (x m : ℚ) (hm : 0 < m) (h0 : 0 ≤ x) (h1 : x < m) : pymod x m = x := by
  unfold pymod
  have : ⌊x / m⌋ = 0 := by
    rw [Int.floor_eq_zero_iff]
    constructor
    · exact div_nonneg h0 (le_of_lt hm)
    · rw [div_lt_iff hm]; simpa using h1
  rw [this]
  simp

theorem pymod_def_sub (x : ℚ) (m : ℚ) : pymod x m = x - m * ⌊x / m⌋ := rfl

theorem fract_ne_zero_floor_lt {y : ℚ} (h : Int.fract y ≠ 0) : (⌊y⌋ : ℚ) < y := by
  have h0 : 0 ≤ Int.fract y := Int.fract_nonneg y
  have h1 : 0 < Int.fract y := lt_of_le_of_ne h0 (Ne.symm h)
  have h2 : Int.fract y = y - ⌊y⌋ := rfl
  linarith

/-! ### Digit and letter facts -/

theorem isDigitCh_dCh : ∀ d : ℕ, d < 10 → isDigitCh (dCh d) = true := by decide

theorem digitVal_dCh : ∀ d : ℕ, d < 10 → digitVal (dCh d) = d := by decide

theorem isDigitCh_toNat {c : Char} (h : isDigitCh c = true) :
    48 ≤ c.toNat ∧ c.toNat ≤ 57 := by
  unfold isDigitCh at h
  simp only [Bool.and_eq_true, decide_eq_true_eq] at h
  exact ⟨h.1, h.2⟩

theorem dCh_digitVal {c : Char} (h : isDigitCh c = true) :
    dCh (digitVal c) = c ∧ digitVal c < 10 := by
  obtain ⟨h1, h2⟩ := isDigitCh_toNat h
  unfold dCh digitVal
  constructor
  · have : 48 + (c.toNat - 48) = c.toNat := by omega
    rw [this, Char.ofNat_toNat]
  · omega

/-! ### Canonical identifier shapes of the standard codec

`mkLon b` is the 3-digit zero-padded longitude band; `mk30 … mk1` are the
identifier strings of the four resolutions, and `cell30 … cell1` the
`GARSGrid` records that `GARSGrid.init` produces for them. -/

theorem data_append (a b : String) : (a ++ b).data = a.data ++ b.data := by
  cases a; cases b; rfl

def mkLon (b : ℕ) : List Char := [dCh (b / 100), dCh (b / 10 % 10), dCh (b % 10)]

def mk30 (b i1 i2 : ℕ) : String := ⟨mkLon b ++ [lchar i1, lchar i2]⟩

def mk15 (b i1 i2 d : ℕ) : String := ⟨mkLon b ++ [lchar i1, lchar i2, dCh d]⟩

def mk5 (b i1 i2 d e : ℕ) : String := ⟨mkLon b ++ [lchar i1, lchar i2, dCh d, dCh e]⟩

def mk1 (b i1 i2 d e k : ℕ) : String :=
  ⟨mkLon b ++ [lchar i1, lchar i2, dCh d, dCh e, dCh (k / 10), dCh (k % 10)]⟩

def cell30 (b i1 i2 : ℕ) : GARSGrid :=
  ⟨mk30 b i1 i2, mk30 b i1 i2, none, none, none, 30⟩

def cell15 (b i1 i2 d : ℕ) : GARSGrid :=
  ⟨mk15 b i1 i2 d, mk30 b i1 i2, some (dStr d), none, none, 15⟩

def cell5 (b i1 i2 d e : ℕ) : GARSGrid :=
  ⟨mk5 b i1 i2 d e, mk30 b i1 i2, some (dStr d), some (dStr e), none, 5⟩

def cell1 (b i1 i2 d e k : ℕ) : GARSGrid :=
  ⟨mk1 b i1 i2 d e k, mk30 b i1 i2, some (dStr d), some (dStr e), some (natTo2 k), 1⟩

theorem lat1Chars_lchar : ∀ i : ℕ, i < 15 → lat1Chars.contains (lchar i) = true := by decide

theorem lat2Chars_lchar : ∀ i : ℕ, i < 24 → lat2Chars.contains (lchar i) = true := by decide

theorem lat1Chars_mem : ∀ c ∈ lat1Chars,
    GARSGrid.letIdx c < 15 ∧ lchar (GARSGrid.letIdx c) = c := by decide

theorem lat2Chars_mem : ∀ c ∈ lat2Chars,
    GARSGrid.letIdx c < 24 ∧ lchar (GARSGrid.letIdx c) = c := by decide

theorem letIdx_lchar : ∀ i : ℕ, i < 24 → GARSGrid.letIdx (lchar i) = i := by decide

theorem strToNat3 (c1 c2 c3 : Char) :
    strToNat ⟨[c1, c2, c3]⟩ = 100 * digitVal c1 + 10 * digitVal c2 + digitVal c3 := by
  simp [strToNat]; ring

theorem strToNat2 (c1 c2 : Char) :
    strToNat ⟨[c1, c2]⟩ = 10 * digitVal c1 + digitVal c2 := by
  simp [strToNat]

theorem strToNat1 (c : Char) : strToNat ⟨[c]⟩ = digitVal c := by
  simp [strToNat]

theorem dCh_digitVal' {c : Char} (h : 48 ≤ c.toNat) : dCh (digitVal c) = c := by
  unfold dCh digitVal
  have : 48 + (c.toNat - 48) = c.toNat := by omega
  rw [this, Char.ofNat_toNat]

theorem digitVal_lt_of_isDigit {c : Char} (h : isDigitCh c = true) : digitVal c < 10 := by
  obtain ⟨h1, h2⟩ := isDigitCh_toNat h
  unfold digitVal; omega

theorem mkLon_inv {d1 d2 d3 : Char} (h1 : isDigitCh d1 = true) (h2 : isDigitCh d2 = true)
    (h3 : isDigitCh d3 = true) :
    mkLon (100 * digitVal d1 + 10 * digitVal d2 + digitVal d3) = [d1, d2, d3] := by
  have v1 := digitVal_lt_of_isDigit h1
  have v2 := digitVal_lt_of_isDigit h2
  have v3 := digitVal_lt_of_isDigit h3
  unfold mkLon
  have g1 : (100 * digitVal d1 + 10 * digitVal d2 + digitVal d3) / 100 = digitVal d1 := by omega
  have g2 : (100 * digitVal d1 + 10 * digitVal d2 + digitVal d3) / 10 % 10 = digitVal d2 := by omega
  have g3 : (100 * digitVal d1 + 10 * digitVal d2 + digitVal d3) % 10 = digitVal d3 := by omega
  rw [g1, g2, g3, dCh_digitVal' (isDigitCh_toNat h1).1, dCh_digitVal' (isDigitCh_toNat h2).1,
    dCh_digitVal' (isDigitCh_toNat h3).1]

theorem quadChar_inv {q : Char} (h1 : ('1' : Char) ≤ q) (h2 : q ≤ ('9' : Char)) :
    dCh (digitVal q) = q ∧ 1 ≤ digitVal q ∧ digitVal q ≤ 9 := by
  have a1 : 49 ≤ q.toNat := h1
  have a2 : q.toNat ≤ 57 := h2
  exact ⟨dCh_digitVal' (by omega), by unfold digitVal; omega, by unfold digitVal; omega⟩

theorem dCh_ge_one : ∀ d : ℕ, 1 ≤ d → d ≤ 9 → decide (('1' : Char) ≤ dCh d) = true := by decide

theorem dCh_le_four : ∀ d : ℕ, d ≤ 4 → decide (dCh d ≤ ('4' : Char)) = true := by decide

theorem dCh_le_nine : ∀ d : ℕ, d ≤ 9 → decide (dCh d ≤ ('9' : Char)) = true := by decide

theorem natTo2_strToNat (k : ℕ) (hk : k ≤ 99) : strToNat (natTo2 k) = k := by
  unfold natTo2
  rw [strToNat2, digitVal_dCh _ (by omega), digitVal_dCh _ (by omega)]
  omega

theorem natTo3_strToNat (b : ℕ) (hb : b ≤ 999) : strToNat (natTo3 b) = b := by
  unfold natTo3
  rw [strToNat3, digitVal_dCh _ (by omega), digitVal_dCh _ (by omega),
    digitVal_dCh _ (by omega)]
  omega

theorem init30_eq (b i1 i2 : ℕ) (hb1 : 1 ≤ b) (hb2 : b ≤ 720) (h1 : i1 < 15) (h2 : i2 < 24) :
    GARSGrid.init (mk30 b i1 i2) none = some (cell30 b i1 i2) := by
  have e1 : isDigitCh (dCh (b / 100)) = true := isDigitCh_dCh _ (by omega)
  have e2 : isDigitCh (dCh (b / 10 % 10)) = true := isDigitCh_dCh _ (by omega)
  have e3 : isDigitCh (dCh (b % 10)) = true := isDigitCh_dCh _ (by omega)
  have hsn : strToNat ⟨[dCh (b / 100), dCh (b / 10 % 10), dCh (b % 10)]⟩ = b := by
    rw [strToNat3, digitVal_dCh _ (by omega), digitVal_dCh _ (by omega),
      digitVal_dCh _ (by omega)]
    omega
  simp only [GARSGrid.init, GARSGrid.initCore, mk30, mkLon, garsRegexMatch,
    List.cons_append, List.nil_append, e1, e2, e3,
    lat1Chars_lchar i1 h1, lat2Chars_lchar i2 h2, Bool.and_self, Bool.true_and, if_true]
  simp only [strTake, List.take, hsn]
  rw [if_neg (by omega)]
  rfl

theorem init15_eq (b i1 i2 d : ℕ) (hb1 : 1 ≤ b) (hb2 : b ≤ 720) (h1 : i1 < 15) (h2 : i2 < 24)
    (hd1 : 1 ≤ d) (hd2 : d ≤ 4) :
    GARSGrid.init (mk15 b i1 i2 d) none = some (cell15 b i1 i2 d) := by
  have e1 : isDigitCh (dCh (b / 100)) = true := isDigitCh_dCh _ (by omega)
  have e2 : isDigitCh (dCh (b / 10 % 10)) = true := isDigitCh_dCh _ (by omega)
  have e3 : isDigitCh (dCh (b % 10)) = true := isDigitCh_dCh _ (by omega)
  have hsn : strToNat ⟨[dCh (b / 100), dCh (b / 10 % 10), dCh (b % 10)]⟩ = b := by
    rw [strToNat3, digitVal_dCh _ (by omega), digitVal_dCh _ (by omega),
      digitVal_dCh _ (by omega)]
    omega
  simp only [GARSGrid.init, GARSGrid.initCore, mk15, mkLon, garsRegexMatch,
    List.cons_append, List.nil_append, e1, e2, e3,
    lat1Chars_lchar i1 h1, lat2Chars_lchar i2 h2,
    dCh_ge_one d hd1 (by omega), dCh_le_four d hd2,
    Bool.and_self, Bool.true_and, Bool.and_true, if_true]
  simp only [strTake, List.take, hsn]
  rw [if_neg (by omega)]
  rfl

theorem init5_eq (b i1 i2 d e : ℕ) (hb1 : 1 ≤ b) (hb2 : b ≤ 720) (h1 : i1 < 15) (h2 : i2 < 24)
    (hd1 : 1 ≤ d) (hd2 : d ≤ 4) (he1 : 1 ≤ e) (he2 : e ≤ 9) :
    GARSGrid.init (mk5 b i1 i2 d e) none = some (cell5 b i1 i2 d e) := by
  have e1 : isDigitCh (dCh (b / 100)) = true := isDigitCh_dCh _ (by omega)
  have e2 : isDigitCh (dCh (b / 10 % 10)) = true := isDigitCh_dCh _ (by omega)
  have e3 : isDigitCh (dCh (b % 10)) = true := isDigitCh_dCh _ (by omega)
  have hsn : strToNat ⟨[dCh (b / 100), dCh (b / 10 % 10), dCh (b % 10)]⟩ = b := by
    rw [strToNat3, digitVal_dCh _ (by omega), digitVal_dCh _ (by omega),
      digitVal_dCh _ (by omega)]
    omega
  simp only [GARSGrid.init, GARSGrid.initCore, mk5, mkLon, garsRegexMatch,
    List.cons_append, List.nil_append, e1, e2, e3,
    lat1Chars_lchar i1 h1, lat2Chars_lchar i2 h2,
    dCh_ge_one d hd1 (by omega), dCh_le_four d hd2,
    dCh_ge_one e he1 (by omega), dCh_le_nine e he2,
    Bool.and_self, Bool.true_and, Bool.and_true, if_true]
  simp only [strTake, List.take, hsn]
  rw [if_neg (by omega)]
  rfl

theorem init1_eq (b i1 i2 d e k : ℕ) (hb1 : 1 ≤ b) (hb2 : b ≤ 720) (h1 : i1 < 15) (h2 : i2 < 24)
    (hd1 : 1 ≤ d) (hd2 : d ≤ 4) (he1 : 1 ≤ e) (he2 : e ≤ 9) (hk1 : 1 ≤ k) (hk2 : k ≤ 25) :
    GARSGrid.init (mk1 b i1 i2 d e k) none = some (cell1 b i1 i2 d e k) := by
  have e1 : isDigitCh (dCh (b / 100)) = true := isDigitCh_dCh _ (by omega)
  have e2 : isDigitCh (dCh (b / 10 % 10)) = true := isDigitCh_dCh _ (by omega)
  have e3 : isDigitCh (dCh (b % 10)) = true := isDigitCh_dCh _ (by omega)
  have e4 : isDigitCh (dCh (k / 10)) = true := isDigitCh_dCh _ (by omega)
  have e5 : isDigitCh (dCh (k % 10)) = true := isDigitCh_dCh _ (by omega)
  have hsn : strToNat ⟨[dCh (b / 100), dCh (b / 10 % 10), dCh (b % 10)]⟩ = b := by
    rw [strToNat3, digitVal_dCh _ (by omega), digitVal_dCh _ (by omega),
      digitVal_dCh _ (by omega)]
    omega
  have hk : strToNat ⟨[dCh (k / 10), dCh (k % 10)]⟩ = k := by
    rw [strToNat2, digitVal_dCh _ (by omega), digitVal_dCh _ (by omega)]
    omega
  simp only [GARSGrid.init, GARSGrid.initCore, mk1, mkLon, garsRegexMatch,
    List.cons_append, List.nil_append, e1, e2, e3, e4, e5,
    lat1Chars_lchar i1 h1, lat2Chars_lchar i2 h2,
    dCh_ge_one d hd1 (by omega), dCh_le_four d hd2,
    dCh_ge_one e he1 (by omega), dCh_le_nine e he2,
    Bool.and_self, Bool.true_and, Bool.and_true, if_true]
  simp only [strTake, List.take, hsn, hk]
  rw [if_neg (by omega), if_neg (by omega)]
  rfl

/-- Complete inversion of `GARSGrid.init` with no `max_resolution`:
every successfully parsed identifier has one of the four canonical shapes. -/
theorem gars_init_none_inv {s : String} {g : GARSGrid}
    (h : GARSGrid.init s none = some g) :
    ∃ b i1 i2, 1 ≤ b ∧ b ≤ 720 ∧ i1 < 15 ∧ i2 < 24 ∧
      ((s = mk30 b i1 i2 ∧ g = cell30 b i1 i2) ∨
       (∃ d, 1 ≤ d ∧ d ≤ 4 ∧ s = mk15 b i1 i2 d ∧ g = cell15 b i1 i2 d) ∨
       (∃ d e, 1 ≤ d ∧ d ≤ 4 ∧ 1 ≤ e ∧ e ≤ 9 ∧
          s = mk5 b i1 i2 d e ∧ g = cell5 b i1 i2 d e) ∨
       (∃ d e k, 1 ≤ d ∧ d ≤ 4 ∧ 1 ≤ e ∧ e ≤ 9 ∧ 1 ≤ k ∧ k ≤ 25 ∧
          s = mk1 b i1 i2 d e k ∧ g = cell1 b i1 i2 d e k)) := by
  obtain ⟨l⟩ := s
  simp only [GARSGrid.init] at h
  unfold GARSGrid.initCore at h
  cases hm : garsRegexMatch ⟨l⟩ with
  | none => rw [hm] at h; exact absurd h (by simp)
  | some m =>
    rw [hm] at h
    unfold garsRegexMatch at hm
    split at hm
    case _ d1 d2 d3 a1 a2 heq =>
      have hl : l = [d1, d2, d3, a1, a2] := heq
      subst hl
      split at hm
      case _ hcond =>
        simp only [Bool.and_eq_true] at hcond
        obtain ⟨⟨⟨⟨hd1, hd2⟩, hd3⟩, ha1⟩, ha2⟩ := hcond
        injection hm with hm'
        subst hm'
        simp only [] at h
        split at h
        case _ => exact absurd h (by simp)
        case _ hlon =>
          push_neg at hlon
          injection h with h'
          have ha1' := lat1Chars_mem a1 (by simpa using ha1)
          have ha2' := lat2Chars_mem a2 (by simpa using ha2)
          have hb : strToNat (strTake (⟨[d1, d2, d3, a1, a2]⟩ : String) 3) =
              100 * digitVal d1 + 10 * digitVal d2 + digitVal d3 := by
            simp only [strTake, List.take]; exact strToNat3 d1 d2 d3
          rw [hb] at hlon
          have key : mk30 (100 * digitVal d1 + 10 * digitVal d2 + digitVal d3)
              (GARSGrid.letIdx a1) (GARSGrid.letIdx a2) = ⟨[d1, d2, d3, a1, a2]⟩ := by
            simp only [mk30, mkLon_inv hd1 hd2 hd3, ha1'.2, ha2'.2]
            rfl
          refine ⟨_, _, _, hlon.1, hlon.2, ha1'.1, ha2'.1, Or.inl ⟨key.symm, ?_⟩⟩
          rw [← h']
          simp only [cell30, key]
      case _ => exact absurd hm (by simp)
    case _ d1 d2 d3 a1 a2 q heq =>
      have hl : l = [d1, d2, d3, a1, a2, q] := heq
      subst hl
      split at hm
      case _ hcond =>
        simp only [Bool.and_eq_true, decide_eq_true_eq] at hcond
        obtain ⟨⟨⟨⟨⟨⟨hd1, hd2⟩, hd3⟩, ha1⟩, ha2⟩, hq1⟩, hq2⟩ := hcond
        injection hm with hm'
        subst hm'
        simp only [] at h
        split at h
        case _ => exact absurd h (by simp)
        case _ hlon =>
          push_neg at hlon
          injection h with h'
          have ha1' := lat1Chars_mem a1 (by simpa using ha1)
          have ha2' := lat2Chars_mem a2 (by simpa using ha2)
          have hb : strToNat (strTake (⟨[d1, d2, d3, a1, a2]⟩ : String) 3) =
              100 * digitVal d1 + 10 * digitVal d2 + digitVal d3 := by
            simp only [strTake, List.take]; exact strToNat3 d1 d2 d3
          rw [hb] at hlon
          have hqa : 49 ≤ q.toNat := hq1
          have hqb : q.toNat ≤ 52 := hq2
          have hqd : dCh (digitVal q) = q := dCh_digitVal' (by omega)
          have hdV : digitVal q = q.toNat - 48 := rfl
          have key : mk15 (100 * digitVal d1 + 10 * digitVal d2 + digitVal d3)
              (GARSGrid.letIdx a1) (GARSGrid.letIdx a2) (digitVal q) =
              ⟨[d1, d2, d3, a1, a2, q]⟩ := by
            simp only [mk15, mkLon_inv hd1 hd2 hd3, ha1'.2, ha2'.2, hqd]
            rfl
          refine ⟨_, _, _, hlon.1, hlon.2, ha1'.1, ha2'.1,
            Or.inr (Or.inl ⟨digitVal q, by omega, by omega, key.symm, ?_⟩)⟩
          rw [← h']
          simp only [cell15, key, mk30, dStr, mkLon_inv hd1 hd2 hd3, ha1'.2, ha2'.2, hqd,
            List.cons_append, List.nil_append]
      case _ => exact absurd hm (by simp)
    case _ d1 d2 d3 a1 a2 q k heq =>
      have hl : l = [d1, d2, d3, a1, a2, q, k] := heq
      subst hl
      split at hm
      case _ hcond =>
        simp only [Bool.and_eq_true, decide_eq_true_eq] at hcond
        obtain ⟨⟨⟨⟨⟨⟨⟨⟨hd1, hd2⟩, hd3⟩, ha1⟩, ha2⟩, hq1⟩, hq2⟩, hk1⟩, hk2⟩ := hcond
        injection hm with hm'
        subst hm'
        simp only [] at h
        split at h
        case _ => exact absurd h (by simp)
        case _ hlon =>
          push_neg at hlon
          injection h with h'
          have ha1' := lat1Chars_mem a1 (by simpa using ha1)
          have ha2' := lat2Chars_mem a2 (by simpa using ha2)
          have hb : strToNat (strTake (⟨[d1, d2, d3, a1, a2]⟩ : String) 3) =
              100 * digitVal d1 + 10 * digitVal d2 + digitVal d3 := by
            simp only [strTake, List.take]; exact strToNat3 d1 d2 d3
          rw [hb] at hlon
          have hqa : 49 ≤ q.toNat := hq1
          have hqb : q.toNat ≤ 52 := hq2
          have hqd : dCh (digitVal q) = q := dCh_digitVal' (by omega)
          have hka : 49 ≤ k.toNat := hk1
          have hkb : k.toNat ≤ 57 := hk2
          have hkd : dCh (digitVal k) = k := dCh_digitVal' (by omega)
          have hdV : digitVal q = q.toNat - 48 := rfl
          have hdK : digitVal k = k.toNat - 48 := rfl
          have key : mk5 (100 * digitVal d1 + 10 * digitVal d2 + digitVal d3)
              (GARSGrid.letIdx a1) (GARSGrid.letIdx a2) (digitVal q) (digitVal k) =
              ⟨[d1, d2, d3, a1, a2, q, k]⟩ := by
            simp only [mk5, mkLon_inv hd1 hd2 hd3, ha1'.2, ha2'.2, hqd, hkd]
            rfl
          refine ⟨_, _, _, hlon.1, hlon.2, ha1'.1, ha2'.1,
            Or.inr (Or.inr (Or.inl ⟨digitVal q, digitVal k, by omega, by omega,
              by omega, by omega, key.symm, ?_⟩))⟩
          rw [← h']
          simp only [cell5, key, mk30, dStr, mkLon_inv hd1 hd2 hd3, ha1'.2, ha2'.2, hqd, hkd,
            List.cons_append, List.nil_append]
      case _ => exact absurd hm (by simp)
    case _ d1 d2 d3 a1 a2 q k m1 m2 heq =>
      have hl : l = [d1, d2, d3, a1, a2, q, k, m1, m2] := heq
      subst hl
      split at hm
      case _ hcond =>
        simp only [Bool.and_eq_true, decide_eq_true_eq] at hcond
        obtain ⟨⟨⟨⟨⟨⟨⟨⟨⟨⟨hd1, hd2⟩, hd3⟩, ha1⟩, ha2⟩, hq1⟩, hq2⟩, hk1⟩, hk2⟩, hm1⟩, hm2⟩ := hcond
        injection hm with hm'
        subst hm'
        simp only [] at h
        split at h
        case _ => exact absurd h (by simp)
        case _ hlon =>
          push_neg at hlon
          split at h
          case _ => exact absurd h (by simp)
          case _ hkp =>
            push_neg at hkp
            injection h with h'
            have ha1' := lat1Chars_mem a1 (by simpa using ha1)
            have ha2' := lat2Chars_mem a2 (by simpa using ha2)
            have hb : strToNat (strTake (⟨[d1, d2, d3, a1, a2]⟩ : String) 3) =
                100 * digitVal d1 + 10 * digitVal d2 + digitVal d3 := by
              simp only [strTake, List.take]; exact strToNat3 d1 d2 d3
            rw [hb] at hlon
            have hqa : 49 ≤ q.toNat := hq1
            have hqb : q.toNat ≤ 52 := hq2
            have hqd : dCh (digitVal q) = q := dCh_digitVal' (by omega)
            have hka : 49 ≤ k.toNat := hk1
            have hkb : k.toNat ≤ 57 := hk2
            have hkd : dCh (digitVal k) = k := dCh_digitVal' (by omega)
            have hm1' := dCh_digitVal hm1
            have hm2' := dCh_digitVal hm2
            have hkpv : strToNat (⟨[m1, m2]⟩ : String) = 10 * digitVal m1 + digitVal m2 :=
              strToNat2 m1 m2
            rw [hkpv] at hkp
            have hnat2 : natTo2 (10 * digitVal m1 + digitVal m2) = ⟨[m1, m2]⟩ := by
              unfold natTo2
              have g1 : (10 * digitVal m1 + digitVal m2) / 10 = digitVal m1 := by omega
              have g2 : (10 * digitVal m1 + digitVal m2) % 10 = digitVal m2 := by omega
              rw [g1, g2, hm1'.1, hm2'.1]
            have hdV : digitVal q = q.toNat - 48 := rfl
            have hdK : digitVal k = k.toNat - 48 := rfl
            have key : mk1 (100 * digitVal d1 + 10 * digitVal d2 + digitVal d3)
                (GARSGrid.letIdx a1) (GARSGrid.letIdx a2) (digitVal q) (digitVal k)
                (10 * digitVal m1 + digitVal m2) =
                ⟨[d1, d2, d3, a1, a2, q, k, m1, m2]⟩ := by
              have g1 : (10 * digitVal m1 + digitVal m2) / 10 = digitVal m1 := by omega
              have g2 : (10 * digitVal m1 + digitVal m2) % 10 = digitVal m2 := by omega
              simp only [mk1, mkLon_inv hd1 hd2 hd3, ha1'.2, ha2'.2, hqd, hkd, g1, g2,
                hm1'.1, hm2'.1]
              rfl
            refine ⟨_, _, _, hlon.1, hlon.2, ha1'.1, ha2'.1,
              Or.inr (Or.inr (Or.inr ⟨digitVal q, digitVal k,
                10 * digitVal m1 + digitVal m2, by omega, by omega, by omega, by omega,
                hkp.1, hkp.2, key.symm, ?_⟩))⟩
            rw [← h']
            simp only [cell1, key, mk30, dStr, mkLon_inv hd1 hd2 hd3, ha1'.2, ha2'.2,
              hqd, hkd, hnat2, List.cons_append, List.nil_append]
      case _ => exact absurd hm (by simp)
    case _ => exact absurd hm (by simp)

/-! ### Bounding boxes of the canonical cells -/

def lon0 (b : ℕ) : ℚ := ((b : ℚ) - 1) / 2 - 180

def lat0 (i1 i2 : ℕ) : ℚ := (-90 + (i1 : ℚ) * 12) + (i2 : ℚ) / 2

def dx15 (d : ℕ) : ℚ := if d = 2 ∨ d = 4 then 15 else 0

def dy15 (d : ℕ) : ℚ := if d = 1 ∨ d = 2 then 15 else 0

def dx5 (e : ℕ) : ℚ :=
  if e = 2 ∨ e = 5 ∨ e = 8 then 5 else if e = 3 ∨ e = 6 ∨ e = 9 then 10 else 0

def dy5 (e : ℕ) : ℚ :=
  if e = 4 ∨ e = 5 ∨ e = 6 then 5 else if e = 1 ∨ e = 2 ∨ e = 3 then 10 else 0

def dx1 (k : ℕ) : ℚ :=
  if k = 2 ∨ k = 7 ∨ k = 12 ∨ k = 17 ∨ k = 22 then 1
  else if k = 3 ∨ k = 8 ∨ k = 13 ∨ k = 18 ∨ k = 23 then 2
  else if k = 4 ∨ k = 9 ∨ k = 14 ∨ k = 19 ∨ k = 24 then 3
  else if k = 5 ∨ k = 10 ∨ k = 15 ∨ k = 20 ∨ k = 25 then 4 else 0

def dy1 (k : ℕ) : ℚ :=
  if k ≤ 5 then 4
  else if 6 ≤ k ∧ k ≤ 10 then 3
  else if 11 ≤ k ∧ k ≤ 15 then 2
  else if 16 ≤ k ∧ k ≤ 20 then 1 else 0

theorem polygon_cell30 (b i1 i2 : ℕ) (hb : b ≤ 999) (h1 : i1 < 24) (h2 : i2 < 24) :
    (cell30 b i1 i2).polygon =
      ⟨lon0 b, lat0 i1 i2, lon0 b + 1 / 2, lat0 i1 i2 + 1 / 2⟩ := by
  have hsn : strToNat (strTake (mk30 b i1 i2) 3) = b := by
    simp only [mk30, mkLon, strTake, List.cons_append, List.nil_append, List.take]
    rw [strToNat3, digitVal_dCh _ (by omega), digitVal_dCh _ (by omega),
      digitVal_dCh _ (by omega)]
    omega
  have hc3 : charAt (mk30 b i1 i2) 3 = lchar i1 := by
    simp [mk30, mkLon, charAt]
  have hc4 : charAt (mk30 b i1 i2) 4 = lchar i2 := by
    simp [mk30, mkLon, charAt]
  simp only [GARSGrid.polygon, cell30, GARSGrid._15_minute_delta, GARSGrid._5_minute_delta,
    GARSGrid._1_minute_delta, hsn, hc3, hc4, letIdx_lchar i1 h1, letIdx_lchar i2 h2]
  simp only [lon0, lat0]
  norm_num

theorem polygon_cell15 (b i1 i2 d : ℕ) (hb : b ≤ 999) (h1 : i1 < 24) (h2 : i2 < 24)
    (hd : d ≤ 9) :
    (cell15 b i1 i2 d).polygon =
      ⟨lon0 b + dx15 d / 60, lat0 i1 i2 + dy15 d / 60,
       lon0 b + dx15 d / 60 + 1 / 4, lat0 i1 i2 + dy15 d / 60 + 1 / 4⟩ := by
  have hsn : strToNat (strTake (mk30 b i1 i2) 3) = b := by
    simp only [mk30, mkLon, strTake, List.cons_append, List.nil_append, List.take]
    rw [strToNat3, digitVal_dCh _ (by omega), digitVal_dCh _ (by omega),
      digitVal_dCh _ (by omega)]
    omega
  have hc3 : charAt (mk30 b i1 i2) 3 = lchar i1 := by
    simp [mk30, mkLon, charAt]
  have hc4 : charAt (mk30 b i1 i2) 4 = lchar i2 := by
    simp [mk30, mkLon, charAt]
  have hds : strToNat (dStr d) = d := by
    rw [dStr, strToNat1, digitVal_dCh _ (by omega)]
  simp only [GARSGrid.polygon, cell15, GARSGrid._15_minute_delta, GARSGrid._5_minute_delta,
    GARSGrid._1_minute_delta, hsn, hc3, hc4, letIdx_lchar i1 h1, letIdx_lchar i2 h2, hds]
  simp only [lon0, lat0, dx15, dy15]
  rw [Box.mk.injEq]
  refine ⟨?_, ?_, ?_, ?_⟩ <;> push_cast <;> ring

theorem polygon_cell5 (b i1 i2 d e : ℕ) (hb : b ≤ 999) (h1 : i1 < 24) (h2 : i2 < 24)
    (hd : d ≤ 9) (he : e ≤ 9) :
    (cell5 b i1 i2 d e).polygon =
      ⟨lon0 b + (dx15 d + dx5 e) / 60, lat0 i1 i2 + (dy15 d + dy5 e) / 60,
       lon0 b + (dx15 d + dx5 e) / 60 + 1 / 12,
       lat0 i1 i2 + (dy15 d + dy5 e) / 60 + 1 / 12⟩ := by
  have hsn : strToNat (strTake (mk30 b i1 i2) 3) = b := by
    simp only [mk30, mkLon, strTake, List.cons_append, List.nil_append, List.take]
    rw [strToNat3, digitVal_dCh _ (by omega), digitVal_dCh _ (by omega),
      digitVal_dCh _ (by omega)]
    omega
  have hc3 : charAt (mk30 b i1 i2) 3 = lchar i1 := by
    simp [mk30, mkLon, charAt]
  have hc4 : charAt (mk30 b i1 i2) 4 = lchar i2 := by
    simp [mk30, mkLon, charAt]
  have hds : strToNat (dStr d) = d := by
    rw [dStr, strToNat1, digitVal_dCh _ (by omega)]
  have hes : strToNat (dStr e) = e := by
    rw [dStr, strToNat1, digitVal_dCh _ (by omega)]
  simp only [GARSGrid.polygon, cell5, GARSGrid._15_minute_delta, GARSGrid._5_minute_delta,
    GARSGrid._1_minute_delta, hsn, hc3, hc4, letIdx_lchar i1 h1, letIdx_lchar i2 h2, hds, hes]
  simp only [lon0, lat0, dx15, dy15, dx5, dy5]
  rw [Box.mk.injEq]
  refine ⟨?_, ?_, ?_, ?_⟩ <;> push_cast <;> ring

theorem polygon_cell1 (b i1 i2 d e k : ℕ) (hb : b ≤ 999) (h1 : i1 < 24) (h2 : i2 < 24)
    (hd : d ≤ 9) (he : e ≤ 9) (hk : k ≤ 99) :
    (cell1 b i1 i2 d e k).polygon =
      ⟨lon0 b + (dx15 d + dx5 e + dx1 k) / 60, lat0 i1 i2 + (dy15 d + dy5 e + dy1 k) / 60,
       lon0 b + (dx15 d + dx5 e + dx1 k) / 60 + 1 / 60,
       lat0 i1 i2 + (dy15 d + dy5 e + dy1 k) / 60 + 1 / 60⟩ := by
  have hsn : strToNat (strTake (mk30 b i1 i2) 3) = b := by
    simp only [mk30, mkLon, strTake, List.cons_append, List.nil_append, List.take]
    rw [strToNat3, digitVal_dCh _ (by omega), digitVal_dCh _ (by omega),
      digitVal_dCh _ (by omega)]
    omega
  have hc3 : charAt (mk30 b i1 i2) 3 = lchar i1 := by
    simp [mk30, mkLon, charAt]
  have hc4 : charAt (mk30 b i1 i2) 4 = lchar i2 := by
    simp [mk30, mkLon, charAt]
  have hds : strToNat (dStr d) = d := by
    rw [dStr, strToNat1, digitVal_dCh _ (by omega)]
  have hes : strToNat (dStr e) = e := by
    rw [dStr, strToNat1, digitVal_dCh _ (by omega)]
  have hks : strToNat (natTo2 k) = k := natTo2_strToNat k hk
  simp only [GARSGrid.polygon, cell1, GARSGrid._15_minute_delta, GARSGrid._5_minute_delta,
    GARSGrid._1_minute_delta, hsn, hc3, hc4, letIdx_lchar i1 h1, letIdx_lchar i2 h2,
    hds, hes, hks]
  simp only [lon0, lat0, dx15, dy15, dx5, dy5, dx1, dy1]
  rw [Box.mk.injEq]
  refine ⟨?_, ?_, ?_, ?_⟩ <;> push_cast <;> ring

/-! ### `from_latlon` in canonical form -/

theorem str_append_empty (s : String) : s ++ "" = s := by
  cases s with
  | mk l => show String.mk (l ++ []) = String.mk l
            rw [List.append_nil]

theorem floor_div24 (x : ℚ) : ⌊x / (24 : ℚ)⌋ = ⌊x⌋ / (24 : ℤ) := by
  have h := floor_div_pnat x 24 (by norm_num)
  push_cast at h
  exact h

theorem floor_pymod24 (x : ℚ) : ⌊pymod x (24 : ℚ)⌋ = ⌊x⌋ % (24 : ℤ) := by
  have h := floor_pymod x 24 (by norm_num)
  push_cast at h
  exact h

theorem strTake5_mk30 (b i1 i2 : ℕ) : strTake (mk30 b i1 i2) 5 = mk30 b i1 i2 := rfl

theorem init_some30 (b i1 i2 : ℕ) (hb1 : 1 ≤ b) (hb2 : b ≤ 720) (h1 : i1 < 15) (h2 : i2 < 24) :
    GARSGrid.init (mk30 b i1 i2) (some 30) = some (cell30 b i1 i2) := by
  have hval : (30 : ℕ) ∈ GARS_VALID_RESOLUTIONS := by decide
  simp only [GARSGrid.init, if_pos hval, if_pos rfl, strTake5_mk30]
  exact init30_eq b i1 i2 hb1 hb2 h1 h2

theorem mk30_of_append (b i1 i2 : ℕ) :
    natTo3 b ++ (⟨[lchar i1, lchar i2]⟩ : String) = mk30 b i1 i2 := rfl

theorem from_latlon_30 (lat lon : ℚ) (h1 : -180 ≤ lon) (h2 : lon < 180)
    (h3 : -90 ≤ lat) (h4 : lat < 90) :
    GARSGrid.from_latlon lat lon 30 =
      some (cell30 (⌊2 * (lon + 180)⌋ + 1).toNat
        (⌊2 * (lat + 90)⌋.toNat / 24) (⌊2 * (lat + 90)⌋.toNat % 24)) := by
  have hne : lon ≠ 180 := ne_of_lt h2
  have hlatne : lat ≠ 90 := ne_of_lt h4
  have hpl : pymod (lon + 180) 360 = lon + 180 :=
    pymod_eq_self _ _ (by norm_num) (by linarith) (by linarith)
  have hpt : pymod (lat + 90) 180 = lat + 90 :=
    pymod_eq_self _ _ (by norm_num) (by linarith) (by linarith)
  have hcl : (lon + 180) * 2 = 2 * (lon + 180) := mul_comm _ _
  have hct : (lat + 90) * 2 = 2 * (lat + 90) := mul_comm _ _
  have hBf : ⌊2 * (lon + 180) + 1⌋ = ⌊2 * (lon + 180)⌋ + 1 := by
    exact_mod_cast Int.floor_add_int (2 * (lon + 180)) 1
  have hB0 : 0 ≤ ⌊2 * (lon + 180)⌋ := Int.floor_nonneg.mpr (by linarith)
  have hB1 : ⌊2 * (lon + 180)⌋ ≤ 719 := by
    have : (2 : ℚ) * (lon + 180) < 720 := by linarith
    have := Int.floor_lt.mpr (by exact_mod_cast this : 2 * (lon + 180) < ((720 : ℤ) : ℚ))
    omega
  have hT0 : 0 ≤ ⌊2 * (lat + 90)⌋ := Int.floor_nonneg.mpr (by linarith)
  have hT1 : ⌊2 * (lat + 90)⌋ ≤ 359 := by
    have : (2 : ℚ) * (lat + 90) < 360 := by linarith
    have := Int.floor_lt.mpr (by exact_mod_cast this : 2 * (lat + 90) < ((360 : ℤ) : ℚ))
    omega
  have hdiv : (⌊2 * (lat + 90)⌋ / 24).toNat = ⌊2 * (lat + 90)⌋.toNat / 24 := by omega
  have hmod : (⌊2 * (lat + 90)⌋ % 24).toNat = ⌊2 * (lat + 90)⌋.toNat % 24 := by omega
  unfold GARSGrid.from_latlon
  rw [if_pos (show (30 : ℕ) ∈ GARS_VALID_RESOLUTIONS by decide),
    if_pos hne, if_pos hlatne, hpl, hpt]
  simp only [if_neg (by norm_num : ¬ (30 : ℕ) < 30), if_neg (by norm_num : ¬ (30 : ℕ) < 15),
    if_neg (by norm_num : ¬ (30 : ℕ) < 5)]
  rw [str_append_empty, str_append_empty, str_append_empty]
  rw [hcl, hct, hBf, floor_div24, floor_pymod24, hdiv, hmod, mk30_of_append]
  exact init_some30 _ _ _ (by omega) (by omega) (by omega) (by omega)

/-! ### Canonical identifier shapes of the giant-extended codec -/

def mkGed60 (n i : ℕ) : String := ⟨['G', 'D', dCh n, gedChar i]⟩

def mkGed30 (n i d : ℕ) : String := ⟨['G', 'D', dCh n, gedChar i, dCh d]⟩

def gedCell60 (n i : ℕ) : GEDGARSGrid :=
  ⟨mkGed60 n i, ⟨[dCh n, gedChar i]⟩, none, 60⟩

def gedCell30 (n i d : ℕ) : GEDGARSGrid :=
  ⟨mkGed30 n i d, ⟨[dCh n, gedChar i]⟩, some (dStr d), 30⟩

theorem gedChar_range : ∀ i : ℕ, i < 3 →
    decide (('A' : Char) ≤ gedChar i) = true ∧ decide (gedChar i ≤ ('C' : Char)) = true := by
  decide

theorem gedChar_indexOf : ∀ i : ℕ, i < 3 → GED_LETTERS.indexOf (gedChar i) = i := by decide

theorem char_AC_inv {c : Char} (h1 : ('A' : Char) ≤ c) (h2 : c ≤ ('C' : Char)) :
    ∃ i, i < 3 ∧ gedChar i = c := by
  have a1 : 65 ≤ c.toNat := h1
  have a2 : c.toNat ≤ 67 := h2
  have h3 : c.toNat = 65 ∨ c.toNat = 66 ∨ c.toNat = 67 := by omega
  rcases h3 with h | h | h
  · exact ⟨0, by omega, by rw [← Char.ofNat_toNat c, h]; rfl⟩
  · exact ⟨1, by omega, by rw [← Char.ofNat_toNat c, h]; rfl⟩
  · exact ⟨2, by omega, by rw [← Char.ofNat_toNat c, h]; rfl⟩

theorem gedInit60_eq (n i : ℕ) (hn1 : 1 ≤ n) (hn2 : n ≤ 6) (hi : i < 3) :
    GEDGARSGrid.init (mkGed60 n i) none = some (gedCell60 n i) := by
  have e1 : isDigitCh (dCh n) = true := isDigitCh_dCh _ (by omega)
  obtain ⟨r1, r2⟩ := gedChar_range i hi
  have hdv : digitVal (dCh n) = n := digitVal_dCh _ (by omega)
  simp only [GEDGARSGrid.init, GEDGARSGrid.initCore, mkGed60, gedRegexMatch, e1, r1, r2,
    Bool.and_self, Bool.true_and, Bool.and_true, if_true]
  rw [if_neg (by simp only [charAt, List.getD_cons_zero, hdv]; omega)]
  rfl

theorem gedInit30_eq (n i d : ℕ) (hn1 : 1 ≤ n) (hn2 : n ≤ 6) (hi : i < 3)
    (hd1 : 1 ≤ d) (hd2 : d ≤ 4) :
    GEDGARSGrid.init (mkGed30 n i d) none = some (gedCell30 n i d) := by
  have e1 : isDigitCh (dCh n) = true := isDigitCh_dCh _ (by omega)
  obtain ⟨r1, r2⟩ := gedChar_range i hi
  have hdv : digitVal (dCh n) = n := digitVal_dCh _ (by omega)
  simp only [GEDGARSGrid.init, GEDGARSGrid.initCore, mkGed30, gedRegexMatch, e1, r1, r2,
    dCh_ge_one d hd1 (by omega), dCh_le_four d hd2,
    Bool.and_self, Bool.true_and, Bool.and_true, if_true]
  rw [if_neg (by simp only [charAt, List.getD_cons_zero, hdv]; omega)]
  rfl

/-- Complete inversion of `GEDGARSGrid.init` with no `max_resolution`. -/
theorem ged_init_none_inv {s : String} {g : GEDGARSGrid}
    (h : GEDGARSGrid.init s none = some g) :
    ∃ n i, 1 ≤ n ∧ n ≤ 6 ∧ i < 3 ∧
      ((s = mkGed60 n i ∧ g = gedCell60 n i) ∨
       (∃ d, 1 ≤ d ∧ d ≤ 4 ∧ s = mkGed30 n i d ∧ g = gedCell30 n i d)) := by
  obtain ⟨l⟩ := s
  simp only [GEDGARSGrid.init] at h
  unfold GEDGARSGrid.initCore at h
  cases hm : gedRegexMatch ⟨l⟩ with
  | none => rw [hm] at h; exact absurd h (by simp)
  | some m =>
    rw [hm] at h
    unfold gedRegexMatch at hm
    split at hm
    case _ d1 a1 heq =>
      have hl : l = ['G', 'D', d1, a1] := heq
      subst hl
      split at hm
      case _ hcond =>
        simp only [Bool.and_eq_true, decide_eq_true_eq] at hcond
        obtain ⟨⟨hd1, ha1⟩, ha2⟩ := hcond
        injection hm with hm'
        subst hm'
        simp only [] at h
        split at h
        case _ => exact absurd h (by simp)
        case _ hlon =>
          simp only [charAt, List.getD_cons_zero] at hlon
          push_neg at hlon
          injection h with h'
          obtain ⟨i, hi, hic⟩ := char_AC_inv ha1 ha2
          have hdd : dCh (digitVal d1) = d1 := dCh_digitVal' (isDigitCh_toNat hd1).1
          refine ⟨digitVal d1, i, hlon.1, hlon.2, hi, Or.inl ⟨?_, ?_⟩⟩
          · simp only [mkGed60, hic, hdd]
          · rw [← h']
            simp only [gedCell60, mkGed60, hic, hdd]
      case _ => exact absurd hm (by simp)
    case _ d1 a1 q heq =>
      have hl : l = ['G', 'D', d1, a1, q] := heq
      subst hl
      split at hm
      case _ hcond =>
        simp only [Bool.and_eq_true, decide_eq_true_eq] at hcond
        obtain ⟨⟨⟨⟨hd1, ha1⟩, ha2⟩, hq1⟩, hq2⟩ := hcond
        injection hm with hm'
        subst hm'
        simp only [] at h
        split at h
        case _ => exact absurd h (by simp)
        case _ hlon =>
          simp only [charAt, List.getD_cons_zero] at hlon
          push_neg at hlon
          injection h with h'
          obtain ⟨i, hi, hic⟩ := char_AC_inv ha1 ha2
          have hdd : dCh (digitVal d1) = d1 := dCh_digitVal' (isDigitCh_toNat hd1).1
          have hqa : 49 ≤ q.toNat := hq1
          have hqb : q.toNat ≤ 52 := hq2
          have hqd : dCh (digitVal q) = q := dCh_digitVal' (by omega)
          have hdV : digitVal q = q.toNat - 48 := rfl
          refine ⟨digitVal d1, i, hlon.1, hlon.2, hi,
            Or.inr ⟨digitVal q, by omega, by omega, ?_, ?_⟩⟩
          · simp only [mkGed30, hic, hdd, hqd]
          · rw [← h']
            simp only [gedCell30, mkGed30, dStr, hic, hdd, hqd]
      case _ => exact absurd hm (by simp)
    case _ => exact absurd hm (by simp)

theorem polygon_gedCell60 (n i : ℕ) (hn : n ≤ 9) (hi : i < 3) :
    (gedCell60 n i).polygon =
      ⟨((n : ℚ) - 1) * 60 - 180, -90 + (i : ℚ) * 60,
       ((n : ℚ) - 1) * 60 - 180 + 60, -90 + (i : ℚ) * 60 + 60⟩ := by
  have hdv : digitVal (dCh n) = n := digitVal_dCh _ (by omega)
  simp only [GEDGARSGrid.polygon, gedCell60, charAt, List.getD_cons_zero, List.getD_cons_succ,
    hdv, gedChar_indexOf i hi]
  rw [Box.mk.injEq]
  refine ⟨?_, ?_, ?_, ?_⟩ <;> push_cast <;> ring

theorem polygon_gedCell30 (n i d : ℕ) (hn : n ≤ 9) (hi : i < 3) (hd1 : 1 ≤ d) (hd2 : d ≤ 4) :
    (gedCell30 n i d).polygon =
      ⟨((n : ℚ) - 1) * 60 - 180 + (if d = 2 ∨ d = 4 then 30 else 0),
       -90 + (i : ℚ) * 60 + (if d = 1 ∨ d = 2 then 30 else 0),
       ((n : ℚ) - 1) * 60 - 180 + (if d = 2 ∨ d = 4 then 30 else 0) + 30,
       -90 + (i : ℚ) * 60 + (if d = 1 ∨ d = 2 then 30 else 0) + 30⟩ := by
  have hdv : digitVal (dCh n) = n := digitVal_dCh _ (by omega)
  have hds : strToNat (dStr d) = d := by
    rw [dStr, strToNat1, digitVal_dCh _ (by omega)]
  simp only [GEDGARSGrid.polygon, gedCell30, charAt, List.getD_cons_zero, List.getD_cons_succ,
    hdv, gedChar_indexOf i hi, hds]
  rw [Box.mk.injEq]
  refine ⟨?_, ?_, ?_, ?_⟩ <;> push_cast <;> ring

/-! ### Canonical identifier shapes of the extended-degree codec -/

def mkEdLon (n : ℕ) : List Char := [dCh (n / 10), dCh (n % 10)]

def mkEd6 (n i1 i2 : ℕ) : String := ⟨'D' :: (mkEdLon n ++ [edChar i1, edChar i2])⟩

def mkEd3 (n i1 i2 d : ℕ) : String := ⟨'D' :: (mkEdLon n ++ [edChar i1, edChar i2, dCh d])⟩

def mkEd1 (n i1 i2 d e : ℕ) : String :=
  ⟨'D' :: (mkEdLon n ++ [edChar i1, edChar i2, dCh d, dCh e])⟩

def edQ6 (n i1 i2 : ℕ) : String := ⟨mkEdLon n ++ [edChar i1, edChar i2]⟩

def edCell6 (n i1 i2 : ℕ) : EDGARSGrid :=
  ⟨mkEd6 n i1 i2, edQ6 n i1 i2, none, none, 6⟩

def edCell3 (n i1 i2 d : ℕ) : EDGARSGrid :=
  ⟨mkEd3 n i1 i2 d, edQ6 n i1 i2, some (dStr d), none, 3⟩

def edCell1 (n i1 i2 d e : ℕ) : EDGARSGrid :=
  ⟨mkEd1 n i1 i2 d e, edQ6 n i1 i2, some (dStr d), some (dStr e), 1⟩

theorem edChar1_range : ∀ i : ℕ, i < 2 →
    decide (('A' : Char) ≤ edChar i) = true ∧ decide (edChar i ≤ ('B' : Char)) = true := by
  decide

theorem edLat2Chars_edChar : ∀ i : ℕ, i < 20 → edLat2Chars.contains (edChar i) = true := by
  decide

theorem edLat2Chars_mem : ∀ c ∈ edLat2Chars,
    EDGARSGrid.letIdx c < 20 ∧ edChar (EDGARSGrid.letIdx c) = c := by decide

theorem edChar_indexOf : ∀ i : ℕ, i < 20 → ED_LETTERS.indexOf (edChar i) = i := by decide

theorem char_AB_inv {c : Char} (h1 : ('A' : Char) ≤ c) (h2 : c ≤ ('B' : Char)) :
    ∃ i, i < 2 ∧ edChar i = c := by
  have a1 : 65 ≤ c.toNat := h1
  have a2 : c.toNat ≤ 66 := h2
  have h3 : c.toNat = 65 ∨ c.toNat = 66 := by omega
  rcases h3 with h | h
  · exact ⟨0, by omega, by rw [← Char.ofNat_toNat c, h]; rfl⟩
  · exact ⟨1, by omega, by rw [← Char.ofNat_toNat c, h]; rfl⟩

theorem edCap_iff : ∀ i1 : ℕ, i1 < 2 → ∀ i2 : ℕ, i2 < 20 →
    ((edChar i1 = 'B' ∧ 'K' < edChar i2) ↔ (i1 = 1 ∧ 10 ≤ i2)) := by decide

theorem edStrTake2 (n i1 i2 : ℕ) (hn : n ≤ 99) :
    strToNat (strTake (edQ6 n i1 i2) 2) = n := by
  simp only [edQ6, mkEdLon, strTake, List.cons_append, List.nil_append, List.take]
  rw [strToNat2, digitVal_dCh _ (by omega), digitVal_dCh _ (by omega)]
  omega

theorem edInit3_eq (n i1 i2 d : ℕ) (hn1 : 1 ≤ n) (hn2 : n ≤ 60) (h1 : i1 < 2) (h2 : i2 < 20)
    (hcap : ¬(i1 = 1 ∧ 10 ≤ i2)) (hd1 : 1 ≤ d) (hd2 : d ≤ 9) :
    EDGARSGrid.init (mkEd3 n i1 i2 d) none = some (edCell3 n i1 i2 d) := by
  have e1 : isDigitCh (dCh (n / 10)) = true := isDigitCh_dCh _ (by omega)
  have e2 : isDigitCh (dCh (n % 10)) = true := isDigitCh_dCh _ (by omega)
  obtain ⟨r1, r2⟩ := edChar1_range i1 h1
  have hsn : strToNat (strTake (⟨[dCh (n / 10), dCh (n % 10), edChar i1, edChar i2]⟩ :
      String) 2) = n := by
    simp only [strTake, List.take]
    rw [strToNat2, digitVal_dCh _ (by omega), digitVal_dCh _ (by omega)]
    omega
  simp only [EDGARSGrid.init, EDGARSGrid.initCore, mkEd3, mkEdLon, edRegexMatch,
    List.cons_append, List.nil_append, e1, e2, r1, r2, edLat2Chars_edChar i2 h2,
    dCh_ge_one d hd1 (by omega), dCh_le_nine d hd2,
    Bool.and_self, Bool.true_and, Bool.and_true, if_true]
  simp only [hsn]
  rw [if_neg (by omega)]
  rw [if_neg (by
    simp only [charAt, List.getD_cons_zero, List.getD_cons_succ]
    exact fun hc => hcap ((edCap_iff i1 h1 i2 h2).mp hc))]
  rfl

theorem edInit1_eq (n i1 i2 d e : ℕ) (hn1 : 1 ≤ n) (hn2 : n ≤ 60) (h1 : i1 < 2) (h2 : i2 < 20)
    (hcap : ¬(i1 = 1 ∧ 10 ≤ i2)) (hd1 : 1 ≤ d) (hd2 : d ≤ 9) (he1 : 1 ≤ e) (he2 : e ≤ 9) :
    EDGARSGrid.init (mkEd1 n i1 i2 d e) none = some (edCell1 n i1 i2 d e) := by
  have e1 : isDigitCh (dCh (n / 10)) = true := isDigitCh_dCh _ (by omega)
  have e2 : isDigitCh (dCh (n % 10)) = true := isDigitCh_dCh _ (by omega)
  obtain ⟨r1, r2⟩ := edChar1_range i1 h1
  have hsn : strToNat (strTake (⟨[dCh (n / 10), dCh (n % 10), edChar i1, edChar i2]⟩ :
      String) 2) = n := by
    simp only [strTake, List.take]
    rw [strToNat2, digitVal_dCh _ (by omega), digitVal_dCh _ (by omega)]
    omega
  simp only [EDGARSGrid.init, EDGARSGrid.initCore, mkEd1, mkEdLon, edRegexMatch,
    List.cons_append, List.nil_append, e1, e2, r1, r2, edLat2Chars_edChar i2 h2,
    dCh_ge_one d hd1 (by omega), dCh_le_nine d hd2,
    dCh_ge_one e he1 (by omega), dCh_le_nine e he2,
    Bool.and_self, Bool.true_and, Bool.and_true, if_true]
  simp only [hsn]
  rw [if_neg (by omega)]
  rw [if_neg (by
    simp only [charAt, List.getD_cons_zero, List.getD_cons_succ]
    exact fun hc => hcap ((edCap_iff i1 h1 i2 h2).mp hc))]
  rfl

/-- Complete inversion of `EDGARSGrid.init` with no `max_resolution`. -/
theorem ed_init_none_inv {s : String} {g : EDGARSGrid}
    (h : EDGARSGrid.init s none = some g) :
    ∃ n i1 i2, 1 ≤ n ∧ n ≤ 60 ∧ i1 < 2 ∧ i2 < 20 ∧ ¬(i1 = 1 ∧ 10 ≤ i2) ∧
      ((s = mkEd6 n i1 i2 ∧ g = edCell6 n i1 i2) ∨
       (∃ d, 1 ≤ d ∧ d ≤ 9 ∧ s = mkEd3 n i1 i2 d ∧ g = edCell3 n i1 i2 d) ∨
       (∃ d e, 1 ≤ d ∧ d ≤ 9 ∧ 1 ≤ e ∧ e ≤ 9 ∧
          s = mkEd1 n i1 i2 d e ∧ g = edCell1 n i1 i2 d e)) := by
  obtain ⟨l⟩ := s
  simp only [EDGARSGrid.init] at h
  unfold EDGARSGrid.initCore at h
  cases hm : edRegexMatch ⟨l⟩ with
  | none => rw [hm] at h; exact absurd h (by simp)
  | some m =>
    rw [hm] at h
    unfold edRegexMatch at hm
    split at hm
    case _ d1 d2 a1 a2 heq =>
      have hl : l = ['D', d1, d2, a1, a2] := heq
      subst hl
      split at hm
      case _ hcond =>
        simp only [Bool.and_eq_true, decide_eq_true_eq] at hcond
        obtain ⟨⟨⟨⟨hd1, hd2⟩, ha1⟩, hb1⟩, ha2⟩ := hcond
        injection hm with hm'
        subst hm'
        simp only [] at h
        split at h
        case _ => exact absurd h (by simp)
        case _ hlon =>
          push_neg at hlon
          split at h
          case _ => exact absurd h (by simp)
          case _ hcap =>
            injection h with h'
            obtain ⟨i1, hi1, hi1c⟩ := char_AB_inv ha1 hb1
            have ha2' := edLat2Chars_mem a2 (by simpa using ha2)
            have hdd1 : dCh (digitVal d1) = d1 := dCh_digitVal' (isDigitCh_toNat hd1).1
            have hdd2 : dCh (digitVal d2) = d2 := dCh_digitVal' (isDigitCh_toNat hd2).1
            have hv1 := digitVal_lt_of_isDigit hd1
            have hv2 := digitVal_lt_of_isDigit hd2
            have hn : strToNat (strTake (⟨[d1, d2, a1, a2]⟩ : String) 2) =
                10 * digitVal d1 + digitVal d2 := by
              simp only [strTake, List.take]; exact strToNat2 d1 d2
            rw [hn] at hlon
            have hlonlist : mkEdLon (10 * digitVal d1 + digitVal d2) = [d1, d2] := by
              unfold mkEdLon
              have g1 : (10 * digitVal d1 + digitVal d2) / 10 = digitVal d1 := by omega
              have g2 : (10 * digitVal d1 + digitVal d2) % 10 = digitVal d2 := by omega
              rw [g1, g2, hdd1, hdd2]
            have hcap' : ¬(i1 = 1 ∧ 10 ≤ EDGARSGrid.letIdx a2) := by
              intro hc
              refine hcap ?_
              have := (edCap_iff i1 hi1 (EDGARSGrid.letIdx a2) ha2'.1).mpr hc
              simp only [charAt, List.getD_cons_zero, List.getD_cons_succ]
              rw [hi1c] at this
              rw [ha2'.2] at this
              exact this
            refine ⟨10 * digitVal d1 + digitVal d2, i1, EDGARSGrid.letIdx a2,
              hlon.1, hlon.2, hi1, ha2'.1, hcap', Or.inl ⟨?_, ?_⟩⟩
            · simp only [mkEd6, hlonlist, hi1c, ha2'.2]
              rfl
            · rw [← h']
              simp only [edCell6, mkEd6, edQ6, hlonlist, hi1c, ha2'.2]
              rfl
      case _ => exact absurd hm (by simp)
    case _ d1 d2 a1 a2 q heq =>
      have hl : l = ['D', d1, d2, a1, a2, q] := heq
      subst hl
      split at hm
      case _ hcond =>
        simp only [Bool.and_eq_true, decide_eq_true_eq] at hcond
        obtain ⟨⟨⟨⟨⟨⟨hd1, hd2⟩, ha1⟩, hb1⟩, ha2⟩, hq1⟩, hq2⟩ := hcond
        injection hm with hm'
        subst hm'
        simp only [] at h
        split at h
        case _ => exact absurd h (by simp)
        case _ hlon =>
          push_neg at hlon
          split at h
          case _ => exact absurd h (by simp)
          case _ hcap =>
            injection h with h'
            obtain ⟨i1, hi1, hi1c⟩ := char_AB_inv ha1 hb1
            have ha2' := edLat2Chars_mem a2 (by simpa using ha2)
            have hdd1 : dCh (digitVal d1) = d1 := dCh_digitVal' (isDigitCh_toNat hd1).1
            have hdd2 : dCh (digitVal d2) = d2 := dCh_digitVal' (isDigitCh_toNat hd2).1
            have hv1 := digitVal_lt_of_isDigit hd1
            have hv2 := digitVal_lt_of_isDigit hd2
            have hn : strToNat (strTake (⟨[d1, d2, a1, a2]⟩ : String) 2) =
                10 * digitVal d1 + digitVal d2 := by
              simp only [strTake, List.take]; exact strToNat2 d1 d2
            rw [hn] at hlon
            have hlonlist : mkEdLon (10 * digitVal d1 + digitVal d2) = [d1, d2] := by
              unfold mkEdLon
              have g1 : (10 * digitVal d1 + digitVal d2) / 10 = digitVal d1 := by omega
              have g2 : (10 * digitVal d1 + digitVal d2) % 10 = digitVal d2 := by omega
              rw [g1, g2, hdd1, hdd2]
            have hcap' : ¬(i1 = 1 ∧ 10 ≤ EDGARSGrid.letIdx a2) := by
              intro hc
              refine hcap ?_
              have := (edCap_iff i1 hi1 (EDGARSGrid.letIdx a2) ha2'.1).mpr hc
              simp only [charAt, List.getD_cons_zero, List.getD_cons_succ]
              rw [hi1c] at this
              rw [ha2'.2] at this
              exact this
            have hqa : 49 ≤ q.toNat := hq1
            have hqb : q.toNat ≤ 57 := hq2
            have hqd : dCh (digitVal q) = q := dCh_digitVal' (by omega)
            have hdV : digitVal q = q.toNat - 48 := rfl
            refine ⟨10 * digitVal d1 + digitVal d2, i1, EDGARSGrid.letIdx a2,
              hlon.1, hlon.2, hi1, ha2'.1, hcap',
              Or.inr (Or.inl ⟨digitVal q, by omega, by omega, ?_, ?_⟩)⟩
            · simp only [mkEd3, hlonlist, hi1c, ha2'.2, hqd]
              rfl
            · rw [← h']
              simp only [edCell3, mkEd3, edQ6, dStr, hlonlist, hi1c, ha2'.2, hqd]
              rfl
      case _ => exact absurd hm (by simp)
    case _ d1 d2 a1 a2 q k heq =>
      have hl : l = ['D', d1, d2, a1, a2, q, k] := heq
      subst hl
      split at hm
      case _ hcond =>
        simp only [Bool.and_eq_true, decide_eq_true_eq] at hcond
        obtain ⟨⟨⟨⟨⟨⟨⟨⟨hd1, hd2⟩, ha1⟩, hb1⟩, ha2⟩, hq1⟩, hq2⟩, hk1⟩, hk2⟩ := hcond
        injection hm with hm'
        subst hm'
        simp only [] at h
        split at h
        case _ => exact absurd h (by simp)
        case _ hlon =>
          push_neg at hlon
          split at h
          case _ => exact absurd h (by simp)
          case _ hcap =>
            injection h with h'
            obtain ⟨i1, hi1, hi1c⟩ := char_AB_inv ha1 hb1
            have ha2' := edLat2Chars_mem a2 (by simpa using ha2)
            have hdd1 : dCh (digitVal d1) = d1 := dCh_digitVal' (isDigitCh_toNat hd1).1
            have hdd2 : dCh (digitVal d2) = d2 := dCh_digitVal' (isDigitCh_toNat hd2).1
            have hv1 := digitVal_lt_of_isDigit hd1
            have hv2 := digitVal_lt_of_isDigit hd2
            have hn : strToNat (strTake (⟨[d1, d2, a1, a2]⟩ : String) 2) =
                10 * digitVal d1 + digitVal d2 := by
              simp only [strTake, List.take]; exact strToNat2 d1 d2
            rw [hn] at hlon
            have hlonlist : mkEdLon (10 * digitVal d1 + digitVal d2) = [d1, d2] := by
              unfold mkEdLon
              have g1 : (10 * digitVal d1 + digitVal d2) / 10 = digitVal d1 := by omega
              have g2 : (10 * digitVal d1 + digitVal d2) % 10 = digitVal d2 := by omega
              rw [g1, g2, hdd1, hdd2]
            have hcap' : ¬(i1 = 1 ∧ 10 ≤ EDGARSGrid.letIdx a2) := by
              intro hc
              refine hcap ?_
              have := (edCap_iff i1 hi1 (EDGARSGrid.letIdx a2) ha2'.1).mpr hc
              simp only [charAt, List.getD_cons_zero, List.getD_cons_succ]
              rw [hi1c] at this
              rw [ha2'.2] at this
              exact this
            have hqa : 49 ≤ q.toNat := hq1
            have hqb : q.toNat ≤ 57 := hq2
            have hqd : dCh (digitVal q) = q := dCh_digitVal' (by omega)
            have hka : 49 ≤ k.toNat := hk1
            have hkb : k.toNat ≤ 57 := hk2
            have hkd : dCh (digitVal k) = k := dCh_digitVal' (by omega)
            have hdV : digitVal q = q.toNat - 48 := rfl
            have hdK : digitVal k = k.toNat - 48 := rfl
            refine ⟨10 * digitVal d1 + digitVal d2, i1, EDGARSGrid.letIdx a2,
              hlon.1, hlon.2, hi1, ha2'.1, hcap',
              Or.inr (Or.inr ⟨digitVal q, digitVal k, by omega, by omega, by omega, by omega,
                ?_, ?_⟩)⟩
            · simp only [mkEd1, hlonlist, hi1c, ha2'.2, hqd, hkd]
              rfl
            · rw [← h']
              simp only [edCell1, mkEd1, edQ6, dStr, hlonlist, hi1c, ha2'.2, hqd, hkd]
              rfl
      case _ => exact absurd hm (by simp)
    case _ => exact absurd hm (by simp)

/-! ### Bounding boxes of the extended-degree cells -/

def elon0 (n : ℕ) : ℚ := ((n : ℚ) - 1) * 6 - 180

def elat0 (i1 i2 : ℕ) : ℚ := (-90 + (i1 : ℚ) * 120) + (i2 : ℚ) * 6

def ex3 (d : ℕ) : ℚ := if d = 2 ∨ d = 4 then 3 else 0

def ey3 (d : ℕ) : ℚ := if d = 1 ∨ d = 2 then 3 else 0

def ex1 (e : ℕ) : ℚ :=
  if e = 2 ∨ e = 5 ∨ e = 8 then 1 else if e = 3 ∨ e = 6 ∨ e = 9 then 2 else 0

def ey1 (e : ℕ) : ℚ :=
  if e = 4 ∨ e = 5 ∨ e = 6 then 1 else if e = 1 ∨ e = 2 ∨ e = 3 then 2 else 0

theorem polygon_edCell6 (n i1 i2 : ℕ) (hn : n ≤ 99) (h1 : i1 < 20) (h2 : i2 < 20) :
    (edCell6 n i1 i2).polygon =
      ⟨elon0 n, elat0 i1 i2, elon0 n + 6, elat0 i1 i2 + 6⟩ := by
  have hsn : strToNat (strTake (edQ6 n i1 i2) 2) = n := edStrTake2 n i1 i2 hn
  have hc2 : charAt (edQ6 n i1 i2) 2 = edChar i1 := by
    simp [edQ6, mkEdLon, charAt]
  have hc3 : charAt (edQ6 n i1 i2) 3 = edChar i2 := by
    simp [edQ6, mkEdLon, charAt]
  simp only [EDGARSGrid.polygon, edCell6, hsn, hc2, hc3, EDGARSGrid.letIdx,
    edChar_indexOf i1 h1, edChar_indexOf i2 h2]
  simp only [elon0, elat0]
  rw [Box.mk.injEq]
  refine ⟨?_, ?_, ?_, ?_⟩ <;> push_cast <;> ring

theorem polygon_edCell3 (n i1 i2 d : ℕ) (hn : n ≤ 99) (h1 : i1 < 20) (h2 : i2 < 20)
    (hd : d ≤ 9) :
    (edCell3 n i1 i2 d).polygon =
      ⟨elon0 n + ex3 d, elat0 i1 i2 + ey3 d,
       elon0 n + ex3 d + 3, elat0 i1 i2 + ey3 d + 3⟩ := by
  have hsn : strToNat (strTake (edQ6 n i1 i2) 2) = n := edStrTake2 n i1 i2 hn
  have hc2 : charAt (edQ6 n i1 i2) 2 = edChar i1 := by
    simp [edQ6, mkEdLon, charAt]
  have hc3 : charAt (edQ6 n i1 i2) 3 = edChar i2 := by
    simp [edQ6, mkEdLon, charAt]
  have hds : strToNat (dStr d) = d := by
    rw [dStr, strToNat1, digitVal_dCh _ (by omega)]
  simp only [EDGARSGrid.polygon, edCell3, hsn, hc2, hc3, EDGARSGrid.letIdx,
    edChar_indexOf i1 h1, edChar_indexOf i2 h2, hds]
  simp only [elon0, elat0, ex3, ey3]
  rw [Box.mk.injEq]
  refine ⟨?_, ?_, ?_, ?_⟩ <;> push_cast <;> ring

theorem polygon_edCell1 (n i1 i2 d e : ℕ) (hn : n ≤ 99) (h1 : i1 < 20) (h2 : i2 < 20)
    (hd : d ≤ 9) (he : e ≤ 9) :
    (edCell1 n i1 i2 d e).polygon =
      ⟨elon0 n + ex3 d + ex1 e, elat0 i1 i2 + ey3 d + ey1 e,
       elon0 n + ex3 d + ex1 e + 1, elat0 i1 i2 + ey3 d + ey1 e + 1⟩ := by
  have hsn : strToNat (strTake (edQ6 n i1 i2) 2) = n := edStrTake2 n i1 i2 hn
  have hc2 : charAt (edQ6 n i1 i2) 2 = edChar i1 := by
    simp [edQ6, mkEdLon, charAt]
  have hc3 : charAt (edQ6 n i1 i2) 3 = edChar i2 := by
    simp [edQ6, mkEdLon, charAt]
  have hds : strToNat (dStr d) = d := by
    rw [dStr, strToNat1, digitVal_dCh _ (by omega)]
  have hes : strToNat (dStr e) = e := by
    rw [dStr, strToNat1, digitVal_dCh _ (by omega)]
  simp only [EDGARSGrid.polygon, edCell1, hsn, hc2, hc3, EDGARSGrid.letIdx,
    edChar_indexOf i1 h1, edChar_indexOf i2 h2, hds, hes]
  simp only [elon0, elat0, ex3, ey3, ex1, ey1]
  rw [Box.mk.injEq]
  refine ⟨?_, ?_, ?_, ?_⟩ <;> push_cast <;> ring

/-! ### Claims C7, C8, C9 -/


theorem GARSGrid.init_gars_id {s : String} {g : GARSGrid}
    (h : GARSGrid.init s none = some g) : g.gars_id = s := by
  simp only [GARSGrid.init] at h
  unfold GARSGrid.initCore at h
  cases hm : garsRegexMatch s with
  | none => rw [hm] at h; exact absurd h (by simp)
  | some m =>
    rw [hm] at h
    simp only [] at h
    split at h
    case _ => exact absurd h (by simp)
    case _ =>
      rcases m with ⟨q30, q15, q5, q1⟩
      cases q1 with
      | some q1v =>
        simp only [] at h
        split at h
        case _ => exact absurd h (by simp)
        case _ => injection h with h'; rw [← h']
      | none =>
        cases q5 with
        | some q5v =>
          simp only [] at h
          injection h with h'; rw [← h']
        | none =>
          cases q15 with
          | some q15v => simp only [] at h; injection h with h'; rw [← h']
          | none => simp only [] at h; injection h with h'; rw [← h']


theorem gars_init_conditions {s : String} {g : GARSGrid}
    (h : GARSGrid.init s none = some g) :
    ∃ m, garsRegexMatch s = some m ∧
      1 ≤ strToNat (strTake m.quadrant_30min 3) ∧
      strToNat (strTake m.quadrant_30min 3) ≤ 720 ∧
      (∀ q1, m.quadrant_1min = some q1 → 1 ≤ strToNat q1 ∧ strToNat q1 ≤ 25) := by
  simp only [GARSGrid.init] at h
  unfold GARSGrid.initCore at h
  cases hm : garsRegexMatch s with
  | none => rw [hm] at h; exact absurd h (by simp)
  | some m =>
    rw [hm] at h
    simp only [] at h
    split at h
    case _ => exact absurd h (by simp)
    case _ hlon =>
      refine ⟨m, rfl, by omega, by omega, ?_⟩
      intro q1v hq1v
      rw [hq1v] at h
      simp only [] at h
      split at h
      case _ => exact absurd h (by simp)
      case _ hkp => omega

theorem gars_init_succeeds {s : String} {m : GarsGroups}
    (hm : garsRegexMatch s = some m)
    (h1 : 1 ≤ strToNat (strTake m.quadrant_30min 3))
    (h2 : strToNat (strTake m.quadrant_30min 3) ≤ 720)
    (h3 : ∀ q1, m.quadrant_1min = some q1 → 1 ≤ strToNat q1 ∧ strToNat q1 ≤ 25) :
    GARSGrid.init s none ≠ none := by
  intro hnone
  simp only [GARSGrid.init] at hnone
  unfold GARSGrid.initCore at hnone
  rw [hm] at hnone
  simp only [] at hnone
  split at hnone
  case _ => omega
  case _ =>
    rcases m with ⟨q30, q15, q5, q1⟩
    cases q1 with
    | some q1v =>
      obtain ⟨k1, k2⟩ := h3 q1v rfl
      simp only [] at hnone
      split at hnone
      case _ => omega
      case _ => exact absurd hnone (by simp)
    | none =>
      cases q5 with
      | some q5v => simp at hnone
      | none =>
        cases q15 with
        | some q15v => simp at hnone
        | none => simp at hnone

/-- Claim C7: constructing a standard `GARSGrid` from an identifier string with
no `max_resolution` fails exactly when the string mismatches the grammar, or its
3-digit longitude band lies outside 001–720, or a present 2-digit 1-minute
keypad sub-index lies outside 01–25; on success the identifier is stored
unchanged. -/
theorem C7_standard_id_validation (s : String) :
    ((GARSGrid.init s none).isSome = true ↔
      ∃ m, garsRegexMatch s = some m ∧
        1 ≤ strToNat (strTake m.quadrant_30min 3) ∧
        strToNat (strTake m.quadrant_30min 3) ≤ 720 ∧
        (∀ q1, m.quadrant_1min = some q1 → 1 ≤ strToNat q1 ∧ strToNat q1 ≤ 25)) ∧
    (∀ g, GARSGrid.init s none = some g → g.gars_id = s) := by
  refine ⟨⟨?_, ?_⟩, fun g h => GARSGrid.init_gars_id h⟩
  · intro hs
    obtain ⟨g, hg⟩ := Option.isSome_iff_exists.mp hs
    exact gars_init_conditions hg
  · rintro ⟨m, hm, h1, h2, h3⟩
    have := gars_init_succeeds hm h1 h2 h3
    exact Option.isSome_iff_ne_none.mpr this

theorem C7_witness : (GARSGrid.init "006AG39" none).isSome = true :=
  (C7_standard_id_validation "006AG39").1.mpr
    ⟨⟨"006AG", some "3", some "9", none⟩, by decide, by decide, by decide, by decide⟩

theorem ed_init_conditions {s : String} {g : EDGARSGrid}
    (h : EDGARSGrid.init s none = some g) :
    ∃ m, edRegexMatch s = some m ∧
      1 ≤ strToNat (strTake m.quadrant_6deg 2) ∧
      strToNat (strTake m.quadrant_6deg 2) ≤ 60 ∧
      ¬(charAt m.quadrant_6deg 2 = 'B' ∧ 'K' < charAt m.quadrant_6deg 3) := by
  simp only [EDGARSGrid.init] at h
  unfold EDGARSGrid.initCore at h
  cases hm : edRegexMatch s with
  | none => rw [hm] at h; exact absurd h (by simp)
  | some m =>
    rw [hm] at h
    simp only [] at h
    split at h
    case _ => exact absurd h (by simp)
    case _ hlon =>
      split at h
      case _ => exact absurd h (by simp)
      case _ hcap => exact ⟨m, rfl, by omega, by omega, hcap⟩

theorem ed_init_succeeds {s : String} {m : EdGarsGroups}
    (hm : edRegexMatch s = some m)
    (h1 : 1 ≤ strToNat (strTake m.quadrant_6deg 2))
    (h2 : strToNat (strTake m.quadrant_6deg 2) ≤ 60)
    (hcap : ¬(charAt m.quadrant_6deg 2 = 'B' ∧ 'K' < charAt m.quadrant_6deg 3)) :
    EDGARSGrid.init s none ≠ none := by
  intro hnone
  simp only [EDGARSGrid.init] at hnone
  unfold EDGARSGrid.initCore at hnone
  rw [hm] at hnone
  simp only [] at hnone
  rcases m with ⟨q6, q3, q1⟩
  have h1' : 1 ≤ strToNat (strTake q6 2) := h1
  have h2' : strToNat (strTake q6 2) ≤ 60 := h2
  have hcap' : ¬(charAt q6 2 = 'B' ∧ 'K' < charAt q6 3) := hcap
  rw [if_neg (by omega)] at hnone
  rw [if_neg hcap'] at hnone
  cases q1 with
  | some q1v => simp at hnone
  | none =>
    cases q3 with
    | some q3v => simp at hnone
    | none => simp at hnone

/-- Claim C8: constructing an `EDGARSGrid` fails exactly when the identifier
mismatches the grammar, its 2-digit longitude band lies outside 01–60, or its
first latitude letter is "B" with the second past "K"; a grammar-conforming
identifier satisfying both bounds constructs successfully. -/
theorem C8_extended_id_validation (s : String) :
    (EDGARSGrid.init s none).isSome = true ↔
      ∃ m, edRegexMatch s = some m ∧
        1 ≤ strToNat (strTake m.quadrant_6deg 2) ∧
        strToNat (strTake m.quadrant_6deg 2) ≤ 60 ∧
        ¬(charAt m.quadrant_6deg 2 = 'B' ∧ 'K' < charAt m.quadrant_6deg 3) := by
  constructor
  · intro hs
    obtain ⟨g, hg⟩ := Option.isSome_iff_exists.mp hs
    exact ed_init_conditions hg
  · rintro ⟨m, hm, h1, h2, hcap⟩
    exact Option.isSome_iff_ne_none.mpr (ed_init_succeeds hm h1 h2 hcap)

theorem C8_witness : (EDGARSGrid.init "D01BK" none).isSome = true :=
  (C8_extended_id_validation "D01BK").mpr
    ⟨⟨"01BK", none, none⟩, by decide, by decide, by decide, by decide⟩

/-- Claim C9: every valid giant-extended cell has resolution 60 or 30, and at
either resolution its `utm_epsg` query returns `None` unconditionally (the
override never consults the CRS lookup collaborator). -/
theorem C9_ged_utm_not_applicable (s : String) (g : GEDGARSGrid)
    (h : GEDGARSGrid.init s none = some g) :
    (g.resolution = 60 ∨ g.resolution = 30) ∧ g.utm_epsg = none := by
  refine ⟨?_, rfl⟩
  obtain ⟨n, i, _, _, _, hc⟩ := ged_init_none_inv h
  rcases hc with ⟨_, hg⟩ | ⟨d, _, _, _, hg⟩ <;> subst hg
  · exact Or.inl rfl
  · exact Or.inr rfl

theorem C9_witness :
    GEDGARSGrid.init "GD1A1" none = some (gedCell30 1 0 1) ∧
    ((gedCell30 1 0 1).resolution = 60 ∨ (gedCell30 1 0 1).resolution = 30) ∧
    (gedCell30 1 0 1).utm_epsg = none :=
  ⟨by decide, C9_ged_utm_not_applicable "GD1A1" _ (by decide)⟩

/-! ### Claim C6: truncation idempotence -/

/-- Identifier width of each standard-codec resolution. -/
def garsWidth : ℕ → ℕ
  | 30 => 5
  | 15 => 6
  | 5 => 7
  | _ => 9

/-- Identifier width of each giant-extended-codec resolution. -/
def gedWidth : ℕ → ℕ
  | 60 => 4
  | _ => 5

theorem gars_init_some30 (s : String) :
    GARSGrid.init s (some 30) = GARSGrid.initCore (strTake s 5) := by
  simp [GARSGrid.init, GARS_VALID_RESOLUTIONS]

theorem gars_init_some15 (s : String) :
    GARSGrid.init s (some 15) = GARSGrid.initCore (strTake s 6) := by
  simp [GARSGrid.init, GARS_VALID_RESOLUTIONS]

theorem gars_init_some5 (s : String) :
    GARSGrid.init s (some 5) = GARSGrid.initCore (strTake s 7) := by
  simp [GARSGrid.init, GARS_VALID_RESOLUTIONS]

theorem gars_init_some1 (s : String) :
    GARSGrid.init s (some 1) = GARSGrid.initCore s := by
  simp [GARSGrid.init, GARS_VALID_RESOLUTIONS]

theorem ged_init_some60 (s : String) :
    GEDGARSGrid.init s (some 60) = GEDGARSGrid.initCore (strTake s 4) := by
  simp [GEDGARSGrid.init, GED_VALID_RESOLUTIONS]

theorem ged_init_some30 (s : String) :
    GEDGARSGrid.init s (some 30) = GEDGARSGrid.initCore s := by
  simp [GEDGARSGrid.init, GED_VALID_RESOLUTIONS]

/-- Claim C6: for a valid identifier and a coarser (or equal) valid resolution,
constructing with `max_resolution` yields the same canonical identifier as
constructing from the identifier truncated to that resolution's field width:
the truncated string itself. Proven for the standard and the giant-extended
codec, the two variants whose constructors implement the truncation. -/
theorem C6_truncation_idempotence :
    (∀ (s : String) (g : GARSGrid) (r : ℕ), GARSGrid.init s none = some g →
      r ∈ GARS_VALID_RESOLUTIONS → g.resolution ≤ r →
      ∃ g1 g2, GARSGrid.init s (some r) = some g1 ∧
        GARSGrid.init (strTake s (garsWidth r)) none = some g2 ∧
        g1.gars_id = g2.gars_id ∧ g1.gars_id = strTake s (garsWidth r)) ∧
    (∀ (s : String) (g : GEDGARSGrid) (r : ℕ), GEDGARSGrid.init s none = some g →
      r ∈ GED_VALID_RESOLUTIONS → g.resolution ≤ r →
      ∃ g1 g2, GEDGARSGrid.init s (some r) = some g1 ∧
        GEDGARSGrid.init (strTake s (gedWidth r)) none = some g2 ∧
        g1.gars_id = g2.gars_id ∧ g1.gars_id = strTake s (gedWidth r)) := by
  constructor
  · intro s g r h hr hcoarse
    obtain ⟨b, i1, i2, hb1, hb2, hi1, hi2, hshape⟩ := gars_init_none_inv h
    have hr' : r = 1 ∨ r = 5 ∨ r = 15 ∨ r = 30 := by
      simpa [GARS_VALID_RESOLUTIONS] using hr
    rcases hshape with ⟨hs, hg⟩ | ⟨d, hd1, hd2, hs, hg⟩ |
      ⟨d, e, hd1, hd2, he1, he2, hs, hg⟩ |
      ⟨d, e, k, hd1, hd2, he1, he2, hk1, hk2, hs, hg⟩ <;> subst hs <;> subst hg
    · -- resolution 30: only r = 30 is coarser or equal
      have hres : (cell30 b i1 i2).resolution = 30 := rfl
      rcases hr' with hr0 | hr0 | hr0 | hr0 <;> subst hr0
      · exact absurd hcoarse (by simp [hres])
      · exact absurd hcoarse (by simp [hres])
      · exact absurd hcoarse (by simp [hres])
      · refine ⟨cell30 b i1 i2, cell30 b i1 i2, ?_, ?_, rfl, rfl⟩
        · rw [gars_init_some30]
          exact init30_eq b i1 i2 hb1 hb2 (by omega) hi2
        · exact init30_eq b i1 i2 hb1 hb2 (by omega) hi2
    · -- resolution 15: r = 15 or r = 30
      have hres : (cell15 b i1 i2 d).resolution = 15 := rfl
      rcases hr' with hr0 | hr0 | hr0 | hr0 <;> subst hr0
      · exact absurd hcoarse (by simp [hres])
      · exact absurd hcoarse (by simp [hres])
      · refine ⟨cell15 b i1 i2 d, cell15 b i1 i2 d, ?_, ?_, rfl, rfl⟩
        · rw [gars_init_some15]
          exact init15_eq b i1 i2 d hb1 hb2 (by omega) hi2 hd1 hd2
        · exact init15_eq b i1 i2 d hb1 hb2 (by omega) hi2 hd1 hd2
      · refine ⟨cell30 b i1 i2, cell30 b i1 i2, ?_, ?_, rfl, rfl⟩
        · rw [gars_init_some30]
          exact init30_eq b i1 i2 hb1 hb2 (by omega) hi2
        · exact init30_eq b i1 i2 hb1 hb2 (by omega) hi2
    · -- resolution 5: r = 5, 15 or 30
      have hres : (cell5 b i1 i2 d e).resolution = 5 := rfl
      rcases hr' with hr0 | hr0 | hr0 | hr0 <;> subst hr0
      · exact absurd hcoarse (by simp [hres])
      · refine ⟨cell5 b i1 i2 d e, cell5 b i1 i2 d e, ?_, ?_, rfl, rfl⟩
        · rw [gars_init_some5]
          exact init5_eq b i1 i2 d e hb1 hb2 (by omega) hi2 hd1 hd2 he1 he2
        · exact init5_eq b i1 i2 d e hb1 hb2 (by omega) hi2 hd1 hd2 he1 he2
      · refine ⟨cell15 b i1 i2 d, cell15 b i1 i2 d, ?_, ?_, rfl, rfl⟩
        · rw [gars_init_some15]
          exact init15_eq b i1 i2 d hb1 hb2 (by omega) hi2 hd1 hd2
        · exact init15_eq b i1 i2 d hb1 hb2 (by omega) hi2 hd1 hd2
      · refine ⟨cell30 b i1 i2, cell30 b i1 i2, ?_, ?_, rfl, rfl⟩
        · rw [gars_init_some30]
          exact init30_eq b i1 i2 hb1 hb2 (by omega) hi2
        · exact init30_eq b i1 i2 hb1 hb2 (by omega) hi2
    · -- resolution 1: any valid r
      rcases hr' with hr0 | hr0 | hr0 | hr0 <;> subst hr0
      · refine ⟨cell1 b i1 i2 d e k, cell1 b i1 i2 d e k, ?_, ?_, rfl, rfl⟩
        · rw [gars_init_some1]
          exact init1_eq b i1 i2 d e k hb1 hb2 (by omega) hi2 hd1 hd2 he1 he2 hk1 hk2
        · exact init1_eq b i1 i2 d e k hb1 hb2 (by omega) hi2 hd1 hd2 he1 he2 hk1 hk2
      · refine ⟨cell5 b i1 i2 d e, cell5 b i1 i2 d e, ?_, ?_, rfl, rfl⟩
        · rw [gars_init_some5]
          exact init5_eq b i1 i2 d e hb1 hb2 (by omega) hi2 hd1 hd2 he1 he2
        · exact init5_eq b i1 i2 d e hb1 hb2 (by omega) hi2 hd1 hd2 he1 he2
      · refine ⟨cell15 b i1 i2 d, cell15 b i1 i2 d, ?_, ?_, rfl, rfl⟩
        · rw [gars_init_some15]
          exact init15_eq b i1 i2 d hb1 hb2 (by omega) hi2 hd1 hd2
        · exact init15_eq b i1 i2 d hb1 hb2 (by omega) hi2 hd1 hd2
      · refine ⟨cell30 b i1 i2, cell30 b i1 i2, ?_, ?_, rfl, rfl⟩
        · rw [gars_init_some30]
          exact init30_eq b i1 i2 hb1 hb2 (by omega) hi2
        · exact init30_eq b i1 i2 hb1 hb2 (by omega) hi2
  · intro s g r h hr hcoarse
    obtain ⟨n, i, hn1, hn2, hi, hshape⟩ := ged_init_none_inv h
    have hr' : r = 30 ∨ r = 60 := by
      simpa [GED_VALID_RESOLUTIONS] using hr
    rcases hshape with ⟨hs, hg⟩ | ⟨d, hd1, hd2, hs, hg⟩ <;> subst hs <;> subst hg
    · rcases hr' with hr0 | hr0 <;> subst hr0
      · exact absurd hcoarse (by simp [gedCell60])
      · refine ⟨gedCell60 n i, gedCell60 n i, ?_, ?_, rfl, rfl⟩
        · rw [ged_init_some60]
          exact gedInit60_eq n i hn1 hn2 hi
        · exact gedInit60_eq n i hn1 hn2 hi
    · rcases hr' with hr0 | hr0 <;> subst hr0
      · refine ⟨gedCell30 n i d, gedCell30 n i d, ?_, ?_, rfl, rfl⟩
        · rw [ged_init_some30]
          exact gedInit30_eq n i d hn1 hn2 hi hd1 hd2
        · exact gedInit30_eq n i d hn1 hn2 hi hd1 hd2
      · refine ⟨gedCell60 n i, gedCell60 n i, ?_, ?_, rfl, rfl⟩
        · rw [ged_init_some60]
          exact gedInit60_eq n i hn1 hn2 hi
        · exact gedInit60_eq n i hn1 hn2 hi

theorem C6_witness :
    ∃ g1 g2, GARSGrid.init "006AG39" (some 15) = some g1 ∧
      GARSGrid.init (strTake "006AG39" (garsWidth 15)) none = some g2 ∧
      g1.gars_id = g2.gars_id ∧ g1.gars_id = strTake "006AG39" (garsWidth 15) :=
  C6_truncation_idempotence.1 "006AG39" (cell5 6 0 6 3 9) 15 (by decide) (by decide) (by decide)

/-! ### Claim C10: longitude 180 always fails validation -/

theorem strToNat_721 (a1 a2 : Char) (rest : List Char) :
    strToNat (strTake (⟨'7' :: '2' :: '1' :: a1 :: a2 :: rest⟩ : String) 3) = 721 := by
  simp only [strTake, List.take]
  decide

theorem gars_initCore_721 (rest : List Char) :
    GARSGrid.initCore ⟨'7' :: '2' :: '1' :: rest⟩ = none := by
  unfold GARSGrid.initCore
  cases hm : garsRegexMatch ⟨'7' :: '2' :: '1' :: rest⟩ with
  | none => rfl
  | some m =>
    unfold garsRegexMatch at hm
    split at hm
    case _ d1 d2 d3 a1 a2 heq =>
      simp only [List.cons.injEq] at heq
      obtain ⟨h1, h2, h3, hrest⟩ := heq
      split at hm
      case _ =>
        injection hm with hm'
        subst hm'
        subst h1; subst h2; subst h3
        simp only []
        rw [if_pos (Or.inr (by rw [show (⟨['7', '2', '1', a1, a2]⟩ : String) =
          ⟨'7' :: '2' :: '1' :: a1 :: a2 :: []⟩ from rfl, strToNat_721]; norm_num))]
      case _ => exact absurd hm (by simp)
    case _ d1 d2 d3 a1 a2 q heq =>
      simp only [List.cons.injEq] at heq
      obtain ⟨h1, h2, h3, hrest⟩ := heq
      split at hm
      case _ =>
        injection hm with hm'
        subst hm'
        subst h1; subst h2; subst h3
        simp only []
        rw [if_pos (Or.inr (by rw [show (⟨['7', '2', '1', a1, a2]⟩ : String) =
          ⟨'7' :: '2' :: '1' :: a1 :: a2 :: []⟩ from rfl, strToNat_721]; norm_num))]
      case _ => exact absurd hm (by simp)
    case _ d1 d2 d3 a1 a2 q k heq =>
      simp only [List.cons.injEq] at heq
      obtain ⟨h1, h2, h3, hrest⟩ := heq
      split at hm
      case _ =>
        injection hm with hm'
        subst hm'
        subst h1; subst h2; subst h3
        simp only []
        rw [if_pos (Or.inr (by rw [show (⟨['7', '2', '1', a1, a2]⟩ : String) =
          ⟨'7' :: '2' :: '1' :: a1 :: a2 :: []⟩ from rfl, strToNat_721]; norm_num))]
      case _ => exact absurd hm (by simp)
    case _ d1 d2 d3 a1 a2 q k m1 m2 heq =>
      simp only [List.cons.injEq] at heq
      obtain ⟨h1, h2, h3, hrest⟩ := heq
      split at hm
      case _ =>
        injection hm with hm'
        subst hm'
        subst h1; subst h2; subst h3
        simp only []
        rw [if_pos (Or.inr (by rw [show (⟨['7', '2', '1', a1, a2]⟩ : String) =
          ⟨'7' :: '2' :: '1' :: a1 :: a2 :: []⟩ from rfl, strToNat_721]; norm_num))]
      case _ => exact absurd hm (by simp)
    case _ => exact absurd hm (by simp)

theorem strToNat_61 (a1 a2 : Char) (rest : List Char) :
    strToNat (strTake (⟨'6' :: '1' :: a1 :: a2 :: rest⟩ : String) 2) = 61 := by
  simp only [strTake, List.take]
  decide

theorem ed_initCore_61 (rest : List Char) :
    EDGARSGrid.initCore ⟨'D' :: '6' :: '1' :: rest⟩ = none := by
  unfold EDGARSGrid.initCore
  cases hm : edRegexMatch ⟨'D' :: '6' :: '1' :: rest⟩ with
  | none => rfl
  | some m =>
    unfold edRegexMatch at hm
    split at hm
    case _ d1 d2 a1 a2 heq =>
      simp only [List.cons.injEq] at heq
      obtain ⟨-, h1, h2, hrest⟩ := heq
      split at hm
      case _ =>
        injection hm with hm'
        subst hm'
        subst h1; subst h2
        simp only []
        rw [if_pos (Or.inr (by rw [show (⟨['6', '1', a1, a2]⟩ : String) =
          ⟨'6' :: '1' :: a1 :: a2 :: []⟩ from rfl, strToNat_61]; norm_num))]
      case _ => exact absurd hm (by simp)
    case _ d1 d2 a1 a2 q heq =>
      simp only [List.cons.injEq] at heq
      obtain ⟨-, h1, h2, hrest⟩ := heq
      split at hm
      case _ =>
        injection hm with hm'
        subst hm'
        subst h1; subst h2
        simp only []
        rw [if_pos (Or.inr (by rw [show (⟨['6', '1', a1, a2]⟩ : String) =
          ⟨'6' :: '1' :: a1 :: a2 :: []⟩ from rfl, strToNat_61]; norm_num))]
      case _ => exact absurd hm (by simp)
    case _ d1 d2 a1 a2 q k heq =>
      simp only [List.cons.injEq] at heq
      obtain ⟨-, h1, h2, hrest⟩ := heq
      split at hm
      case _ =>
        injection hm with hm'
        subst hm'
        subst h1; subst h2
        simp only []
        rw [if_pos (Or.inr (by rw [show (⟨['6', '1', a1, a2]⟩ : String) =
          ⟨'6' :: '1' :: a1 :: a2 :: []⟩ from rfl, strToNat_61]; norm_num))]
      case _ => exact absurd hm (by simp)
    case _ => exact absurd hm (by simp)

theorem ged_initCore_7 (rest : List Char) :
    GEDGARSGrid.initCore ⟨'G' :: 'D' :: '7' :: rest⟩ = none := by
  unfold GEDGARSGrid.initCore
  cases hm : gedRegexMatch ⟨'G' :: 'D' :: '7' :: rest⟩ with
  | none => rfl
  | some m =>
    unfold gedRegexMatch at hm
    split at hm
    case _ d1 a1 heq =>
      simp only [List.cons.injEq] at heq
      obtain ⟨-, -, h1, hrest⟩ := heq
      split at hm
      case _ =>
        injection hm with hm'
        subst hm'
        subst h1
        simp only []
        rw [if_pos (Or.inr (by
          simp only [charAt, List.getD_cons_zero]
          decide))]
      case _ => exact absurd hm (by simp)
    case _ d1 a1 q heq =>
      simp only [List.cons.injEq] at heq
      obtain ⟨-, -, h1, hrest⟩ := heq
      split at hm
      case _ =>
        injection hm with hm'
        subst hm'
        subst h1
        simp only []
        rw [if_pos (Or.inr (by
          simp only [charAt, List.getD_cons_zero]
          decide))]
      case _ => exact absurd hm (by simp)
    case _ => exact absurd hm (by simp)

theorem gars_init_721_none (rest : List Char) (r : ℕ) (hr : r ∈ GARS_VALID_RESOLUTIONS) :
    GARSGrid.init ⟨'7' :: '2' :: '1' :: rest⟩ (some r) = none := by
  have hr' : r = 1 ∨ r = 5 ∨ r = 15 ∨ r = 30 := by
    simpa [GARS_VALID_RESOLUTIONS] using hr
  rcases hr' with h | h | h | h <;> subst h
  · rw [gars_init_some1]; exact gars_initCore_721 rest
  · rw [gars_init_some5]
    have : strTake (⟨'7' :: '2' :: '1' :: rest⟩ : String) 7 =
        ⟨'7' :: '2' :: '1' :: rest.take 4⟩ := by
      simp [strTake]
    rw [this]; exact gars_initCore_721 _
  · rw [gars_init_some15]
    have : strTake (⟨'7' :: '2' :: '1' :: rest⟩ : String) 6 =
        ⟨'7' :: '2' :: '1' :: rest.take 3⟩ := by
      simp [strTake]
    rw [this]; exact gars_initCore_721 _
  · rw [gars_init_some30]
    have : strTake (⟨'7' :: '2' :: '1' :: rest⟩ : String) 5 =
        ⟨'7' :: '2' :: '1' :: rest.take 2⟩ := by
      simp [strTake]
    rw [this]; exact gars_initCore_721 _

theorem ed_init_61_none (rest : List Char) (r : ℕ) (hr : r ∈ ED_VALID_RESOLUTIONS) :
    EDGARSGrid.init ⟨'D' :: '6' :: '1' :: rest⟩ (some r) = none := by
  have hr' : r = 1 ∨ r = 3 ∨ r = 6 := by
    simpa [ED_VALID_RESOLUTIONS] using hr
  have h1 : EDGARSGrid.init (⟨'D' :: '6' :: '1' :: rest⟩ : String) (some 1) =
      EDGARSGrid.initCore ⟨'D' :: '6' :: '1' :: rest⟩ := by
    simp [EDGARSGrid.init, ED_VALID_RESOLUTIONS]
  have h3 : EDGARSGrid.init (⟨'D' :: '6' :: '1' :: rest⟩ : String) (some 3) =
      EDGARSGrid.initCore (strTake ⟨'D' :: '6' :: '1' :: rest⟩ 6) := by
    simp [EDGARSGrid.init, ED_VALID_RESOLUTIONS]
  have h6 : EDGARSGrid.init (⟨'D' :: '6' :: '1' :: rest⟩ : String) (some 6) =
      EDGARSGrid.initCore (strTake ⟨'D' :: '6' :: '1' :: rest⟩ 5) := by
    simp [EDGARSGrid.init, ED_VALID_RESOLUTIONS]
  rcases hr' with h | h | h <;> subst h
  · rw [h1]; exact ed_initCore_61 rest
  · rw [h3]
    have : strTake (⟨'D' :: '6' :: '1' :: rest⟩ : String) 6 =
        ⟨'D' :: '6' :: '1' :: rest.take 3⟩ := by
      simp [strTake]
    rw [this]; exact ed_initCore_61 _
  · rw [h6]
    have : strTake (⟨'D' :: '6' :: '1' :: rest⟩ : String) 5 =
        ⟨'D' :: '6' :: '1' :: rest.take 2⟩ := by
      simp [strTake]
    rw [this]; exact ed_initCore_61 _

theorem ged_init_7_none (rest : List Char) (r : ℕ) (hr : r ∈ GED_VALID_RESOLUTIONS) :
    GEDGARSGrid.init ⟨'G' :: 'D' :: '7' :: rest⟩ (some r) = none := by
  have hr' : r = 30 ∨ r = 60 := by
    simpa [GED_VALID_RESOLUTIONS] using hr
  rcases hr' with h | h <;> subst h
  · rw [ged_init_some30]; exact ged_initCore_7 rest
  · rw [ged_init_some60]
    have : strTake (⟨'G' :: 'D' :: '7' :: rest⟩ : String) 4 =
        ⟨'G' :: 'D' :: '7' :: rest.take 1⟩ := by
      simp [strTake]
    rw [this]; exact ged_initCore_7 _

theorem init_prefix_gars (s : String) (h : s.data.take 3 = ['7', '2', '1']) (r : ℕ)
    (hr : r ∈ GARS_VALID_RESOLUTIONS) : GARSGrid.init s (some r) = none := by
  have hd : s.data = '7' :: '2' :: '1' :: s.data.drop 3 := by
    conv_lhs => rw [← List.take_append_drop 3 s.data]
    rw [h]
    rfl
  have hs : s = ⟨'7' :: '2' :: '1' :: s.data.drop 3⟩ := congrArg String.mk hd
  rw [hs]
  exact gars_init_721_none _ r hr

theorem init_prefix_ed (s : String) (h : s.data.take 3 = ['D', '6', '1']) (r : ℕ)
    (hr : r ∈ ED_VALID_RESOLUTIONS) : EDGARSGrid.init s (some r) = none := by
  have hd : s.data = 'D' :: '6' :: '1' :: s.data.drop 3 := by
    conv_lhs => rw [← List.take_append_drop 3 s.data]
    rw [h]
    rfl
  have hs : s = ⟨'D' :: '6' :: '1' :: s.data.drop 3⟩ := congrArg String.mk hd
  rw [hs]
  exact ed_init_61_none _ r hr

theorem init_prefix_ged (s : String) (h : s.data.take 3 = ['G', 'D', '7']) (r : ℕ)
    (hr : r ∈ GED_VALID_RESOLUTIONS) : GEDGARSGrid.init s (some r) = none := by
  have hd : s.data = 'G' :: 'D' :: '7' :: s.data.drop 3 := by
    conv_lhs => rw [← List.take_append_drop 3 s.data]
    rw [h]
    rfl
  have hs : s = ⟨'G' :: 'D' :: '7' :: s.data.drop 3⟩ := congrArg String.mk hd
  rw [hs]
  exact ged_init_7_none _ r hr

/-- Claim C10: at longitude exactly 180, `from_latlon` raises a validation
error for every latitude and every valid resolution of all three variants:
the longitude normalises to 360 and the synthesized band index (721, 61, 7
respectively) exceeds the variant's maximum. -/
theorem C10_lon180_always_fails (lat : ℚ) :
    (∀ r ∈ GARS_VALID_RESOLUTIONS, GARSGrid.from_latlon lat 180 r = none) ∧
    (∀ r ∈ ED_VALID_RESOLUTIONS, EDGARSGrid.from_latlon lat 180 r = none) ∧
    (∀ r ∈ GED_VALID_RESOLUTIONS, GEDGARSGrid.from_latlon lat 180 r = none) := by
  refine ⟨?_, ?_, ?_⟩
  · intro r hr
    unfold GARSGrid.from_latlon
    rw [if_pos hr, if_neg (by norm_num : ¬((180 : ℚ) ≠ 180))]
    refine init_prefix_gars _ ?_ r hr
    have h721 : ⌊(360 : ℚ) * 2 + 1⌋ = (721 : ℤ) := by norm_num
    rw [h721]
    simp only [data_append, natTo3, Int.toNat_ofNat, List.cons_append]
    norm_num
    decide
  · intro r hr
    unfold EDGARSGrid.from_latlon
    rw [if_pos hr, if_neg (by norm_num : ¬((180 : ℚ) ≠ 180))]
    refine init_prefix_ed _ ?_ r hr
    have h61 : ⌊(360 : ℚ) / 6 + 1⌋ = (61 : ℤ) := by norm_num
    rw [h61]
    simp only [data_append, natTo2, Int.toNat_ofNat, List.cons_append]
    norm_num
    decide
  · intro r hr
    unfold GEDGARSGrid.from_latlon
    rw [if_pos hr, if_neg (by norm_num : ¬((180 : ℚ) ≠ 180))]
    refine init_prefix_ged _ ?_ r hr
    have h7 : ⌊(360 : ℚ) / 60⌋ + 1 = (7 : ℤ) := by norm_num
    rw [h7]
    simp only [data_append, dStr, Int.toNat_ofNat, List.cons_append]
    norm_num
    decide

theorem C10_witness :
    GARSGrid.from_latlon 0 180 30 = none ∧ EDGARSGrid.from_latlon 0 180 6 = none ∧
    GEDGARSGrid.from_latlon 0 180 60 = none :=
  ⟨(C10_lon180_always_fails 0).1 30 (by decide), (C10_lon180_always_fails 0).2.1 6 (by decide),
   (C10_lon180_always_fails 0).2.2 60 (by decide)⟩

/-! ### Claim C3: child cells tile their parent -/

theorem tile1D (m : ℕ) (hm : 0 < m) (g : ℚ) (hg : 0 < g) (X x : ℚ)
    (h1 : X ≤ x) (h2 : x ≤ X + m * g) :
    ∃ c : ℕ, c < m ∧ X + c * g ≤ x ∧ x ≤ X + c * g + g := by
  have ht0 : 0 ≤ (x - X) / g := div_nonneg (by linarith) (le_of_lt hg)
  by_cases hc : ⌊(x - X) / g⌋ ≤ (m : ℤ) - 1
  · refine ⟨(⌊(x - X) / g⌋).toNat, ?_, ?_, ?_⟩
    · have h0 : 0 ≤ ⌊(x - X) / g⌋ := Int.floor_nonneg.mpr ht0
      omega
    · have h0 : 0 ≤ ⌊(x - X) / g⌋ := Int.floor_nonneg.mpr ht0
      have hfl : (⌊(x - X) / g⌋ : ℚ) ≤ (x - X) / g := Int.floor_le _
      have hcast : ((⌊(x - X) / g⌋).toNat : ℚ) = (⌊(x - X) / g⌋ : ℚ) := by
        exact_mod_cast Int.toNat_of_nonneg h0
      rw [hcast]
      have := mul_le_mul_of_nonneg_right hfl (le_of_lt hg)
      rw [div_mul_cancel₀ _ (ne_of_gt hg)] at this
      linarith
    · have h0 : 0 ≤ ⌊(x - X) / g⌋ := Int.floor_nonneg.mpr ht0
      have hfl : (x - X) / g < (⌊(x - X) / g⌋ : ℚ) + 1 := Int.lt_floor_add_one _
      have hcast : ((⌊(x - X) / g⌋).toNat : ℚ) = (⌊(x - X) / g⌋ : ℚ) := by
        exact_mod_cast Int.toNat_of_nonneg h0
      rw [hcast]
      have := mul_lt_mul_of_pos_right hfl hg
      rw [div_mul_cancel₀ _ (ne_of_gt hg)] at this
      linarith
  · refine ⟨m - 1, by omega, ?_, ?_⟩
    · push_neg at hc
      have hm2 : (m : ℤ) ≤ ⌊(x - X) / g⌋ := by omega
      have hm3 : (m : ℚ) ≤ (⌊(x - X) / g⌋ : ℚ) := by exact_mod_cast hm2
      have hfl : (⌊(x - X) / g⌋ : ℚ) ≤ (x - X) / g := Int.floor_le _
      have hmg : (m : ℚ) * g ≤ x - X := by
        have h4 := mul_le_mul_of_nonneg_right (le_trans hm3 hfl) (le_of_lt hg)
        rw [div_mul_cancel₀ _ (ne_of_gt hg)] at h4
        linarith
      have hcast : ((m - 1 : ℕ) : ℚ) = (m : ℚ) - 1 := by
        have : (1 : ℕ) ≤ m := hm
        push_cast [this]
        ring
      rw [hcast]
      nlinarith
    · have hcast : ((m - 1 : ℕ) : ℚ) = (m : ℚ) - 1 := by
        have : (1 : ℕ) ≤ m := hm
        push_cast [this]
        ring
      rw [hcast]
      have : ((m : ℚ) - 1) * g + g = (m : ℚ) * g := by ring
      linarith [this]

theorem gridCover (m : ℕ) (hm : 0 < m) (g : ℚ) (hg : 0 < g) (X Y x y : ℚ) :
    (X ≤ x ∧ x ≤ X + m * g ∧ Y ≤ y ∧ y ≤ Y + m * g) ↔
    ∃ col row : ℕ, col < m ∧ row < m ∧
      X + col * g ≤ x ∧ x ≤ X + col * g + g ∧
      Y + ((m - 1 - row : ℕ) : ℚ) * g ≤ y ∧ y ≤ Y + ((m - 1 - row : ℕ) : ℚ) * g + g := by
  constructor
  · rintro ⟨hx1, hx2, hy1, hy2⟩
    obtain ⟨c, hc, hcx1, hcx2⟩ := tile1D m hm g hg X x hx1 hx2
    obtain ⟨r', hr', hry1, hry2⟩ := tile1D m hm g hg Y y hy1 hy2
    refine ⟨c, m - 1 - r', hc, by omega, hcx1, hcx2, ?_, ?_⟩
    · have : m - 1 - (m - 1 - r') = r' := by omega
      rw [this]
      exact hry1
    · have : m - 1 - (m - 1 - r') = r' := by omega
      rw [this]
      exact hry2
  · rintro ⟨col, row, hcol, hrow, hx1, hx2, hy1, hy2⟩
    have hc1 : ((col : ℚ) + 1) * g ≤ (m : ℚ) * g := by
      have : (col : ℚ) + 1 ≤ (m : ℚ) := by exact_mod_cast hcol
      exact mul_le_mul_of_nonneg_right this (le_of_lt hg)
    have hc0 : (0 : ℚ) ≤ (col : ℚ) * g :=
      mul_nonneg (by positivity) (le_of_lt hg)
    have hr1 : (((m - 1 - row : ℕ) : ℚ) + 1) * g ≤ (m : ℚ) * g := by
      have : ((m - 1 - row : ℕ) : ℚ) + 1 ≤ (m : ℚ) := by
        have : m - 1 - row + 1 ≤ m := by omega
        exact_mod_cast this
      exact mul_le_mul_of_nonneg_right this (le_of_lt hg)
    have hr0 : (0 : ℚ) ≤ ((m - 1 - row : ℕ) : ℚ) * g :=
      mul_nonneg (by positivity) (le_of_lt hg)
    refine ⟨by linarith, by nlinarith, by linarith, by nlinarith⟩

theorem disjoint1D (g : ℚ) (hg : 0 < g) (X : ℚ) (k k' : ℕ) (hkk : k ≠ k') (x : ℚ) :
    ¬(X + k * g < x ∧ x < X + k * g + g ∧ X + k' * g < x ∧ x < X + k' * g + g) := by
  rintro ⟨h1, h2, h3, h4⟩
  rcases Nat.lt_or_ge k k' with h | h
  · have : ((k : ℚ) + 1) ≤ (k' : ℚ) := by exact_mod_cast h
    nlinarith
  · have hks : k' < k := by omega
    have : ((k' : ℚ) + 1) ≤ (k : ℚ) := by exact_mod_cast hks
    nlinarith

theorem unpack_digit (m d : ℕ) (hm : 0 < m) (h1 : 1 ≤ d) (h2 : d ≤ m * m) :
    ∃ row col : ℕ, row < m ∧ col < m ∧ d = row * m + col + 1 := by
  refine ⟨(d - 1) / m, (d - 1) % m, ?_, Nat.mod_lt _ hm, ?_⟩
  · apply Nat.div_lt_of_lt_mul
    omega
  · have h4 := Nat.div_add_mod (d - 1) m
    have h5 : (d - 1) / m * m = m * ((d - 1) / m) := Nat.mul_comm _ _
    omega

theorem d15_table : ∀ row col : ℕ, row < 2 → col < 2 →
    dx15 (row * 2 + col + 1) = (col : ℚ) * 15 ∧
    dy15 (row * 2 + col + 1) = ((2 - 1 - row : ℕ) : ℚ) * 15 := by
  intro row col hr hc
  interval_cases row <;> interval_cases col <;>
    constructor <;> norm_num [dx15, dy15]

theorem d5_table : ∀ row col : ℕ, row < 3 → col < 3 →
    dx5 (row * 3 + col + 1) = (col : ℚ) * 5 ∧
    dy5 (row * 3 + col + 1) = ((3 - 1 - row : ℕ) : ℚ) * 5 := by
  intro row col hr hc
  interval_cases row <;> interval_cases col <;>
    constructor <;> norm_num [dx5, dy5]

theorem d1_table : ∀ row col : ℕ, row < 5 → col < 5 →
    dx1 (row * 5 + col + 1) = (col : ℚ) * 1 ∧
    dy1 (row * 5 + col + 1) = ((5 - 1 - row : ℕ) : ℚ) * 1 := by
  intro row col hr hc
  interval_cases row <;> interval_cases col <;>
    constructor <;> norm_num [dx1, dy1]

theorem e3_table : ∀ row col : ℕ, row < 2 → col < 2 →
    ex3 (row * 2 + col + 1) = (col : ℚ) * 3 ∧
    ey3 (row * 2 + col + 1) = ((2 - 1 - row : ℕ) : ℚ) * 3 := by
  intro row col hr hc
  interval_cases row <;> interval_cases col <;>
    constructor <;> norm_num [ex3, ey3]

theorem e1_table : ∀ row col : ℕ, row < 3 → col < 3 →
    ex1 (row * 3 + col + 1) = (col : ℚ) * 1 ∧
    ey1 (row * 3 + col + 1) = ((3 - 1 - row : ℕ) : ℚ) * 1 := by
  intro row col hr hc
  interval_cases row <;> interval_cases col <;>
    constructor <;> norm_num [ex1, ey1]

def g30x (d : ℕ) : ℚ := if d = 2 ∨ d = 4 then 30 else 0

def g30y (d : ℕ) : ℚ := if d = 1 ∨ d = 2 then 30 else 0

theorem g30_table : ∀ row col : ℕ, row < 2 → col < 2 →
    g30x (row * 2 + col + 1) = (col : ℚ) * 30 ∧
    g30y (row * 2 + col + 1) = ((2 - 1 - row : ℕ) : ℚ) * 30 := by
  intro row col hr hc
  interval_cases row <;> interval_cases col <;>
    constructor <;> norm_num [g30x, g30y]

theorem pack_digit15 (d : ℕ) (h1 : 1 ≤ d) (h2 : d ≤ 4) :
    ∃ row col : ℕ, row < 2 ∧ col < 2 ∧ d = row * 2 + col + 1 :=
  unpack_digit 2 d (by norm_num) h1 h2

theorem pack_digit5 (d : ℕ) (h1 : 1 ≤ d) (h2 : d ≤ 9) :
    ∃ row col : ℕ, row < 3 ∧ col < 3 ∧ d = row * 3 + col + 1 :=
  unpack_digit 3 d (by norm_num) h1 h2

theorem pack_digit1 (d : ℕ) (h1 : 1 ≤ d) (h2 : d ≤ 25) :
    ∃ row col : ℕ, row < 5 ∧ col < 5 ∧ d = row * 5 + col + 1 :=
  unpack_digit 5 d (by norm_num) h1 h2

theorem coverBox (m : ℕ) (hm : 0 < m) (g : ℚ) (hg : 0 < g) (X Y x y : ℚ)
    (fx fy : ℕ → ℚ)
    (htab : ∀ row col : ℕ, row < m → col < m →
      fx (row * m + col + 1) = (col : ℚ) * g ∧
      fy (row * m + col + 1) = ((m - 1 - row : ℕ) : ℚ) * g) :
    (X ≤ x ∧ x ≤ X + m * g ∧ Y ≤ y ∧ y ≤ Y + m * g) ↔
    ∃ d : ℕ, 1 ≤ d ∧ d ≤ m * m ∧
      X + fx d ≤ x ∧ x ≤ X + fx d + g ∧ Y + fy d ≤ y ∧ y ≤ Y + fy d + g := by
  rw [gridCover m hm g hg]
  constructor
  · rintro ⟨col, row, hcol, hrow, h1, h2, h3, h4⟩
    have e1 : row * m ≤ (m - 1) * m := Nat.mul_le_mul_right _ (by omega)
    have e2 : (m - 1) * m = m * m - 1 * m := Nat.sub_mul m 1 m
    have e3 : m ≤ m * m := Nat.le_mul_of_pos_left m hm
    refine ⟨row * m + col + 1, by omega, by omega, ?_⟩
    obtain ⟨t1, t2⟩ := htab row col hrow hcol
    rw [t1, t2]
    exact ⟨h1, h2, h3, h4⟩
  · rintro ⟨d, hd1, hd2, h⟩
    obtain ⟨row, col, hrow, hcol, rfl⟩ := unpack_digit m d hm hd1 hd2
    obtain ⟨t1, t2⟩ := htab row col hrow hcol
    rw [t1, t2] at h
    exact ⟨col, row, hcol, hrow, h⟩

theorem disjointBox (m : ℕ) (hm : 0 < m) (g : ℚ) (hg : 0 < g) (X Y : ℚ)
    (fx fy : ℕ → ℚ)
    (htab : ∀ row col : ℕ, row < m → col < m →
      fx (row * m + col + 1) = (col : ℚ) * g ∧
      fy (row * m + col + 1) = ((m - 1 - row : ℕ) : ℚ) * g)
    (d d' : ℕ) (hd1 : 1 ≤ d) (hd2 : d ≤ m * m) (hd1' : 1 ≤ d') (hd2' : d' ≤ m * m)
    (hne : d ≠ d') (x y : ℚ) :
    ¬((X + fx d < x ∧ x < X + fx d + g ∧ Y + fy d < y ∧ y < Y + fy d + g) ∧
      (X + fx d' < x ∧ x < X + fx d' + g ∧ Y + fy d' < y ∧ y < Y + fy d' + g)) := by
  obtain ⟨row, col, hrow, hcol, rfl⟩ := unpack_digit m d hm hd1 hd2
  obtain ⟨row', col', hrow', hcol', rfl⟩ := unpack_digit m d' hm hd1' hd2'
  obtain ⟨t1, t2⟩ := htab row col hrow hcol
  obtain ⟨t1', t2'⟩ := htab row' col' hrow' hcol'
  rw [t1, t2, t1', t2']
  rintro ⟨⟨a1, a2, a3, a4⟩, ⟨b1, b2, b3, b4⟩⟩
  by_cases hc : col = col'
  · have hr : row ≠ row' := by
      intro hr0
      exact hne (by rw [hc, hr0])
    have hr2 : (m - 1 - row) ≠ (m - 1 - row') := by omega
    exact disjoint1D g hg Y (m - 1 - row) (m - 1 - row') hr2 y ⟨a3, a4, b3, b4⟩
  · exact disjoint1D g hg X col col' hc x ⟨a1, a2, b1, b2⟩

theorem d15_tab60 : ∀ row col : ℕ, row < 2 → col < 2 →
    dx15 (row * 2 + col + 1) / 60 = (col : ℚ) * (1 / 4) ∧
    dy15 (row * 2 + col + 1) / 60 = ((2 - 1 - row : ℕ) : ℚ) * (1 / 4) := by
  intro row col hr hc
  interval_cases row <;> interval_cases col <;>
    constructor <;> norm_num [dx15, dy15]

theorem d5_tab60 : ∀ row col : ℕ, row < 3 → col < 3 →
    dx5 (row * 3 + col + 1) / 60 = (col : ℚ) * (1 / 12) ∧
    dy5 (row * 3 + col + 1) / 60 = ((3 - 1 - row : ℕ) : ℚ) * (1 / 12) := by
  intro row col hr hc
  interval_cases row <;> interval_cases col <;>
    constructor <;> norm_num [dx5, dy5]

theorem d1_tab60 : ∀ row col : ℕ, row < 5 → col < 5 →
    dx1 (row * 5 + col + 1) / 60 = (col : ℚ) * (1 / 60) ∧
    dy1 (row * 5 + col + 1) / 60 = ((5 - 1 - row : ℕ) : ℚ) * (1 / 60) := by
  intro row col hr hc
  interval_cases row <;> interval_cases col <;>
    constructor <;> norm_num [dx1, dy1]

def glon0 (n : ℕ) : ℚ := ((n : ℚ) - 1) * 60 - 180

def glat0 (i : ℕ) : ℚ := -90 + (i : ℚ) * 60

theorem polygon_gedCell60' (n i : ℕ) (hn : n ≤ 9) (hi : i < 3) :
    (gedCell60 n i).polygon = ⟨glon0 n, glat0 i, glon0 n + 60, glat0 i + 60⟩ := by
  rw [polygon_gedCell60 n i hn hi]
  rfl

theorem polygon_gedCell30' (n i d : ℕ) (hn : n ≤ 9) (hi : i < 3) (hd1 : 1 ≤ d) (hd2 : d ≤ 4) :
    (gedCell30 n i d).polygon =
      ⟨glon0 n + g30x d, glat0 i + g30y d, glon0 n + g30x d + 30, glat0 i + g30y d + 30⟩ := by
  rw [polygon_gedCell30 n i d hn hi hd1 hd2]
  rfl

theorem tile_30_15 (b i1 i2 : ℕ) (hb : b ≤ 999) (hi1 : i1 < 15) (hi2 : i2 < 24) (x y : ℚ) :
    (cell30 b i1 i2).polygon.containsPt x y ↔
      ∃ d, 1 ≤ d ∧ d ≤ 4 ∧ (cell15 b i1 i2 d).polygon.containsPt x y := by
  have hcov := coverBox 2 (by norm_num) (1 / 4 : ℚ) (by norm_num) (lon0 b) (lat0 i1 i2) x y
      (fun d => dx15 d / 60) (fun d => dy15 d / 60) d15_tab60
  have hhalf : ((2 : ℕ) : ℚ) * (1 / 4 : ℚ) = 1 / 2 := by norm_num
  rw [hhalf] at hcov
  rw [polygon_cell30 b i1 i2 hb (by omega) hi2]
  simp only [Box.containsPt]
  constructor
  · intro h
    obtain ⟨d, hd1, hd2, hx1, hx2, hy1, hy2⟩ := hcov.mp h
    refine ⟨d, hd1, by omega, ?_⟩
    rw [polygon_cell15 b i1 i2 d hb (by omega) hi2 (by omega)]
    exact ⟨hx1, hx2, hy1, hy2⟩
  · rintro ⟨d, hd1, hd2, hc⟩
    rw [polygon_cell15 b i1 i2 d hb (by omega) hi2 (by omega)] at hc
    exact hcov.mpr ⟨d, hd1, by omega, hc.1, hc.2.1, hc.2.2.1, hc.2.2.2⟩

theorem disj_15 (b i1 i2 d d' : ℕ) (hb : b ≤ 999) (hi1 : i1 < 15) (hi2 : i2 < 24)
    (hd1 : 1 ≤ d) (hd2 : d ≤ 4) (hd1' : 1 ≤ d') (hd2' : d' ≤ 4) (hne : d ≠ d') (x y : ℚ) :
    ¬((cell15 b i1 i2 d).polygon.containsPtInterior x y ∧
      (cell15 b i1 i2 d').polygon.containsPtInterior x y) := by
  rw [polygon_cell15 b i1 i2 d hb (by omega) hi2 (by omega),
    polygon_cell15 b i1 i2 d' hb (by omega) hi2 (by omega)]
  simp only [Box.containsPtInterior]
  exact disjointBox 2 (by norm_num) (1 / 4 : ℚ) (by norm_num) (lon0 b) (lat0 i1 i2)
    (fun d => dx15 d / 60) (fun d => dy15 d / 60) d15_tab60 d d'
    hd1 (by omega) hd1' (by omega) hne x y

theorem tile_15_5 (b i1 i2 d : ℕ) (hb : b ≤ 999) (hi1 : i1 < 15) (hi2 : i2 < 24)
    (hd1 : 1 ≤ d) (hd2 : d ≤ 4) (x y : ℚ) :
    (cell15 b i1 i2 d).polygon.containsPt x y ↔
      ∃ e, 1 ≤ e ∧ e ≤ 9 ∧ (cell5 b i1 i2 d e).polygon.containsPt x y := by
  have hcov := coverBox 3 (by norm_num) (1 / 12 : ℚ) (by norm_num)
      (lon0 b + dx15 d / 60) (lat0 i1 i2 + dy15 d / 60) x y
      (fun e => dx5 e / 60) (fun e => dy5 e / 60) d5_tab60
  have hq : ((3 : ℕ) : ℚ) * (1 / 12 : ℚ) = 1 / 4 := by norm_num
  rw [hq] at hcov
  rw [polygon_cell15 b i1 i2 d hb (by omega) hi2 (by omega)]
  simp only [Box.containsPt]
  constructor
  · intro h
    obtain ⟨e, he1, he2, hx1, hx2, hy1, hy2⟩ := hcov.mp h
    refine ⟨e, he1, by omega, ?_⟩
    rw [polygon_cell5 b i1 i2 d e hb (by omega) hi2 (by omega) (by omega)]
    refine ⟨?_, ?_, ?_, ?_⟩ <;>
      · rw [show lon0 b + (dx15 d + dx5 e) / 60 = lon0 b + dx15 d / 60 + dx5 e / 60 by ring,
          show lat0 i1 i2 + (dy15 d + dy5 e) / 60 = lat0 i1 i2 + dy15 d / 60 + dy5 e / 60 by ring]
        linarith
  · rintro ⟨e, he1, he2, hc⟩
    rw [polygon_cell5 b i1 i2 d e hb (by omega) hi2 (by omega) (by omega)] at hc
    rw [show lon0 b + (dx15 d + dx5 e) / 60 = lon0 b + dx15 d / 60 + dx5 e / 60 by ring,
      show lat0 i1 i2 + (dy15 d + dy5 e) / 60 = lat0 i1 i2 + dy15 d / 60 + dy5 e / 60 by ring] at hc
    exact hcov.mpr ⟨e, he1, by omega, hc.1, hc.2.1, hc.2.2.1, hc.2.2.2⟩

theorem disj_5 (b i1 i2 d e e' : ℕ) (hb : b ≤ 999) (hi1 : i1 < 15) (hi2 : i2 < 24)
    (hd1 : 1 ≤ d) (hd2 : d ≤ 4) (he1 : 1 ≤ e) (he2 : e ≤ 9) (he1' : 1 ≤ e') (he2' : e' ≤ 9)
    (hne : e ≠ e') (x y : ℚ) :
    ¬((cell5 b i1 i2 d e).polygon.containsPtInterior x y ∧
      (cell5 b i1 i2 d e').polygon.containsPtInterior x y) := by
  rw [polygon_cell5 b i1 i2 d e hb (by omega) hi2 (by omega) (by omega),
    polygon_cell5 b i1 i2 d e' hb (by omega) hi2 (by omega) (by omega)]
  simp only [Box.containsPtInterior]
  rw [show lon0 b + (dx15 d + dx5 e) / 60 = lon0 b + dx15 d / 60 + dx5 e / 60 by ring,
    show lat0 i1 i2 + (dy15 d + dy5 e) / 60 = lat0 i1 i2 + dy15 d / 60 + dy5 e / 60 by ring,
    show lon0 b + (dx15 d + dx5 e') / 60 = lon0 b + dx15 d / 60 + dx5 e' / 60 by ring,
    show lat0 i1 i2 + (dy15 d + dy5 e') / 60 = lat0 i1 i2 + dy15 d / 60 + dy5 e' / 60 by ring]
  exact disjointBox 3 (by norm_num) (1 / 12 : ℚ) (by norm_num)
    (lon0 b + dx15 d / 60) (lat0 i1 i2 + dy15 d / 60)
    (fun e => dx5 e / 60) (fun e => dy5 e / 60) d5_tab60 e e'
    he1 (by omega) he1' (by omega) hne x y

theorem tile_5_1 (b i1 i2 d e : ℕ) (hb : b ≤ 999) (hi1 : i1 < 15) (hi2 : i2 < 24)
    (hd1 : 1 ≤ d) (hd2 : d ≤ 4) (he1 : 1 ≤ e) (he2 : e ≤ 9) (x y : ℚ) :
    (cell5 b i1 i2 d e).polygon.containsPt x y ↔
      ∃ k, 1 ≤ k ∧ k ≤ 25 ∧ (cell1 b i1 i2 d e k).polygon.containsPt x y := by
  have hcov := coverBox 5 (by norm_num) (1 / 60 : ℚ) (by norm_num)
      (lon0 b + (dx15 d + dx5 e) / 60) (lat0 i1 i2 + (dy15 d + dy5 e) / 60) x y
      (fun k => dx1 k / 60) (fun k => dy1 k / 60) d1_tab60
  have hq : ((5 : ℕ) : ℚ) * (1 / 60 : ℚ) = 1 / 12 := by norm_num
  rw [hq] at hcov
  rw [polygon_cell5 b i1 i2 d e hb (by omega) hi2 (by omega) (by omega)]
  simp only [Box.containsPt]
  constructor
  · intro h
    obtain ⟨k, hk1, hk2, hx1, hx2, hy1, hy2⟩ := hcov.mp h
    refine ⟨k, hk1, by omega, ?_⟩
    rw [polygon_cell1 b i1 i2 d e k hb (by omega) hi2 (by omega) (by omega) (by omega)]
    refine ⟨?_, ?_, ?_, ?_⟩ <;>
      · rw [show lon0 b + (dx15 d + dx5 e + dx1 k) / 60 = lon0 b + (dx15 d + dx5 e) / 60 + dx1 k / 60 by ring,
          show lat0 i1 i2 + (dy15 d + dy5 e + dy1 k) / 60 = lat0 i1 i2 + (dy15 d + dy5 e) / 60 + dy1 k / 60 by ring]
        linarith
  · rintro ⟨k, hk1, hk2, hc⟩
    rw [polygon_cell1 b i1 i2 d e k hb (by omega) hi2 (by omega) (by omega) (by omega)] at hc
    rw [show lon0 b + (dx15 d + dx5 e + dx1 k) / 60 = lon0 b + (dx15 d + dx5 e) / 60 + dx1 k / 60 by ring,
      show lat0 i1 i2 + (dy15 d + dy5 e + dy1 k) / 60 = lat0 i1 i2 + (dy15 d + dy5 e) / 60 + dy1 k / 60 by ring] at hc
    exact hcov.mpr ⟨k, hk1, by omega, hc.1, hc.2.1, hc.2.2.1, hc.2.2.2⟩

theorem disj_1 (b i1 i2 d e k k' : ℕ) (hb : b ≤ 999) (hi1 : i1 < 15) (hi2 : i2 < 24)
    (hd1 : 1 ≤ d) (hd2 : d ≤ 4) (he1 : 1 ≤ e) (he2 : e ≤ 9)
    (hk1 : 1 ≤ k) (hk2 : k ≤ 25) (hk1' : 1 ≤ k') (hk2' : k' ≤ 25)
    (hne : k ≠ k') (x y : ℚ) :
    ¬((cell1 b i1 i2 d e k).polygon.containsPtInterior x y ∧
      (cell1 b i1 i2 d e k').polygon.containsPtInterior x y) := by
  rw [polygon_cell1 b i1 i2 d e k hb (by omega) hi2 (by omega) (by omega) (by omega),
    polygon_cell1 b i1 i2 d e k' hb (by omega) hi2 (by omega) (by omega) (by omega)]
  simp only [Box.containsPtInterior]
  rw [show lon0 b + (dx15 d + dx5 e + dx1 k) / 60 = lon0 b + (dx15 d + dx5 e) / 60 + dx1 k / 60 by ring,
    show lat0 i1 i2 + (dy15 d + dy5 e + dy1 k) / 60 = lat0 i1 i2 + (dy15 d + dy5 e) / 60 + dy1 k / 60 by ring,
    show lon0 b + (dx15 d + dx5 e + dx1 k') / 60 = lon0 b + (dx15 d + dx5 e) / 60 + dx1 k' / 60 by ring,
    show lat0 i1 i2 + (dy15 d + dy5 e + dy1 k') / 60 = lat0 i1 i2 + (dy15 d + dy5 e) / 60 + dy1 k' / 60 by ring]
  exact disjointBox 5 (by norm_num) (1 / 60 : ℚ) (by norm_num)
    (lon0 b + (dx15 d + dx5 e) / 60) (lat0 i1 i2 + (dy15 d + dy5 e) / 60)
    (fun k => dx1 k / 60) (fun k => dy1 k / 60) d1_tab60 k k'
    hk1 (by omega) hk1' (by omega) hne x y

theorem tile_ed6_3 (n i1 i2 : ℕ) (hn : n ≤ 99) (h1 : i1 < 20) (h2 : i2 < 20) (x y : ℚ) :
    (edCell6 n i1 i2).polygon.containsPt x y ↔
      ∃ d, 1 ≤ d ∧ d ≤ 4 ∧ (edCell3 n i1 i2 d).polygon.containsPt x y := by
  have hcov := coverBox 2 (by norm_num) (3 : ℚ) (by norm_num) (elon0 n) (elat0 i1 i2) x y
      ex3 ey3 e3_table
  have hq : ((2 : ℕ) : ℚ) * (3 : ℚ) = 6 := by norm_num
  rw [hq] at hcov
  rw [polygon_edCell6 n i1 i2 hn h1 h2]
  simp only [Box.containsPt]
  constructor
  · intro h
    obtain ⟨d, hd1, hd2, hx1, hx2, hy1, hy2⟩ := hcov.mp h
    refine ⟨d, hd1, by omega, ?_⟩
    rw [polygon_edCell3 n i1 i2 d hn h1 h2 (by omega)]
    exact ⟨hx1, hx2, hy1, hy2⟩
  · rintro ⟨d, hd1, hd2, hc⟩
    rw [polygon_edCell3 n i1 i2 d hn h1 h2 (by omega)] at hc
    exact hcov.mpr ⟨d, hd1, by omega, hc.1, hc.2.1, hc.2.2.1, hc.2.2.2⟩

theorem disj_ed3 (n i1 i2 d d' : ℕ) (hn : n ≤ 99) (h1 : i1 < 20) (h2 : i2 < 20)
    (hd1 : 1 ≤ d) (hd2 : d ≤ 4) (hd1' : 1 ≤ d') (hd2' : d' ≤ 4) (hne : d ≠ d') (x y : ℚ) :
    ¬((edCell3 n i1 i2 d).polygon.containsPtInterior x y ∧
      (edCell3 n i1 i2 d').polygon.containsPtInterior x y) := by
  rw [polygon_edCell3 n i1 i2 d hn h1 h2 (by omega),
    polygon_edCell3 n i1 i2 d' hn h1 h2 (by omega)]
  simp only [Box.containsPtInterior]
  exact disjointBox 2 (by norm_num) (3 : ℚ) (by norm_num) (elon0 n) (elat0 i1 i2)
    ex3 ey3 e3_table d d' hd1 (by omega) hd1' (by omega) hne x y

theorem tile_ed3_1 (n i1 i2 d : ℕ) (hn : n ≤ 99) (h1 : i1 < 20) (h2 : i2 < 20)
    (hd1 : 1 ≤ d) (hd2 : d ≤ 9) (x y : ℚ) :
    (edCell3 n i1 i2 d).polygon.containsPt x y ↔
      ∃ e, 1 ≤ e ∧ e ≤ 9 ∧ (edCell1 n i1 i2 d e).polygon.containsPt x y := by
  have hcov := coverBox 3 (by norm_num) (1 : ℚ) (by norm_num)
      (elon0 n + ex3 d) (elat0 i1 i2 + ey3 d) x y ex1 ey1 e1_table
  have hq : ((3 : ℕ) : ℚ) * (1 : ℚ) = 3 := by norm_num
  rw [hq] at hcov
  rw [polygon_edCell3 n i1 i2 d hn h1 h2 (by omega)]
  simp only [Box.containsPt]
  constructor
  · intro h
    obtain ⟨e, he1, he2, hx1, hx2, hy1, hy2⟩ := hcov.mp h
    refine ⟨e, he1, by omega, ?_⟩
    rw [polygon_edCell1 n i1 i2 d e hn h1 h2 (by omega) (by omega)]
    exact ⟨hx1, hx2, hy1, hy2⟩
  · rintro ⟨e, he1, he2, hc⟩
    rw [polygon_edCell1 n i1 i2 d e hn h1 h2 (by omega) (by omega)] at hc
    exact hcov.mpr ⟨e, he1, by omega, hc.1, hc.2.1, hc.2.2.1, hc.2.2.2⟩

theorem disj_ed1 (n i1 i2 d e e' : ℕ) (hn : n ≤ 99) (h1 : i1 < 20) (h2 : i2 < 20)
    (hd1 : 1 ≤ d) (hd2 : d ≤ 9) (he1 : 1 ≤ e) (he2 : e ≤ 9) (he1' : 1 ≤ e') (he2' : e' ≤ 9)
    (hne : e ≠ e') (x y : ℚ) :
    ¬((edCell1 n i1 i2 d e).polygon.containsPtInterior x y ∧
      (edCell1 n i1 i2 d e').polygon.containsPtInterior x y) := by
  rw [polygon_edCell1 n i1 i2 d e hn h1 h2 (by omega) (by omega),
    polygon_edCell1 n i1 i2 d e' hn h1 h2 (by omega) (by omega)]
  simp only [Box.containsPtInterior]
  exact disjointBox 3 (by norm_num) (1 : ℚ) (by norm_num)
    (elon0 n + ex3 d) (elat0 i1 i2 + ey3 d) ex1 ey1 e1_table e e'
    he1 (by omega) he1' (by omega) hne x y

theorem tile_ged60_30 (n i : ℕ) (hn : n ≤ 9) (hi : i < 3) (x y : ℚ) :
    (gedCell60 n i).polygon.containsPt x y ↔
      ∃ d, 1 ≤ d ∧ d ≤ 4 ∧ (gedCell30 n i d).polygon.containsPt x y := by
  have hcov := coverBox 2 (by norm_num) (30 : ℚ) (by norm_num) (glon0 n) (glat0 i) x y
      g30x g30y g30_table
  have hq : ((2 : ℕ) : ℚ) * (30 : ℚ) = 60 := by norm_num
  rw [hq] at hcov
  rw [polygon_gedCell60' n i hn hi]
  simp only [Box.containsPt]
  constructor
  · intro h
    obtain ⟨d, hd1, hd2, hx1, hx2, hy1, hy2⟩ := hcov.mp h
    refine ⟨d, hd1, by omega, ?_⟩
    rw [polygon_gedCell30' n i d hn hi hd1 (by omega)]
    exact ⟨hx1, hx2, hy1, hy2⟩
  · rintro ⟨d, hd1, hd2, hc⟩
    rw [polygon_gedCell30' n i d hn hi hd1 hd2] at hc
    exact hcov.mpr ⟨d, hd1, by omega, hc.1, hc.2.1, hc.2.2.1, hc.2.2.2⟩

theorem disj_ged30 (n i d d' : ℕ) (hn : n ≤ 9) (hi : i < 3)
    (hd1 : 1 ≤ d) (hd2 : d ≤ 4) (hd1' : 1 ≤ d') (hd2' : d' ≤ 4) (hne : d ≠ d') (x y : ℚ) :
    ¬((gedCell30 n i d).polygon.containsPtInterior x y ∧
      (gedCell30 n i d').polygon.containsPtInterior x y) := by
  rw [polygon_gedCell30' n i d hn hi hd1 hd2, polygon_gedCell30' n i d' hn hi hd1' hd2']
  simp only [Box.containsPtInterior]
  exact disjointBox 2 (by norm_num) (30 : ℚ) (by norm_num) (glon0 n) (glat0 i)
    g30x g30y g30_table d d' hd1 (by omega) hd1' (by omega) hne x y

theorem mk30_append (b i1 i2 d : ℕ) : mk30 b i1 i2 ++ dStr d = mk15 b i1 i2 d := by
  show String.mk ((mkLon b ++ [lchar i1, lchar i2]) ++ [dCh d]) = _
  exact congrArg String.mk (by simp)

theorem mk15_append (b i1 i2 d e : ℕ) : mk15 b i1 i2 d ++ dStr e = mk5 b i1 i2 d e := by
  show String.mk ((mkLon b ++ [lchar i1, lchar i2, dCh d]) ++ [dCh e]) = _
  exact congrArg String.mk (by simp)

theorem mk5_append (b i1 i2 d e k : ℕ) :
    mk5 b i1 i2 d e ++ natTo2 k = mk1 b i1 i2 d e k := by
  show String.mk ((mkLon b ++ [lchar i1, lchar i2, dCh d, dCh e]) ++
    [dCh (k / 10), dCh (k % 10)]) = _
  exact congrArg String.mk (by simp)

theorem mkEd6_append (n i1 i2 d : ℕ) : mkEd6 n i1 i2 ++ dStr d = mkEd3 n i1 i2 d := by
  show String.mk (('D' :: (mkEdLon n ++ [edChar i1, edChar i2])) ++ [dCh d]) = _
  exact congrArg String.mk (by simp)

theorem mkEd3_append (n i1 i2 d e : ℕ) : mkEd3 n i1 i2 d ++ dStr e = mkEd1 n i1 i2 d e := by
  show String.mk (('D' :: (mkEdLon n ++ [edChar i1, edChar i2, dCh d])) ++ [dCh e]) = _
  exact congrArg String.mk (by simp)

theorem mkGed60_append (n i d : ℕ) : mkGed60 n i ++ dStr d = mkGed30 n i d := by
  show String.mk (['G', 'D', dCh n, gedChar i] ++ [dCh d]) = _
  exact congrArg String.mk (by simp)

/-- The immediate child identifiers of a standard GARS cell:
its identifier extended by each valid quadrant/keypad suffix of the next
finer resolution (as synthesized by the field's refinement loops). -/
def garsChildIds (g : GARSGrid) : List String :=
  if g.resolution = 30 then quads15Strs.map (fun q => g.gars_id ++ q)
  else if g.resolution = 15 then quads5Strs.map (fun q => g.gars_id ++ q)
  else if g.resolution = 5 then quads1Strs.map (fun q => g.gars_id ++ q)
  else []

/-- The immediate child identifiers of an ED-GARS cell. -/
def edChildIds (g : EDGARSGrid) : List String :=
  if g.resolution = 6 then quads15Strs.map (fun q => g.gars_id ++ q)
  else if g.resolution = 3 then quads5Strs.map (fun q => g.gars_id ++ q)
  else []

/-- The immediate child identifiers of a GED-GARS cell. -/
def gedChildIds (g : GEDGARSGrid) : List String :=
  if g.resolution = 60 then quads15Strs.map (fun q => g.gars_id ++ q)
  else []

theorem mem_childIds30 (b i1 i2 : ℕ) (c : String) :
    c ∈ garsChildIds (cell30 b i1 i2) ↔ ∃ d, 1 ≤ d ∧ d ≤ 4 ∧ c = mk15 b i1 i2 d := by
  show c ∈ quads15Strs.map (fun q => mk30 b i1 i2 ++ q) ↔ _
  simp only [quads15Strs, List.map_map, List.mem_map, List.mem_range'_1, Function.comp]
  constructor
  · rintro ⟨d, ⟨hd1, hd2⟩, rfl⟩
    exact ⟨d, hd1, by omega, (mk30_append b i1 i2 d).symm⟩
  · rintro ⟨d, hd1, hd2, rfl⟩
    exact ⟨d, ⟨hd1, by omega⟩, mk30_append b i1 i2 d⟩

theorem mem_childIds15 (b i1 i2 d : ℕ) (c : String) :
    c ∈ garsChildIds (cell15 b i1 i2 d) ↔ ∃ e, 1 ≤ e ∧ e ≤ 9 ∧ c = mk5 b i1 i2 d e := by
  show c ∈ quads5Strs.map (fun q => mk15 b i1 i2 d ++ q) ↔ _
  simp only [quads5Strs, List.map_map, List.mem_map, List.mem_range'_1, Function.comp]
  constructor
  · rintro ⟨e, ⟨he1, he2⟩, rfl⟩
    exact ⟨e, he1, by omega, (mk15_append b i1 i2 d e).symm⟩
  · rintro ⟨e, he1, he2, rfl⟩
    exact ⟨e, ⟨he1, by omega⟩, mk15_append b i1 i2 d e⟩

theorem mem_childIds5 (b i1 i2 d e : ℕ) (c : String) :
    c ∈ garsChildIds (cell5 b i1 i2 d e) ↔ ∃ k, 1 ≤ k ∧ k ≤ 25 ∧ c = mk1 b i1 i2 d e k := by
  show c ∈ quads1Strs.map (fun q => mk5 b i1 i2 d e ++ q) ↔ _
  simp only [quads1Strs, List.map_map, List.mem_map, List.mem_range'_1, Function.comp]
  constructor
  · rintro ⟨k, ⟨hk1, hk2⟩, rfl⟩
    exact ⟨k, hk1, by omega, (mk5_append b i1 i2 d e k).symm⟩
  · rintro ⟨k, hk1, hk2, rfl⟩
    exact ⟨k, ⟨hk1, by omega⟩, mk5_append b i1 i2 d e k⟩

theorem mem_edChildIds6 (n i1 i2 : ℕ) (c : String) :
    c ∈ edChildIds (edCell6 n i1 i2) ↔ ∃ d, 1 ≤ d ∧ d ≤ 4 ∧ c = mkEd3 n i1 i2 d := by
  show c ∈ quads15Strs.map (fun q => mkEd6 n i1 i2 ++ q) ↔ _
  simp only [quads15Strs, List.map_map, List.mem_map, List.mem_range'_1, Function.comp]
  constructor
  · rintro ⟨d, ⟨hd1, hd2⟩, rfl⟩
    exact ⟨d, hd1, by omega, (mkEd6_append n i1 i2 d).symm⟩
  · rintro ⟨d, hd1, hd2, rfl⟩
    exact ⟨d, ⟨hd1, by omega⟩, mkEd6_append n i1 i2 d⟩

theorem mem_edChildIds3 (n i1 i2 d : ℕ) (c : String) :
    c ∈ edChildIds (edCell3 n i1 i2 d) ↔ ∃ e, 1 ≤ e ∧ e ≤ 9 ∧ c = mkEd1 n i1 i2 d e := by
  show c ∈ quads5Strs.map (fun q => mkEd3 n i1 i2 d ++ q) ↔ _
  simp only [quads5Strs, List.map_map, List.mem_map, List.mem_range'_1, Function.comp]
  constructor
  · rintro ⟨e, ⟨he1, he2⟩, rfl⟩
    exact ⟨e, he1, by omega, (mkEd3_append n i1 i2 d e).symm⟩
  · rintro ⟨e, he1, he2, rfl⟩
    exact ⟨e, ⟨he1, by omega⟩, mkEd3_append n i1 i2 d e⟩

theorem mem_gedChildIds60 (n i : ℕ) (c : String) :
    c ∈ gedChildIds (gedCell60 n i) ↔ ∃ d, 1 ≤ d ∧ d ≤ 4 ∧ c = mkGed30 n i d := by
  show c ∈ quads15Strs.map (fun q => mkGed60 n i ++ q) ↔ _
  simp only [quads15Strs, List.map_map, List.mem_map, List.mem_range'_1, Function.comp]
  constructor
  · rintro ⟨d, ⟨hd1, hd2⟩, rfl⟩
    exact ⟨d, hd1, by omega, (mkGed60_append n i d).symm⟩
  · rintro ⟨d, hd1, hd2, rfl⟩
    exact ⟨d, ⟨hd1, by omega⟩, mkGed60_append n i d⟩

theorem gars_children_tile (s : String) (g : GARSGrid)
    (h : GARSGrid.init s none = some g) (hres : g.resolution ≠ 1) :
    (∀ x y : ℚ, g.polygon.containsPt x y ↔
      ∃ c ∈ garsChildIds g, ∃ gc, GARSGrid.init c none = some gc ∧
        gc.polygon.containsPt x y) ∧
    (∀ c c', c ∈ garsChildIds g → c' ∈ garsChildIds g → c ≠ c' →
      ∀ gc gc', GARSGrid.init c none = some gc → GARSGrid.init c' none = some gc' →
        ∀ x y : ℚ, ¬(gc.polygon.containsPtInterior x y ∧
          gc'.polygon.containsPtInterior x y)) := by
  obtain ⟨b, i1, i2, hb1, hb2, h1, h2, hcase⟩ := gars_init_none_inv h
  rcases hcase with ⟨hs, hg⟩ | ⟨d, hd1, hd2, hs, hg⟩ |
    ⟨d, e, hd1, hd2, he1, he2, hs, hg⟩ | ⟨d, e, k, hd1, hd2, he1, he2, hk1, hk2, hs, hg⟩
  · subst hg
    constructor
    · intro x y
      rw [tile_30_15 b i1 i2 (by omega) h1 h2 x y]
      constructor
      · rintro ⟨d, hd1, hd2, hc⟩
        exact ⟨mk15 b i1 i2 d, (mem_childIds30 b i1 i2 _).mpr ⟨d, hd1, hd2, rfl⟩,
          cell15 b i1 i2 d, init15_eq b i1 i2 d hb1 hb2 h1 h2 hd1 hd2, hc⟩
      · rintro ⟨c, hcmem, gc, hgc, hpt⟩
        obtain ⟨d, hd1, hd2, rfl⟩ := (mem_childIds30 b i1 i2 c).mp hcmem
        rw [init15_eq b i1 i2 d hb1 hb2 h1 h2 hd1 hd2] at hgc
        injection hgc with hgc'
        subst hgc'
        exact ⟨d, hd1, hd2, hpt⟩
    · rintro c c' hc hc' hne gc gc' hgc hgc' x y
      obtain ⟨d, hd1, hd2, rfl⟩ := (mem_childIds30 b i1 i2 c).mp hc
      obtain ⟨d', hd1', hd2', rfl⟩ := (mem_childIds30 b i1 i2 c').mp hc'
      rw [init15_eq b i1 i2 d hb1 hb2 h1 h2 hd1 hd2] at hgc
      rw [init15_eq b i1 i2 d' hb1 hb2 h1 h2 hd1' hd2'] at hgc'
      injection hgc with e1
      injection hgc' with e2
      subst e1
      subst e2
      exact disj_15 b i1 i2 d d' (by omega) h1 h2 hd1 hd2 hd1' hd2'
        (fun h0 => hne (by rw [h0])) x y
  · subst hg
    constructor
    · intro x y
      rw [tile_15_5 b i1 i2 d (by omega) h1 h2 hd1 hd2 x y]
      constructor
      · rintro ⟨e, he1, he2, hc⟩
        exact ⟨mk5 b i1 i2 d e, (mem_childIds15 b i1 i2 d _).mpr ⟨e, he1, he2, rfl⟩,
          cell5 b i1 i2 d e, init5_eq b i1 i2 d e hb1 hb2 h1 h2 hd1 hd2 he1 he2, hc⟩
      · rintro ⟨c, hcmem, gc, hgc, hpt⟩
        obtain ⟨e, he1, he2, rfl⟩ := (mem_childIds15 b i1 i2 d c).mp hcmem
        rw [init5_eq b i1 i2 d e hb1 hb2 h1 h2 hd1 hd2 he1 he2] at hgc
        injection hgc with hgc'
        subst hgc'
        exact ⟨e, he1, he2, hpt⟩
    · rintro c c' hc hc' hne gc gc' hgc hgc' x y
      obtain ⟨e, he1, he2, rfl⟩ := (mem_childIds15 b i1 i2 d c).mp hc
      obtain ⟨e', he1', he2', rfl⟩ := (mem_childIds15 b i1 i2 d c').mp hc'
      rw [init5_eq b i1 i2 d e hb1 hb2 h1 h2 hd1 hd2 he1 he2] at hgc
      rw [init5_eq b i1 i2 d e' hb1 hb2 h1 h2 hd1 hd2 he1' he2'] at hgc'
      injection hgc with e1
      injection hgc' with e2
      subst e1
      subst e2
      exact disj_5 b i1 i2 d e e' (by omega) h1 h2 hd1 hd2 he1 he2 he1' he2'
        (fun h0 => hne (by rw [h0])) x y
  · subst hg
    constructor
    · intro x y
      rw [tile_5_1 b i1 i2 d e (by omega) h1 h2 hd1 hd2 he1 he2 x y]
      constructor
      · rintro ⟨k, hk1, hk2, hc⟩
        exact ⟨mk1 b i1 i2 d e k, (mem_childIds5 b i1 i2 d e _).mpr ⟨k, hk1, hk2, rfl⟩,
          cell1 b i1 i2 d e k,
          init1_eq b i1 i2 d e k hb1 hb2 h1 h2 hd1 hd2 he1 he2 hk1 hk2, hc⟩
      · rintro ⟨c, hcmem, gc, hgc, hpt⟩
        obtain ⟨k, hk1, hk2, rfl⟩ := (mem_childIds5 b i1 i2 d e c).mp hcmem
        rw [init1_eq b i1 i2 d e k hb1 hb2 h1 h2 hd1 hd2 he1 he2 hk1 hk2] at hgc
        injection hgc with hgc'
        subst hgc'
        exact ⟨k, hk1, hk2, hpt⟩
    · rintro c c' hc hc' hne gc gc' hgc hgc' x y
      obtain ⟨k, hk1, hk2, rfl⟩ := (mem_childIds5 b i1 i2 d e c).mp hc
      obtain ⟨k', hk1', hk2', rfl⟩ := (mem_childIds5 b i1 i2 d e c').mp hc'
      rw [init1_eq b i1 i2 d e k hb1 hb2 h1 h2 hd1 hd2 he1 he2 hk1 hk2] at hgc
      rw [init1_eq b i1 i2 d e k' hb1 hb2 h1 h2 hd1 hd2 he1 he2 hk1' hk2'] at hgc'
      injection hgc with e1
      injection hgc' with e2
      subst e1
      subst e2
      exact disj_1 b i1 i2 d e k k' (by omega) h1 h2 hd1 hd2 he1 he2 hk1 hk2 hk1' hk2'
        (fun h0 => hne (by rw [h0])) x y
  · subst hg
    exact absurd rfl hres

theorem ed_children_tile (s : String) (g : EDGARSGrid)
    (h : EDGARSGrid.init s none = some g) (hres : g.resolution ≠ 1) :
    (∀ x y : ℚ, g.polygon.containsPt x y ↔
      ∃ c ∈ edChildIds g, ∃ gc, EDGARSGrid.init c none = some gc ∧
        gc.polygon.containsPt x y) ∧
    (∀ c c', c ∈ edChildIds g → c' ∈ edChildIds g → c ≠ c' →
      ∀ gc gc', EDGARSGrid.init c none = some gc → EDGARSGrid.init c' none = some gc' →
        ∀ x y : ℚ, ¬(gc.polygon.containsPtInterior x y ∧
          gc'.polygon.containsPtInterior x y)) := by
  obtain ⟨n, i1, i2, hn1, hn2, h1, h2, hcap, hcase⟩ := ed_init_none_inv h
  rcases hcase with ⟨hs, hg⟩ | ⟨d, hd1, hd2, hs, hg⟩ | ⟨d, e, hd1, hd2, he1, he2, hs, hg⟩
  · subst hg
    constructor
    · intro x y
      rw [tile_ed6_3 n i1 i2 (by omega) (by omega) h2 x y]
      constructor
      · rintro ⟨d, hd1, hd2, hc⟩
        exact ⟨mkEd3 n i1 i2 d, (mem_edChildIds6 n i1 i2 _).mpr ⟨d, hd1, hd2, rfl⟩,
          edCell3 n i1 i2 d,
          edInit3_eq n i1 i2 d hn1 hn2 h1 h2 hcap hd1 (by omega), hc⟩
      · rintro ⟨c, hcmem, gc, hgc, hpt⟩
        obtain ⟨d, hd1, hd2, rfl⟩ := (mem_edChildIds6 n i1 i2 c).mp hcmem
        rw [edInit3_eq n i1 i2 d hn1 hn2 h1 h2 hcap hd1 (by omega)] at hgc
        injection hgc with hgc'
        subst hgc'
        exact ⟨d, hd1, hd2, hpt⟩
    · rintro c c' hc hc' hne gc gc' hgc hgc' x y
      obtain ⟨d, hd1, hd2, rfl⟩ := (mem_edChildIds6 n i1 i2 c).mp hc
      obtain ⟨d', hd1', hd2', rfl⟩ := (mem_edChildIds6 n i1 i2 c').mp hc'
      rw [edInit3_eq n i1 i2 d hn1 hn2 h1 h2 hcap hd1 (by omega)] at hgc
      rw [edInit3_eq n i1 i2 d' hn1 hn2 h1 h2 hcap hd1' (by omega)] at hgc'
      injection hgc with e1
      injection hgc' with e2
      subst e1
      subst e2
      exact disj_ed3 n i1 i2 d d' (by omega) (by omega) h2 hd1 hd2 hd1' hd2'
        (fun h0 => hne (by rw [h0])) x y
  · subst hg
    constructor
    · intro x y
      rw [tile_ed3_1 n i1 i2 d (by omega) (by omega) h2 hd1 (by omega) x y]
      constructor
      · rintro ⟨e, he1, he2, hc⟩
        exact ⟨mkEd1 n i1 i2 d e, (mem_edChildIds3 n i1 i2 d _).mpr ⟨e, he1, he2, rfl⟩,
          edCell1 n i1 i2 d e,
          edInit1_eq n i1 i2 d e hn1 hn2 h1 h2 hcap hd1 hd2 he1 he2, hc⟩
      · rintro ⟨c, hcmem, gc, hgc, hpt⟩
        obtain ⟨e, he1, he2, rfl⟩ := (mem_edChildIds3 n i1 i2 d c).mp hcmem
        rw [edInit1_eq n i1 i2 d e hn1 hn2 h1 h2 hcap hd1 hd2 he1 he2] at hgc
        injection hgc with hgc'
        subst hgc'
        exact ⟨e, he1, he2, hpt⟩
    · rintro c c' hc hc' hne gc gc' hgc hgc' x y
      obtain ⟨e, he1, he2, rfl⟩ := (mem_edChildIds3 n i1 i2 d c).mp hc
      obtain ⟨e', he1', he2', rfl⟩ := (mem_edChildIds3 n i1 i2 d c').mp hc'
      rw [edInit1_eq n i1 i2 d e hn1 hn2 h1 h2 hcap hd1 hd2 he1 he2] at hgc
      rw [edInit1_eq n i1 i2 d e' hn1 hn2 h1 h2 hcap hd1 hd2 he1' he2'] at hgc'
      injection hgc with e1
      injection hgc' with e2
      subst e1
      subst e2
      exact disj_ed1 n i1 i2 d e e' (by omega) (by omega) h2 hd1 (by omega)
        he1 he2 he1' he2' (fun h0 => hne (by rw [h0])) x y
  · subst hg
    exact absurd rfl hres

theorem ged_children_tile (s : String) (g : GEDGARSGrid)
    (h : GEDGARSGrid.init s none = some g) (hres : g.resolution ≠ 30) :
    (∀ x y : ℚ, g.polygon.containsPt x y ↔
      ∃ c ∈ gedChildIds g, ∃ gc, GEDGARSGrid.init c none = some gc ∧
        gc.polygon.containsPt x y) ∧
    (∀ c c', c ∈ gedChildIds g → c' ∈ gedChildIds g → c ≠ c' →
      ∀ gc gc', GEDGARSGrid.init c none = some gc → GEDGARSGrid.init c' none = some gc' →
        ∀ x y : ℚ, ¬(gc.polygon.containsPtInterior x y ∧
          gc'.polygon.containsPtInterior x y)) := by
  obtain ⟨n, i, hn1, hn2, hi, hcase⟩ := ged_init_none_inv h
  rcases hcase with ⟨hs, hg⟩ | ⟨d, hd1, hd2, hs, hg⟩
  · subst hg
    constructor
    · intro x y
      rw [tile_ged60_30 n i (by omega) hi x y]
      constructor
      · rintro ⟨d, hd1, hd2, hc⟩
        exact ⟨mkGed30 n i d, (mem_gedChildIds60 n i _).mpr ⟨d, hd1, hd2, rfl⟩,
          gedCell30 n i d, gedInit30_eq n i d hn1 hn2 hi hd1 hd2, hc⟩
      · rintro ⟨c, hcmem, gc, hgc, hpt⟩
        obtain ⟨d, hd1, hd2, rfl⟩ := (mem_gedChildIds60 n i c).mp hcmem
        rw [gedInit30_eq n i d hn1 hn2 hi hd1 hd2] at hgc
        injection hgc with hgc'
        subst hgc'
        exact ⟨d, hd1, hd2, hpt⟩
    · rintro c c' hc hc' hne gc gc' hgc hgc' x y
      obtain ⟨d, hd1, hd2, rfl⟩ := (mem_gedChildIds60 n i c).mp hc
      obtain ⟨d', hd1', hd2', rfl⟩ := (mem_gedChildIds60 n i c').mp hc'
      rw [gedInit30_eq n i d hn1 hn2 hi hd1 hd2] at hgc
      rw [gedInit30_eq n i d' hn1 hn2 hi hd1' hd2'] at hgc'
      injection hgc with e1
      injection hgc' with e2
      subst e1
      subst e2
      exact disj_ged30 n i d d' (by omega) hi hd1 hd2 hd1' hd2'
        (fun h0 => hne (by rw [h0])) x y
  · subst hg
    exact absurd rfl hres

/-- **C3.** For every valid cell at a non-finest resolution of any of the three
variants (standard GARS at 30/15/5 minutes, ED-GARS at 6/3 degrees, GED-GARS at
60 degrees), the bounding boxes of its immediate child cells — the parent's
identifier extended by each valid quadrant/keypad digit of the next finer level —
exactly tile the parent's bounding box: a point lies in the parent box iff it
lies in some successfully constructed child's box, and distinct children's box
interiors are pairwise disjoint. -/
theorem C3_child_tiling :
    (∀ (s : String) (g : GARSGrid), GARSGrid.init s none = some g → g.resolution ≠ 1 →
      (∀ x y : ℚ, g.polygon.containsPt x y ↔
        ∃ c ∈ garsChildIds g, ∃ gc, GARSGrid.init c none = some gc ∧
          gc.polygon.containsPt x y) ∧
      (∀ c c', c ∈ garsChildIds g → c' ∈ garsChildIds g → c ≠ c' →
        ∀ gc gc', GARSGrid.init c none = some gc → GARSGrid.init c' none = some gc' →
          ∀ x y : ℚ, ¬(gc.polygon.containsPtInterior x y ∧
            gc'.polygon.containsPtInterior x y))) ∧
    (∀ (s : String) (g : EDGARSGrid), EDGARSGrid.init s none = some g → g.resolution ≠ 1 →
      (∀ x y : ℚ, g.polygon.containsPt x y ↔
        ∃ c ∈ edChildIds g, ∃ gc, EDGARSGrid.init c none = some gc ∧
          gc.polygon.containsPt x y) ∧
      (∀ c c', c ∈ edChildIds g → c' ∈ edChildIds g → c ≠ c' →
        ∀ gc gc', EDGARSGrid.init c none = some gc → EDGARSGrid.init c' none = some gc' →
          ∀ x y : ℚ, ¬(gc.polygon.containsPtInterior x y ∧
            gc'.polygon.containsPtInterior x y))) ∧
    (∀ (s : String) (g : GEDGARSGrid), GEDGARSGrid.init s none = some g →
      g.resolution ≠ 30 →
      (∀ x y : ℚ, g.polygon.containsPt x y ↔
        ∃ c ∈ gedChildIds g, ∃ gc, GEDGARSGrid.init c none = some gc ∧
          gc.polygon.containsPt x y) ∧
      (∀ c c', c ∈ gedChildIds g → c' ∈ gedChildIds g → c ≠ c' →
        ∀ gc gc', GEDGARSGrid.init c none = some gc → GEDGARSGrid.init c' none = some gc' →
          ∀ x y : ℚ, ¬(gc.polygon.containsPtInterior x y ∧
            gc'.polygon.containsPtInterior x y))) :=
  ⟨gars_children_tile, ed_children_tile, ged_children_tile⟩

/-- Witness for C3 at the concrete cell "001AA" and point (-180, -90):
the point lies in the parent's box, hence in some child's box. -/
theorem C3_witness : ∃ c ∈ garsChildIds (cell30 1 0 0), ∃ gc,
    GARSGrid.init c none = some gc ∧ gc.polygon.containsPt (-180) (-90) := by
  have h := (C3_child_tiling.1 (mk30 1 0 0) (cell30 1 0 0)
    (init30_eq 1 0 0 (by norm_num) (by norm_num) (by norm_num) (by norm_num))
    (by decide)).1 (-180) (-90)
  apply h.mp
  rw [polygon_cell30 1 0 0 (by norm_num) (by norm_num) (by norm_num)]
  simp only [Box.containsPt, lon0, lat0]
  norm_num

/-! ### Claim C5: enumeration error behaviour -/

theorem gars_from_latlon_180 (lat : ℚ) : GARSGrid.from_latlon lat 180 30 = none := by
  unfold GARSGrid.from_latlon
  rw [if_pos (show (30 : ℕ) ∈ GARS_VALID_RESOLUTIONS by decide),
    if_neg (by norm_num : ¬((180 : ℚ) ≠ 180))]
  refine init_prefix_gars _ ?_ 30 (by decide)
  have h721 : ⌊(360 : ℚ) * 2 + 1⌋ = (721 : ℤ) := by norm_num
  rw [h721]
  simp only [data_append, natTo3, Int.toNat_ofNat, List.cons_append]
  norm_num
  decide

theorem get_30min_ranges_none (R : Box)
    (h : GARSGrid.from_latlon R.miny (if R.minx < -180 then (-180 : ℚ) else R.minx) 30 =
      none) :
    GARSField._get_30min_ranges R = none := by
  delta GARSField._get_30min_ranges GARSField._get_bounds
  simp only []
  rw [h]

theorem gars_30min_none_of_ranges (R : Box) (h : GARSField._get_30min_ranges R = none) :
    GARSField.gars_30min R = none := by
  unfold GARSField.gars_30min
  rw [h]
  rfl

/-- Counterexample to C5 as stated: a region whose west edge sits exactly on
longitude 180 makes the corner `from_latlon` call inside
`GARSField._get_30min_ranges` raise, and that call is outside the
`try/except` — the error propagates out of the enumeration. -/
theorem C5_counterexample : GARSField.gars_30min ⟨180, 0, 180, 1⟩ = none := by
  apply gars_30min_none_of_ranges
  apply get_30min_ranges_none
  show GARSGrid.from_latlon 0 (if (180 : ℚ) < -180 then -180 else 180) 30 = none
  rw [if_neg (by norm_num : ¬((180 : ℚ) < -180))]
  exact gars_from_latlon_180 0

theorem from_latlon_30_shape (lat lon : ℚ) (hlon : lon ≠ 180) :
    ∃ b i1 i2, 1 ≤ b ∧ b ≤ 720 ∧ i1 < 15 ∧ i2 < 24 ∧
      GARSGrid.from_latlon lat lon 30 = some (cell30 b i1 i2) := by
  have h0 : (0 : ℚ) ≤ pymod (lon + 180) 360 := pymod_nonneg _ _ (by norm_num)
  have h1 : pymod (lon + 180) 360 < 360 := pymod_lt _ _ (by norm_num)
  have hT0 : (0 : ℚ) ≤ (if lat ≠ 90 then pymod (lat + 90) 180 else 179.9999999999) := by
    split
    · exact pymod_nonneg _ _ (by norm_num)
    · norm_num
  have hT1 : (if lat ≠ 90 then pymod (lat + 90) 180 else 179.9999999999) < 180 := by
    split
    · exact pymod_lt _ _ (by norm_num)
    · norm_num
  have hred : GARSGrid.from_latlon lat lon 30 =
      GARSGrid.from_latlon
        ((if lat ≠ 90 then pymod (lat + 90) 180 else 179.9999999999) - 90)
        (pymod (lon + 180) 360 - 180) 30 := by
    have hlon' : pymod (lon + 180) 360 - 180 ≠ (180 : ℚ) := by
      intro hc
      have : pymod (lon + 180) 360 = 360 := by linarith
      linarith
    have hlat' : (if lat ≠ 90 then pymod (lat + 90) 180 else 179.9999999999) - 90 ≠
        (90 : ℚ) := by
      intro hc
      have : (if lat ≠ 90 then pymod (lat + 90) 180 else 179.9999999999) = 180 := by
        linarith
      linarith
    unfold GARSGrid.from_latlon
    rw [if_pos (show (30 : ℕ) ∈ GARS_VALID_RESOLUTIONS by decide),
      if_pos (show (30 : ℕ) ∈ GARS_VALID_RESOLUTIONS by decide),
      if_pos hlon, if_pos hlon', if_pos hlat']
    rw [show pymod (lon + 180) 360 - 180 + 180 = pymod (lon + 180) 360 from by ring]
    rw [pymod_eq_self (pymod (lon + 180) 360) 360 (by norm_num) h0 h1]
    rw [show (if lat ≠ 90 then pymod (lat + 90) 180 else 179.9999999999) - 90 + 90 =
      (if lat ≠ 90 then pymod (lat + 90) 180 else 179.9999999999) from by ring]
    rw [pymod_eq_self _ 180 (by norm_num) hT0 hT1]
  rw [hred, from_latlon_30 _ _ (by linarith) (by linarith) (by linarith) (by linarith)]
  have hL : (0 : ℚ) ≤ 2 * (pymod (lon + 180) 360 - 180 + 180) := by linarith
  have hL' : 2 * (pymod (lon + 180) 360 - 180 + 180) < 720 := by linarith
  have hfL0 : 0 ≤ ⌊2 * (pymod (lon + 180) 360 - 180 + 180)⌋ := Int.floor_nonneg.mpr hL
  have hfL1 : ⌊2 * (pymod (lon + 180) 360 - 180 + 180)⌋ ≤ 719 := by
    have := Int.floor_lt.mpr
      (by exact_mod_cast hL' : 2 * (pymod (lon + 180) 360 - 180 + 180) < ((720 : ℤ) : ℚ))
    omega
  have hT : (0 : ℚ) ≤
      2 * ((if lat ≠ 90 then pymod (lat + 90) 180 else 179.9999999999) - 90 + 90) := by
    linarith
  have hT' :
      2 * ((if lat ≠ 90 then pymod (lat + 90) 180 else 179.9999999999) - 90 + 90) <
        360 := by
    linarith
  have hfT0 : 0 ≤
      ⌊2 * ((if lat ≠ 90 then pymod (lat + 90) 180 else 179.9999999999) - 90 + 90)⌋ :=
    Int.floor_nonneg.mpr hT
  have hfT1 :
      ⌊2 * ((if lat ≠ 90 then pymod (lat + 90) 180 else 179.9999999999) - 90 + 90)⌋ ≤
        359 := by
    have := Int.floor_lt.mpr (by exact_mod_cast hT' :
      2 * ((if lat ≠ 90 then pymod (lat + 90) 180 else 179.9999999999) - 90 + 90) <
        ((360 : ℤ) : ℚ))
    omega
  exact ⟨_, _, _, by omega, by omega, by omega, by omega, rfl⟩

theorem buildSkip_mem {γ : Type} (mk : String → Option γ) (poly : γ → Box) (R : Box)
    (cands : List String) (g : γ) (h : g ∈ buildSkip mk poly R cands) :
    ∃ c ∈ cands, mk c = some g := by
  simp only [buildSkip, List.mem_filterMap] at h
  obtain ⟨c, hc, hbind⟩ := h
  refine ⟨c, hc, ?_⟩
  cases hmk : mk c with
  | none => rw [hmk] at hbind; simp at hbind
  | some g' =>
    rw [hmk] at hbind
    simp only [Option.bind] at hbind
    split at hbind
    · injection hbind with h'
      rw [h']
    · exact absurd hbind (by simp)

theorem buildStrict_some {γ : Type} (mk : String → Option γ) (poly : γ → Box) (R : Box) :
    ∀ l : List String, (∀ c ∈ l, (mk c).isSome) →
      ∃ res, buildStrict mk poly R l = some res ∧ ∀ g ∈ res, ∃ c ∈ l, mk c = some g := by
  intro l
  induction l with
  | nil => exact fun _ => ⟨[], rfl, by simp⟩
  | cons c rest ih =>
    intro h
    obtain ⟨g, hg⟩ := Option.isSome_iff_exists.mp (h c (by simp))
    obtain ⟨res, hres, hmem⟩ := ih (fun c' hc' => h c' (by simp [hc']))
    refine ⟨if (poly g).intersects R then g :: res else res, ?_, ?_⟩
    · simp only [buildStrict, hg, hres, Option.map]
    · intro g' hg'
      split at hg'
      · rcases List.mem_cons.mp hg' with rfl | hmem'
        · exact ⟨c, by simp, hg⟩
        · obtain ⟨c', hc', hmk⟩ := hmem g' hmem'
          exact ⟨c', by simp [hc'], hmk⟩
      · obtain ⟨c', hc', hmk⟩ := hmem g' hg'
        exact ⟨c', by simp [hc'], hmk⟩

theorem lat_letter_range_shape (letters : List Char) (a b c d : Char) :
    ∀ s ∈ GARSField._get_lat_letter_range letters a b c d,
      ∃ c1 c2, s = (⟨[c1, c2]⟩ : String) := by
  intro s hs
  simp only [GARSField._get_lat_letter_range] at hs
  split at hs
  · simp only [List.mem_append, List.mem_flatten, List.mem_map] at hs
    rcases hs with (⟨c2, _, rfl⟩ | ⟨L, ⟨c1, _, rfl⟩, hmem⟩) | ⟨c2, _, rfl⟩
    · exact ⟨a, c2, rfl⟩
    · obtain ⟨c2, _, rfl⟩ := List.mem_map.mp hmem
      exact ⟨c1, c2, rfl⟩
    · exact ⟨c, c2, rfl⟩
  · simp only [List.mem_flatten, List.mem_map] at hs
    obtain ⟨L, ⟨c1, _, rfl⟩, hmem⟩ := hs
    obtain ⟨c2, _, rfl⟩ := List.mem_map.mp hmem
    exact ⟨c1, c2, rfl⟩

theorem init5char_cell30 (cid : String) (hlen : cid.data.length = 5) (g : GARSGrid)
    (h : GARSGrid.init cid none = some g) :
    ∃ b i1 i2, 1 ≤ b ∧ b ≤ 720 ∧ i1 < 15 ∧ i2 < 24 ∧ g = cell30 b i1 i2 := by
  obtain ⟨b, i1, i2, hb1, hb2, h1, h2, hc⟩ := gars_init_none_inv h
  rcases hc with ⟨hs, hg⟩ | ⟨d, _, _, hs, hg⟩ | ⟨d, e, _, _, _, _, hs, hg⟩ |
    ⟨d, e, k, _, _, _, _, _, _, hs, hg⟩
  · exact ⟨b, i1, i2, hb1, hb2, h1, h2, hg⟩
  · rw [hs] at hlen
    simp [mk15, mkLon] at hlen
  · rw [hs] at hlen
    simp [mk5, mkLon] at hlen
  · rw [hs] at hlen
    simp [mk1, mkLon] at hlen

theorem get_30min_ranges_eq (R : Box) (g1 g2 : GARSGrid)
    (h1 : GARSGrid.from_latlon R.miny (if R.minx < -180 then (-180 : ℚ) else R.minx) 30 =
      some g1)
    (h2 : GARSGrid.from_latlon R.maxy
      (if 180 ≤ R.maxx then (179.999999999999 : ℚ) else R.maxx) 30 = some g2) :
    GARSField._get_30min_ranges R = some
      ((List.range' (strToNat (strSlice g1.gars_id 0 3))
          (strToNat (strSlice g2.gars_id 0 3) + 1 -
            strToNat (strSlice g1.gars_id 0 3))).map natTo3,
        GARSField._get_lat_letter_range GARS_LETTERS
          (charAt g1.gars_id 3) (charAt g1.gars_id 4)
          (charAt g2.gars_id 3) (charAt g2.gars_id 4)) := by
  delta GARSField._get_30min_ranges GARSField._get_bounds
  simp only []
  rw [h1, h2]

theorem gars_30min_eq (R : Box) (rg : List String × List String)
    (h : GARSField._get_30min_ranges R = some rg) :
    GARSField.gars_30min R = some
      (buildSkip (fun s => GARSGrid.init s none) GARSGrid.polygon R
        ((rg.1.map (fun ln => rg.2.map (fun lt => ln ++ lt))).flatten)) := by
  unfold GARSField.gars_30min
  rw [h]
  rfl

theorem gars_30min_some (R : Box) (h : R.minx ≠ 180) :
    ∃ l, GARSField.gars_30min R = some l ∧
      ∀ g ∈ l, ∃ b i1 i2, 1 ≤ b ∧ b ≤ 720 ∧ i1 < 15 ∧ i2 < 24 ∧ g = cell30 b i1 i2 := by
  have hmin : (if R.minx < -180 then (-180 : ℚ) else R.minx) ≠ 180 := by
    split
    · norm_num
    · exact h
  have hmax : (if 180 ≤ R.maxx then (179.999999999999 : ℚ) else R.maxx) ≠ 180 := by
    split
    · norm_num
    · next hc => intro he; exact hc (by rw [he])
  obtain ⟨b1, i11, i12, _, _, _, _, h1⟩ := from_latlon_30_shape R.miny _ hmin
  obtain ⟨b2, i21, i22, _, _, _, _, h2⟩ := from_latlon_30_shape R.maxy _ hmax
  have hrg := get_30min_ranges_eq R _ _ h1 h2
  refine ⟨_, gars_30min_eq R _ hrg, ?_⟩
  intro g hg
  obtain ⟨cid, hcid, hmk⟩ := buildSkip_mem _ _ _ _ g hg
  simp only [List.mem_flatten, List.mem_map] at hcid
  obtain ⟨L, ⟨ln, hln, rfl⟩, hcL⟩ := hcid
  obtain ⟨lt, hlt, rfl⟩ := List.mem_map.mp hcL
  obtain ⟨a, _, rfl⟩ := hln
  obtain ⟨c1, c2, rfl⟩ := lat_letter_range_shape _ _ _ _ _ lt hlt
  refine init5char_cell30 _ ?_ g hmk
  rw [data_append]
  rfl

theorem gars_15min_some (R : Box) (l : List GARSGrid)
    (h30 : GARSField.gars_30min R = some l)
    (hsh : ∀ g ∈ l, ∃ b i1 i2, 1 ≤ b ∧ b ≤ 720 ∧ i1 < 15 ∧ i2 < 24 ∧ g = cell30 b i1 i2) :
    ∃ l', GARSField.gars_15min R = some l' ∧
      ∀ g ∈ l', ∃ b i1 i2 d, 1 ≤ b ∧ b ≤ 720 ∧ i1 < 15 ∧ i2 < 24 ∧ 1 ≤ d ∧ d ≤ 4 ∧
        g = cell15 b i1 i2 d := by
  have hcand : ∀ c ∈ ((l.map (fun p => quads15Strs.map (fun q => p.gars_id ++ q))).flatten),
      ∃ b i1 i2 d, 1 ≤ b ∧ b ≤ 720 ∧ i1 < 15 ∧ i2 < 24 ∧ 1 ≤ d ∧ d ≤ 4 ∧
        c = mk15 b i1 i2 d := by
    intro c hc
    simp only [List.mem_flatten, List.mem_map] at hc
    obtain ⟨L, ⟨p, hp, rfl⟩, hcL⟩ := hc
    obtain ⟨q, hq, rfl⟩ := List.mem_map.mp hcL
    obtain ⟨b, i1, i2, hb1, hb2, h1, h2, rfl⟩ := hsh p hp
    simp only [quads15Strs, List.mem_map, List.mem_range'_1] at hq
    obtain ⟨d, ⟨hd1, hd2⟩, rfl⟩ := hq
    exact ⟨b, i1, i2, d, hb1, hb2, h1, h2, hd1, by omega, mk30_append b i1 i2 d⟩
  obtain ⟨res, hres, hmem⟩ := buildStrict_some (fun s => GARSGrid.init s none)
    GARSGrid.polygon R _
    (fun c hc => by
      obtain ⟨b, i1, i2, d, hb1, hb2, h1, h2, hd1, hd2, rfl⟩ := hcand c hc
      simp only []
      rw [init15_eq b i1 i2 d hb1 hb2 h1 h2 hd1 hd2]
      rfl)
  refine ⟨res, ?_, ?_⟩
  · unfold GARSField.gars_15min
    rw [h30]
    exact hres
  · intro g hg
    obtain ⟨c, hc, hmk⟩ := hmem g hg
    obtain ⟨b, i1, i2, d, hb1, hb2, h1, h2, hd1, hd2, rfl⟩ := hcand c hc
    rw [init15_eq b i1 i2 d hb1 hb2 h1 h2 hd1 hd2] at hmk
    injection hmk with h'
    exact ⟨b, i1, i2, d, hb1, hb2, h1, h2, hd1, hd2, h'.symm⟩

theorem gars_5min_some (R : Box) (l : List GARSGrid)
    (h15 : GARSField.gars_15min R = some l)
    (hsh : ∀ g ∈ l, ∃ b i1 i2 d, 1 ≤ b ∧ b ≤ 720 ∧ i1 < 15 ∧ i2 < 24 ∧ 1 ≤ d ∧ d ≤ 4 ∧
      g = cell15 b i1 i2 d) :
    ∃ l', GARSField.gars_5min R = some l' ∧
      ∀ g ∈ l', ∃ b i1 i2 d e, 1 ≤ b ∧ b ≤ 720 ∧ i1 < 15 ∧ i2 < 24 ∧ 1 ≤ d ∧ d ≤ 4 ∧
        1 ≤ e ∧ e ≤ 9 ∧ g = cell5 b i1 i2 d e := by
  have hcand : ∀ c ∈ ((l.map (fun p => quads5Strs.map (fun q => p.gars_id ++ q))).flatten),
      ∃ b i1 i2 d e, 1 ≤ b ∧ b ≤ 720 ∧ i1 < 15 ∧ i2 < 24 ∧ 1 ≤ d ∧ d ≤ 4 ∧
        1 ≤ e ∧ e ≤ 9 ∧ c = mk5 b i1 i2 d e := by
    intro c hc
    simp only [List.mem_flatten, List.mem_map] at hc
    obtain ⟨L, ⟨p, hp, rfl⟩, hcL⟩ := hc
    obtain ⟨q, hq, rfl⟩ := List.mem_map.mp hcL
    obtain ⟨b, i1, i2, d, hb1, hb2, h1, h2, hd1, hd2, rfl⟩ := hsh p hp
    simp only [quads5Strs, List.mem_map, List.mem_range'_1] at hq
    obtain ⟨e, ⟨he1, he2⟩, rfl⟩ := hq
    exact ⟨b, i1, i2, d, e, hb1, hb2, h1, h2, hd1, hd2, he1, by omega,
      mk15_append b i1 i2 d e⟩
  obtain ⟨res, hres, hmem⟩ := buildStrict_some (fun s => GARSGrid.init s none)
    GARSGrid.polygon R _
    (fun c hc => by
      obtain ⟨b, i1, i2, d, e, hb1, hb2, h1, h2, hd1, hd2, he1, he2, rfl⟩ := hcand c hc
      simp only []
      rw [init5_eq b i1 i2 d e hb1 hb2 h1 h2 hd1 hd2 he1 he2]
      rfl)
  refine ⟨res, ?_, ?_⟩
  · unfold GARSField.gars_5min
    rw [h15]
    exact hres
  · intro g hg
    obtain ⟨c, hc, hmk⟩ := hmem g hg
    obtain ⟨b, i1, i2, d, e, hb1, hb2, h1, h2, hd1, hd2, he1, he2, rfl⟩ := hcand c hc
    rw [init5_eq b i1 i2 d e hb1 hb2 h1 h2 hd1 hd2 he1 he2] at hmk
    injection hmk with h'
    exact ⟨b, i1, i2, d, e, hb1, hb2, h1, h2, hd1, hd2, he1, he2, h'.symm⟩

theorem gars_1min_some (R : Box) (l : List GARSGrid)
    (h5 : GARSField.gars_5min R = some l)
    (hsh : ∀ g ∈ l, ∃ b i1 i2 d e, 1 ≤ b ∧ b ≤ 720 ∧ i1 < 15 ∧ i2 < 24 ∧ 1 ≤ d ∧ d ≤ 4 ∧
      1 ≤ e ∧ e ≤ 9 ∧ g = cell5 b i1 i2 d e) :
    ∃ l', GARSField.gars_1min R = some l' := by
  have hcand : ∀ c ∈ ((l.map (fun p => quads1Strs.map (fun q => p.gars_id ++ q))).flatten),
      ∃ b i1 i2 d e k, 1 ≤ b ∧ b ≤ 720 ∧ i1 < 15 ∧ i2 < 24 ∧ 1 ≤ d ∧ d ≤ 4 ∧
        1 ≤ e ∧ e ≤ 9 ∧ 1 ≤ k ∧ k ≤ 25 ∧ c = mk1 b i1 i2 d e k := by
    intro c hc
    simp only [List.mem_flatten, List.mem_map] at hc
    obtain ⟨L, ⟨p, hp, rfl⟩, hcL⟩ := hc
    obtain ⟨q, hq, rfl⟩ := List.mem_map.mp hcL
    obtain ⟨b, i1, i2, d, e, hb1, hb2, h1, h2, hd1, hd2, he1, he2, rfl⟩ := hsh p hp
    simp only [quads1Strs, List.mem_map, List.mem_range'_1] at hq
    obtain ⟨k, ⟨hk1, hk2⟩, rfl⟩ := hq
    exact ⟨b, i1, i2, d, e, k, hb1, hb2, h1, h2, hd1, hd2, he1, he2, hk1, by omega,
      mk5_append b i1 i2 d e k⟩
  obtain ⟨res, hres, _⟩ := buildStrict_some (fun s => GARSGrid.init s none)
    GARSGrid.polygon R _
    (fun c hc => by
      obtain ⟨b, i1, i2, d, e, k, hb1, hb2, h1, h2, hd1, hd2, he1, he2, hk1, hk2, rfl⟩ :=
        hcand c hc
      simp only []
      rw [init1_eq b i1 i2 d e k hb1 hb2 h1 h2 hd1 hd2 he1 he2 hk1 hk2]
      rfl)
  refine ⟨res, ?_⟩
  unfold GARSField.gars_1min
  rw [h5]
  exact hres

/-- **C5 (amended).** As stated the claim is refuted by `C5_counterexample`:
a region whose west edge lies exactly on longitude 180 makes the corner
`from_latlon` call — which sits outside the `try/except` — raise, and the
error propagates. Away from that single failure line the claim's content
holds: the top-level 30-minute enumeration succeeds (invalid synthesized
candidates are silently skipped by `buildSkip`), and every refinement level
(15/5/1 minutes), whose loops have no error handler, also succeeds because
every child identifier of a valid parent constructs successfully. -/
theorem C5_no_error_propagation (R : Box) (h : R.minx ≠ 180) :
    (GARSField.gars_30min R).isSome ∧ (GARSField.gars_15min R).isSome ∧
    (GARSField.gars_5min R).isSome ∧ (GARSField.gars_1min R).isSome := by
  obtain ⟨l30, h30, hsh30⟩ := gars_30min_some R h
  obtain ⟨l15, h15, hsh15⟩ := gars_15min_some R l30 h30 hsh30
  obtain ⟨l5, h5, hsh5⟩ := gars_5min_some R l15 h15 hsh15
  obtain ⟨l1, h1⟩ := gars_1min_some R l5 h5 hsh5
  exact ⟨by rw [h30]; rfl, by rw [h15]; rfl, by rw [h5]; rfl, by rw [h1]; rfl⟩

/-- Witness for C5 at the concrete unit box `[0,1] × [0,1]`. -/
theorem C5_witness :
    (GARSField.gars_30min ⟨0, 0, 1, 1⟩).isSome ∧
    (GARSField.gars_15min ⟨0, 0, 1, 1⟩).isSome ∧
    (GARSField.gars_5min ⟨0, 0, 1, 1⟩).isSome ∧
    (GARSField.gars_1min ⟨0, 0, 1, 1⟩).isSome :=
  C5_no_error_propagation ⟨0, 0, 1, 1⟩ (by norm_num)

/-! ### Claim C2: floor arithmetic for the sub-cell indices of `from_latlon` -/

theorem orderedInsertBy_mem {γ : Type} (key : γ → String) (a g : γ) :
    ∀ l : List γ, g ∈ orderedInsertBy key a l ↔ g = a ∨ g ∈ l := by
  intro l
  induction l with
  | nil => simp [orderedInsertBy]
  | cons b t ih =>
    simp only [orderedInsertBy]
    split
    · simp
    · simp only [List.mem_cons, ih]
      tauto

theorem sortBy_mem {γ : Type} (key : γ → String) (g : γ) :
    ∀ l : List γ, g ∈ sortBy key l ↔ g ∈ l := by
  intro l
  induction l with
  | nil => simp [sortBy]
  | cons a t ih =>
    simp only [sortBy, orderedInsertBy_mem, ih, List.mem_cons]

theorem dedupBy_subset {γ : Type} (key : γ → String) (g : γ) :
    ∀ n (l : List γ), l.length ≤ n → g ∈ dedupBy key l → g ∈ l := by
  intro n
  induction n with
  | zero =>
    intro l hl hg
    interval_cases h : l.length
    · rw [List.length_eq_zero] at h
      subst h
      simpa [dedupBy] using hg
  | succ n ih =>
    intro l hl hg
    cases l with
    | nil => simpa [dedupBy] using hg
    | cons a t =>
      rw [dedupBy] at hg
      rcases List.mem_cons.mp hg with rfl | hg'
      · exact List.mem_cons_self _ _
      · have ht := ih (t.filter (fun h => key h ≠ key a))
          (le_trans (List.length_filter_le _ _) (by simpa using hl)) hg'
        exact List.mem_cons_of_mem _ (List.mem_of_mem_filter ht)

theorem mem_dedupBy {γ : Type} (key : γ → String) (g : γ) :
    ∀ n (l : List γ), l.length ≤ n →
      (∀ a ∈ l, ∀ b ∈ l, key a = key b → a = b) → g ∈ l → g ∈ dedupBy key l := by
  intro n
  induction n with
  | zero =>
    intro l hl _ hg
    have : l = [] := List.length_eq_zero.mp (by omega)
    subst this
    simp at hg
  | succ n ih =>
    intro l hl hkf hg
    cases l with
    | nil => simp at hg
    | cons a t =>
      rw [dedupBy]
      rcases List.mem_cons.mp hg with rfl | hg'
      · exact List.mem_cons_self _ _
      · by_cases hk : key g = key a
        · have : g = a := hkf g (by simp [hg']) a (by simp) hk
          rw [this]
          exact List.mem_cons_self _ _
        · refine List.mem_cons_of_mem _ (ih (t.filter (fun h => key h ≠ key a))
            (le_trans (List.length_filter_le _ _) (by simpa using hl)) ?_ ?_)
          · intro x hx y hy hxy
            exact hkf x (List.mem_cons_of_mem _ (List.mem_of_mem_filter hx))
              y (List.mem_cons_of_mem _ (List.mem_of_mem_filter hy)) hxy
          · exact List.mem_filter.mpr ⟨hg', by simpa using hk⟩

theorem dedupBy_pairwise {γ : Type} (key : γ → String) :
    ∀ n (l : List γ), l.length ≤ n →
      (dedupBy key l).Pairwise (fun a b => key a ≠ key b) := by
  intro n
  induction n with
  | zero =>
    intro l hl
    have : l = [] := List.length_eq_zero.mp (by omega)
    subst this
    simp [dedupBy]
  | succ n ih =>
    intro l hl
    cases l with
    | nil => simp [dedupBy]
    | cons a t =>
      rw [dedupBy]
      refine List.Pairwise.cons ?_ (ih _ (le_trans (List.length_filter_le _ _)
        (by simpa using hl)))
      intro b hb
      have := dedupBy_subset key b (t.filter (fun h => key h ≠ key a)).length _ le_rfl hb
      have := List.of_mem_filter this
      simp only [ne_eq, decide_not, Bool.not_eq_true', decide_eq_false_iff_not] at this
      exact fun h => this h.symm

theorem orderedInsertBy_pairwise {γ : Type} (key : γ → String) (x : γ) (l : List γ)
    (h : l.Pairwise (fun a b => key a < key b ∨ key a = key b)) :
    (orderedInsertBy key x l).Pairwise (fun a b => key a < key b ∨ key a = key b) := by
  induction l with
  | nil => simp [orderedInsertBy]
  | cons b t ih =>
    rw [orderedInsertBy]
    rcases List.pairwise_cons.mp h with ⟨hb, ht⟩
    split
    · next hcond =>
      refine List.Pairwise.cons ?_ h
      intro c hc
      rcases List.mem_cons.mp hc with rfl | hc'
      · exact hcond
      · rcases hcond with h1 | h1
        · rcases hb c hc' with h2 | h2
          · exact Or.inl (lt_trans h1 h2)
          · exact Or.inl (h2 ▸ h1)
        · rcases hb c hc' with h2 | h2
          · exact Or.inl (h1 ▸ h2)
          · exact Or.inr (h1.trans h2)
    · next hcond =>
      push_neg at hcond
      have hbx : key b < key x := by
        rcases lt_trichotomy (key x) (key b) with h1 | h1 | h1
        · exact absurd h1 hcond.1
        · exact absurd h1 hcond.2
        · exact h1
      refine List.Pairwise.cons ?_ (ih ht)
      intro c hc
      rcases (orderedInsertBy_mem key x c t).mp hc with rfl | hc'
      · exact Or.inl hbx
      · exact hb c hc'

theorem sortBy_pairwise {γ : Type} (key : γ → String) :
    ∀ l : List γ, (sortBy key l).Pairwise (fun a b => key a < key b ∨ key a = key b) := by
  intro l
  induction l with
  | nil => simp [sortBy]
  | cons a t ih => exact orderedInsertBy_pairwise key a _ ih

theorem orderedInsertBy_perm {γ : Type} (key : γ → String) (x : γ) :
    ∀ l : List γ, List.Perm (orderedInsertBy key x l) (x :: l) := by
  intro l
  induction l with
  | nil => exact List.Perm.refl _
  | cons b t ih =>
    rw [orderedInsertBy]
    split
    · exact List.Perm.refl _
    · exact List.Perm.trans (List.Perm.cons b ih) (List.Perm.swap x b t)

theorem sortBy_perm {γ : Type} (key : γ → String) :
    ∀ l : List γ, List.Perm (sortBy key l) l := by
  intro l
  induction l with
  | nil => exact List.Perm.refl _
  | cons a t ih =>
    exact List.Perm.trans (orderedInsertBy_perm key a _) (List.Perm.cons a ih)

theorem sortedSet_pairwise_lt {γ : Type} (key : γ → String) (l : List γ) :
    (sortedSet key l).Pairwise (fun a b => key a < key b) := by
  have h1 := sortBy_pairwise key (dedupBy key l)
  have h2 : (dedupBy key l).Pairwise (fun a b => key a ≠ key b) :=
    dedupBy_pairwise key l.length l le_rfl
  have h3 : (sortedSet key l).Pairwise (fun a b => key a ≠ key b) :=
    h2.perm (sortBy_perm key (dedupBy key l)).symm (by intro a b h; exact Ne.symm h)
  exact (h1.and h3).imp (fun hab => hab.1.resolve_right hab.2)

theorem mem_sortedSet {γ : Type} (key : γ → String) (l : List γ)
    (hkf : ∀ a ∈ l, ∀ b ∈ l, key a = key b → a = b) (g : γ) :
    g ∈ sortedSet key l ↔ g ∈ l := by
  unfold sortedSet
  rw [sortBy_mem]
  exact ⟨dedupBy_subset key g l.length l le_rfl,
    mem_dedupBy key g l.length l le_rfl hkf⟩

theorem pairwise_lt_eq {γ : Type} (key : γ → String) :
    ∀ l1 l2 : List γ, l1.Pairwise (fun a b => key a < key b) →
      l2.Pairwise (fun a b => key a < key b) → (∀ g, g ∈ l1 ↔ g ∈ l2) → l1 = l2 := by
  intro l1
  induction l1 with
  | nil =>
    intro l2 _ _ hm
    cases l2 with
    | nil => rfl
    | cons b t => exact absurd ((hm b).mpr (by simp)) (by simp)
  | cons a t1 ih =>
    intro l2 h1 h2 hm
    cases l2 with
    | nil => exact absurd ((hm a).mp (by simp)) (by simp)
    | cons b t2 =>
      rcases List.pairwise_cons.mp h1 with ⟨ha, ht1⟩
      rcases List.pairwise_cons.mp h2 with ⟨hb, ht2⟩
      have hab : a = b := by
        rcases List.mem_cons.mp ((hm a).mp (by simp)) with h | h
        · exact h
        · rcases List.mem_cons.mp ((hm b).mpr (by simp)) with h' | h'
          · exact h'.symm
          · exact absurd (lt_trans (hb a h) (ha b h')) (lt_irrefl _)
      subst hab
      have htm : ∀ g, g ∈ t1 ↔ g ∈ t2 := by
        intro g
        constructor
        · intro hg
          rcases List.mem_cons.mp ((hm g).mp (List.mem_cons_of_mem _ hg)) with h | h
          · exact absurd (show key a < key a from h ▸ ha g hg) (lt_irrefl _)
          · exact h
        · intro hg
          rcases List.mem_cons.mp ((hm g).mpr (List.mem_cons_of_mem _ hg)) with h | h
          · exact absurd (show key a < key a from h ▸ hb g hg) (lt_irrefl _)
          · exact h
      rw [ih t2 ht1 ht2 htm]

theorem sortedSet_eq_of {γ : Type} (key : γ → String) (l1 l2 : List γ)
    (hkf1 : ∀ a ∈ l1, ∀ b ∈ l1, key a = key b → a = b)
    (hkf2 : ∀ a ∈ l2, ∀ b ∈ l2, key a = key b → a = b)
    (hm : ∀ g, g ∈ l1 ↔ g ∈ l2) : sortedSet key l1 = sortedSet key l2 :=
  pairwise_lt_eq key _ _ (sortedSet_pairwise_lt key l1) (sortedSet_pairwise_lt key l2)
    (fun g => (mem_sortedSet key l1 hkf1 g).trans
      ((hm g).trans (mem_sortedSet key l2 hkf2 g).symm))

theorem intersects_iff_point (a b : Box) (ha1 : a.minx ≤ a.maxx) (ha2 : a.miny ≤ a.maxy)
    (hb1 : b.minx ≤ b.maxx) (hb2 : b.miny ≤ b.maxy) :
    a.intersects b = true ↔ ∃ x y, a.containsPt x y ∧ b.containsPt x y := by
  simp only [Box.intersects, Box.containsPt, Bool.and_eq_true, decide_eq_true_eq]
  constructor
  · rintro ⟨⟨⟨h1, h2⟩, h3⟩, h4⟩
    exact ⟨max a.minx b.minx, max a.miny b.miny,
      ⟨le_max_left _ _, max_le ha1 h2, le_max_left _ _, max_le ha2 h4⟩,
      ⟨le_max_right _ _, max_le h1 hb1, le_max_right _ _, max_le h3 hb2⟩⟩
  · rintro ⟨x, y, ⟨ha1', ha2', ha3', ha4'⟩, ⟨hb1', hb2', hb3', hb4'⟩⟩
    exact ⟨⟨⟨le_trans ha1' hb2', le_trans hb1' ha2'⟩, le_trans ha3' hb4'⟩,
      le_trans hb3' ha4'⟩

theorem buildStrict_eq_buildSkip {γ : Type} (mk : String → Option γ) (poly : γ → Box)
    (R : Box) : ∀ l : List String, (∀ c ∈ l, (mk c).isSome) →
      buildStrict mk poly R l = some (buildSkip mk poly R l) := by
  intro l
  induction l with
  | nil => exact fun _ => rfl
  | cons c rest ih =>
    intro h
    obtain ⟨g, hg⟩ := Option.isSome_iff_exists.mp (h c (by simp))
    have hrest := ih (fun c' hc' => h c' (by simp [hc']))
    simp only [buildStrict, buildSkip, List.filterMap_cons, hg, hrest, Option.map, Option.bind]
    split <;> rfl

theorem buildSkip_mem_iff {γ : Type} (mk : String → Option γ) (poly : γ → Box) (R : Box)
    (cands : List String) (g : γ) :
    g ∈ buildSkip mk poly R cands ↔
      ∃ c ∈ cands, mk c = some g ∧ (poly g).intersects R = true := by
  simp only [buildSkip, List.mem_filterMap]
  constructor
  · rintro ⟨c, hc, hbind⟩
    refine ⟨c, hc, ?_⟩
    cases hmk : mk c with
    | none => rw [hmk] at hbind; simp at hbind
    | some g' =>
      rw [hmk] at hbind
      simp only [Option.bind] at hbind
      split at hbind
      · next hcond =>
        injection hbind with h'
        subst h'
        exact ⟨rfl, hcond⟩
      · exact absurd hbind (by simp)
  · rintro ⟨c, hc, hmk, hint⟩
    refine ⟨c, hc, ?_⟩
    rw [hmk]
    simp only [Option.bind]
    rw [if_pos hint]

theorem gedChar_inj : ∀ i < 3, ∀ i' < 3, gedChar i = gedChar i' → i = i' := by decide

theorem mkGed60_inj (n i n' i' : ℕ) (hn : n ≤ 9) (hn' : n' ≤ 9) (hi : i < 3) (hi' : i' < 3)
    (h : mkGed60 n i = mkGed60 n' i') : n = n' ∧ i = i' := by
  have hd := congrArg String.data h
  simp only [mkGed60] at hd
  injection hd with hg1 hd1
  injection hd1 with hg2 hd2
  injection hd2 with h1 hd3
  injection hd3 with h2 _
  constructor
  · have := congrArg digitVal h1
    rwa [digitVal_dCh n (by omega), digitVal_dCh n' (by omega)] at this
  · exact gedChar_inj i hi i' hi' h2

theorem mem_ged60Cands (c : String) :
    c ∈ ((List.range' 1 6).map (fun n => GED_LETTERS.map
      (fun ch => "GD" ++ dStr n ++ (⟨[ch]⟩ : String)))).flatten ↔
    ∃ n i, 1 ≤ n ∧ n ≤ 6 ∧ i < 3 ∧ c = mkGed60 n i := by
  simp only [List.mem_flatten, List.mem_map, List.mem_range'_1]
  constructor
  · rintro ⟨L, ⟨n, ⟨hn1, hn2⟩, rfl⟩, hcL⟩
    obtain ⟨ch, hch, rfl⟩ := List.mem_map.mp hcL
    simp only [GED_LETTERS, List.mem_cons, List.not_mem_nil, or_false] at hch
    rcases hch with rfl | rfl | rfl
    · exact ⟨n, 0, hn1, by omega, by omega, rfl⟩
    · exact ⟨n, 1, hn1, by omega, by omega, rfl⟩
    · exact ⟨n, 2, hn1, by omega, by omega, rfl⟩
  · rintro ⟨n, i, hn1, hn2, hi, rfl⟩
    refine ⟨GED_LETTERS.map (fun ch => "GD" ++ dStr n ++ (⟨[ch]⟩ : String)),
      ⟨n, ⟨hn1, by omega⟩, rfl⟩, ?_⟩
    refine List.mem_map.mpr ⟨gedChar i, ?_, rfl⟩
    interval_cases i <;> decide

theorem gars_60deg_eq (R : Box) :
    GARSField.gars_60deg R = some (buildSkip (fun s => GEDGARSGrid.init s none)
      GEDGARSGrid.polygon R
      (((List.range' 1 6).map (fun n => GED_LETTERS.map
        (fun c => "GD" ++ dStr n ++ (⟨[c]⟩ : String)))).flatten)) := by
  apply buildStrict_eq_buildSkip
  intro c hc
  obtain ⟨n, i, hn1, hn2, hi, rfl⟩ := (mem_ged60Cands c).mp hc
  rw [gedInit60_eq n i hn1 hn2 hi]
  rfl

theorem mem_gars_60deg (R : Box) (g : GEDGARSGrid) :
    g ∈ buildSkip (fun s => GEDGARSGrid.init s none) GEDGARSGrid.polygon R
      (((List.range' 1 6).map (fun n => GED_LETTERS.map
        (fun c => "GD" ++ dStr n ++ (⟨[c]⟩ : String)))).flatten) ↔
    ∃ n i, 1 ≤ n ∧ n ≤ 6 ∧ i < 3 ∧ g = gedCell60 n i ∧
      (gedCell60 n i).polygon.intersects R = true := by
  rw [buildSkip_mem_iff]
  constructor
  · rintro ⟨c, hc, hmk, hint⟩
    obtain ⟨n, i, hn1, hn2, hi, rfl⟩ := (mem_ged60Cands c).mp hc
    rw [gedInit60_eq n i hn1 hn2 hi] at hmk
    injection hmk with h'
    subst h'
    exact ⟨n, i, hn1, hn2, hi, rfl, hint⟩
  · rintro ⟨n, i, hn1, hn2, hi, rfl, hint⟩
    exact ⟨mkGed60 n i, (mem_ged60Cands _).mpr ⟨n, i, hn1, hn2, hi, rfl⟩,
      gedInit60_eq n i hn1 hn2 hi, hint⟩

theorem gedCell60_wf (n i : ℕ) (hn : n ≤ 9) (hi : i < 3) :
    (gedCell60 n i).polygon.minx ≤ (gedCell60 n i).polygon.maxx ∧
    (gedCell60 n i).polygon.miny ≤ (gedCell60 n i).polygon.maxy := by
  rw [polygon_gedCell60' n i hn hi]
  constructor
  · simp only []
    linarith
  · simp only []
    linarith

theorem mapM_some_map {α β : Type} (f : α → Option β) (g : α → β) :
    ∀ l : List α, (∀ a ∈ l, f a = some (g a)) → l.mapM f = some (l.map g) := by
  intro l
  induction l with
  | nil => intro _; rfl
  | cons a t ih =>
    intro h
    rw [List.mapM_cons, h a (by simp), ih (fun x hx => h x (by simp [hx]))]
    rfl

theorem ged60_flatten_kf (R : Box → Box) (P : List Box) :
    ∀ a ∈ (P.map (fun p => buildSkip (fun s => GEDGARSGrid.init s none)
        GEDGARSGrid.polygon (R p)
        (((List.range' 1 6).map (fun n => GED_LETTERS.map
          (fun c => "GD" ++ dStr n ++ (⟨[c]⟩ : String)))).flatten))).flatten,
      ∀ b ∈ (P.map (fun p => buildSkip (fun s => GEDGARSGrid.init s none)
        GEDGARSGrid.polygon (R p)
        (((List.range' 1 6).map (fun n => GED_LETTERS.map
          (fun c => "GD" ++ dStr n ++ (⟨[c]⟩ : String)))).flatten))).flatten,
      a.gars_id = b.gars_id → a = b := by
  intro a ha b hb hk
  simp only [List.mem_flatten, List.mem_map] at ha hb
  obtain ⟨_, ⟨p, _, rfl⟩, ha'⟩ := ha
  obtain ⟨_, ⟨q, _, rfl⟩, hb'⟩ := hb
  obtain ⟨n, i, _, hn2, hi, rfl, _⟩ := (mem_gars_60deg _ a).mp ha'
  obtain ⟨n', i', _, hn2', hi', rfl, _⟩ := (mem_gars_60deg _ b).mp hb'
  have hkey : mkGed60 n i = mkGed60 n' i' := hk
  obtain ⟨rfl, rfl⟩ := mkGed60_inj n i n' i' (by omega) (by omega) hi hi' hkey
  rfl

theorem gars30_list_kf (R : Box) (l : List GARSGrid)
    (h : GARSField.gars_30min R = some l) :
    ∀ a ∈ l, ∀ b ∈ l, a.gars_id = b.gars_id → a = b := by
  intro a ha b hb hk
  cases hr : GARSField._get_30min_ranges R with
  | none =>
    unfold GARSField.gars_30min at h
    rw [hr] at h
    simp at h
  | some rg =>
    unfold GARSField.gars_30min at h
    rw [hr] at h
    simp only [Option.map_some'] at h
    injection h with h'
    subst h'
    obtain ⟨ca, _, hmka⟩ := buildSkip_mem _ _ _ _ a ha
    obtain ⟨cb, _, hmkb⟩ := buildSkip_mem _ _ _ _ b hb
    have ha' : a.gars_id = ca := GARSGrid.init_gars_id hmka
    have hb' : b.gars_id = cb := GARSGrid.init_gars_id hmkb
    have : ca = cb := by rw [← ha', ← hb', hk]
    rw [this] at hmka
    rw [hmka] at hmkb
    injection hmkb

theorem ged60_union_mono (P P' : List Box)
    (hwfP : ∀ p ∈ P, p.minx ≤ p.maxx ∧ p.miny ≤ p.maxy)
    (hwfP' : ∀ p ∈ P', p.minx ≤ p.maxx ∧ p.miny ≤ p.maxy)
    (hcover : ∀ x y : ℚ, (∃ p ∈ P, p.containsPt x y) → (∃ p ∈ P', p.containsPt x y)) :
    ∀ g, g ∈ (P.map (fun p => buildSkip (fun s => GEDGARSGrid.init s none)
        GEDGARSGrid.polygon p
        (((List.range' 1 6).map (fun n => GED_LETTERS.map
          (fun c => "GD" ++ dStr n ++ (⟨[c]⟩ : String)))).flatten))).flatten →
      g ∈ (P'.map (fun p => buildSkip (fun s => GEDGARSGrid.init s none)
        GEDGARSGrid.polygon p
        (((List.range' 1 6).map (fun n => GED_LETTERS.map
          (fun c => "GD" ++ dStr n ++ (⟨[c]⟩ : String)))).flatten))).flatten := by
  intro g hg
  simp only [List.mem_flatten, List.mem_map] at hg ⊢
  obtain ⟨_, ⟨p, hp, rfl⟩, hg'⟩ := hg
  obtain ⟨n, i, hn1, hn2, hi, rfl, hint⟩ := (mem_gars_60deg p g).mp hg'
  obtain ⟨wf1, wf2⟩ := gedCell60_wf n i (by omega) hi
  obtain ⟨x, y, hcellpt, hppt⟩ :=
    (intersects_iff_point _ _ wf1 wf2 (hwfP p hp).1 (hwfP p hp).2).mp hint
  obtain ⟨p', hp', hppt'⟩ := hcover x y ⟨p, hp, hppt⟩
  have hint' : (gedCell60 n i).polygon.intersects p' = true :=
    (intersects_iff_point _ _ wf1 wf2 (hwfP' p' hp').1 (hwfP' p' hp').2).mpr
      ⟨x, y, hcellpt, hppt'⟩
  exact ⟨_, ⟨p', hp', rfl⟩, (mem_gars_60deg p' _).mpr ⟨n, i, hn1, hn2, hi, rfl, hint'⟩⟩

/-- **C4.** Composite (multi-part) handling: (i) the multi-part 30-minute
enumeration is exactly the per-part enumerations concatenated, deduplicated by
identifier and sorted ascending by identifier; (ii) the 60-degree multi-part
enumeration is invariant under re-partitioning the region into different
well-formed parts covering the same point set; (iii) two identical overlapping
parts yield the same result as a single part, at both the 30-minute and the
60-degree level. -/
theorem C4_composite_dedup_sort :
    (∀ (parts : List Box) (ls : List (List GARSGrid)),
      parts.mapM GARSField.gars_30min = some ls →
      GARSField.gars_30min_multi parts =
        some (sortedSet GARSGrid.gars_id ls.flatten)) ∧
    (∀ P P' : List Box,
      (∀ p ∈ P, p.minx ≤ p.maxx ∧ p.miny ≤ p.maxy) →
      (∀ p ∈ P', p.minx ≤ p.maxx ∧ p.miny ≤ p.maxy) →
      (∀ x y : ℚ, (∃ p ∈ P, p.containsPt x y) ↔ (∃ p ∈ P', p.containsPt x y)) →
      GARSField.gars_60deg_multi P = GARSField.gars_60deg_multi P') ∧
    (∀ R : Box,
      GARSField.gars_30min_multi [R, R] = GARSField.gars_30min_multi [R] ∧
      GARSField.gars_60deg_multi [R, R] = GARSField.gars_60deg_multi [R]) := by
  refine ⟨?_, ?_, ?_⟩
  · intro parts ls h
    unfold GARSField.gars_30min_multi
    rw [h]
    rfl
  · intro P P' hwfP hwfP' hcover
    have hP := mapM_some_map GARSField.gars_60deg _ P (fun p _ => gars_60deg_eq p)
    have hP' := mapM_some_map GARSField.gars_60deg _ P' (fun p _ => gars_60deg_eq p)
    unfold GARSField.gars_60deg_multi
    rw [hP, hP']
    simp only [Option.map_some']
    congr 1
    apply sortedSet_eq_of
    · exact ged60_flatten_kf (fun p => p) P
    · exact ged60_flatten_kf (fun p => p) P'
    · intro g
      exact ⟨ged60_union_mono P P' hwfP hwfP' (fun x y h => (hcover x y).mp h) g,
        ged60_union_mono P' P hwfP' hwfP (fun x y h => (hcover x y).mpr h) g⟩
  · intro R
    constructor
    · cases h : GARSField.gars_30min R with
      | none =>
        have h2 : ([R, R] : List Box).mapM GARSField.gars_30min = none := by
          rw [List.mapM_cons, h]
          rfl
        have h1 : ([R] : List Box).mapM GARSField.gars_30min = none := by
          rw [List.mapM_cons, h]
          rfl
        unfold GARSField.gars_30min_multi
        rw [h1, h2]
      | some l =>
        have h2 : ([R, R] : List Box).mapM GARSField.gars_30min = some [l, l] := by
          rw [List.mapM_cons, h, List.mapM_cons, h]
          rfl
        have h1 : ([R] : List Box).mapM GARSField.gars_30min = some [l] := by
          rw [List.mapM_cons, h]
          rfl
        unfold GARSField.gars_30min_multi
        rw [h1, h2]
        simp only [Option.map_some']
        congr 1
        apply sortedSet_eq_of
        · intro a ha b hb
          simp only [List.flatten, List.append_nil] at ha hb
          exact gars30_list_kf R l h a (by
              rcases List.mem_append.mp ha with h' | h'
              · exact h'
              · simpa using h') b (by
              rcases List.mem_append.mp hb with h' | h'
              · exact h'
              · simpa using h') 
        · intro a ha b hb
          simp only [List.flatten, List.append_nil] at ha hb
          exact gars30_list_kf R l h a ha b hb
        · intro g
          simp [List.flatten]
    · have hP := mapM_some_map GARSField.gars_60deg _ [R, R]
        (fun p _ => gars_60deg_eq p)
      have hP' := mapM_some_map GARSField.gars_60deg _ [R]
        (fun p _ => gars_60deg_eq p)
      unfold GARSField.gars_60deg_multi
      rw [hP, hP']
      simp only [Option.map_some']
      congr 1
      apply sortedSet_eq_of
      · exact ged60_flatten_kf (fun p => p) [R, R]
      · exact ged60_flatten_kf (fun p => p) [R]
      · intro g
        simp [List.flatten]

/-- Witness for C4: duplicating a concrete part changes nothing. -/
theorem C4_witness :
    GARSField.gars_30min_multi [⟨0, 0, 1, 1⟩, ⟨0, 0, 1, 1⟩] =
      GARSField.gars_30min_multi [⟨0, 0, 1, 1⟩] ∧
    GARSField.gars_60deg_multi [⟨0, 0, 1, 1⟩, ⟨0, 0, 1, 1⟩] =
      GARSField.gars_60deg_multi [⟨0, 0, 1, 1⟩] :=
  C4_composite_dedup_sort.2.2 ⟨0, 0, 1, 1⟩

/-! ### Claim C1: enumeration versus brute force -/

theorem indexOf_lchar : ∀ i : ℕ, i < 24 → GARS_LETTERS.indexOf (lchar i) = i := by decide

theorem lchar_inj : ∀ m : ℕ, m < 24 → ∀ m' : ℕ, m' < 24 → lchar m = lchar m' → m = m' := by
  decide

theorem takeMem : ∀ k : ℕ, k < 24 → ∀ m : ℕ, m < 24 →
    ((lchar m ∈ GARS_LETTERS.take (k + 1)) ↔ m ≤ k) := by decide

theorem dropMem : ∀ j : ℕ, j < 24 → ∀ m : ℕ, m < 24 →
    ((lchar m ∈ GARS_LETTERS.drop j) ↔ j ≤ m) := by decide

theorem segMem : ∀ j : ℕ, j < 24 → ∀ k : ℕ, k < 24 → ∀ m : ℕ, m < 24 →
    ((lchar m ∈ (GARS_LETTERS.take (k + 1)).drop j) ↔ (j ≤ m ∧ m ≤ k)) := by decide

theorem midMem : ∀ j : ℕ, j < 24 → ∀ k : ℕ, k < 24 → ∀ m : ℕ, m < 24 →
    ((lchar m ∈ ((((GARS_LETTERS.take (k + 1)).drop j).drop 1).dropLast)) ↔
      (j < m ∧ m < k)) := by decide

theorem mem_of_mem_dropLast {α : Type} {a : α} : ∀ l : List α, a ∈ l.dropLast → a ∈ l := by
  intro l h
  exact List.dropLast_subset l h

theorem letterMem : ∀ m : ℕ, m < 24 → lchar m ∈ GARS_LETTERS := by decide

theorem mem_lat_letter_range (a1 b1 a2 b2 : ℕ)
    (ha1 : a1 < 24) (hb1 : b1 < 24) (ha2 : a2 < 24) (hb2 : b2 < 24) (hord : a1 ≤ a2)
    (s : String) :
    s ∈ GARSField._get_lat_letter_range GARS_LETTERS (lchar a1) (lchar b1)
        (lchar a2) (lchar b2) ↔
      ∃ i1 i2, i1 < 24 ∧ i2 < 24 ∧ 24 * a1 + b1 ≤ 24 * i1 + i2 ∧
        24 * i1 + i2 ≤ 24 * a2 + b2 ∧ s = (⟨[lchar i1, lchar i2]⟩ : String) := by
  unfold GARSField._get_lat_letter_range
  simp only []
  rw [indexOf_lchar a1 ha1, indexOf_lchar b1 hb1, indexOf_lchar a2 ha2,
    indexOf_lchar b2 hb2]
  by_cases h12 : a1 = a2
  · subst h12
    rw [if_neg (by simp)]
    simp only [List.mem_flatten, List.mem_map]
    constructor
    · rintro ⟨L, ⟨c1, hc1, rfl⟩, hsL⟩
      obtain ⟨c2, hc2, rfl⟩ := List.mem_map.mp hsL
      obtain ⟨hlt1, he1⟩ :=
        lat2Chars_mem c1 (List.mem_of_mem_take (List.mem_of_mem_drop hc1))
      obtain ⟨hlt2, he2⟩ :=
        lat2Chars_mem c2 (List.mem_of_mem_take (List.mem_of_mem_drop hc2))
      rw [← he1] at hc1
      rw [← he2] at hc2
      obtain ⟨hj1, hk1⟩ := (segMem a1 ha1 a1 ha1 _ hlt1).mp hc1
      obtain ⟨hj2, hk2⟩ := (segMem b1 hb1 b2 hb2 _ hlt2).mp hc2
      exact ⟨_, _, hlt1, hlt2, by omega, by omega, by rw [he1, he2]⟩
    · rintro ⟨i1, i2, hi1, hi2, hlo, hhi, rfl⟩
      have hi1a : i1 = a1 := by omega
      subst hi1a
      refine ⟨_, ⟨lchar i1, (segMem i1 ha1 i1 ha1 i1 hi1).mpr ⟨le_rfl, le_rfl⟩, rfl⟩, ?_⟩
      exact List.mem_map.mpr
        ⟨lchar i2, (segMem b1 hb1 b2 hb2 i2 hi2).mpr ⟨by omega, by omega⟩, rfl⟩
  · rw [if_pos (fun hc => h12 (lchar_inj a1 ha1 a2 ha2 hc))]
    simp only [List.mem_append, List.mem_flatten, List.mem_map]
    constructor
    · rintro ((⟨c2, hc2, rfl⟩ | ⟨L, ⟨c1, hc1, rfl⟩, hsL⟩) | ⟨c2, hc2, rfl⟩)
      · obtain ⟨hlt2, he2⟩ := lat2Chars_mem c2 (List.mem_of_mem_drop hc2)
        rw [← he2] at hc2
        have hj2 := (dropMem b1 hb1 _ hlt2).mp hc2
        have ha1a2 : a1 < a2 := lt_of_le_of_ne hord h12
        exact ⟨a1, _, ha1, hlt2, by omega, by omega, by rw [he2]⟩
      · obtain ⟨c2, hc2, rfl⟩ := List.mem_map.mp hsL
        obtain ⟨hlt1, he1⟩ := lat2Chars_mem c1 (List.mem_of_mem_take
          (List.mem_of_mem_drop (List.mem_of_mem_drop (mem_of_mem_dropLast _ hc1))))
        rw [← he1] at hc1
        obtain ⟨hgt, hlt⟩ := (midMem a1 ha1 a2 ha2 _ hlt1).mp hc1
        obtain ⟨hlt2, he2⟩ := lat2Chars_mem c2 hc2
        exact ⟨_, _, hlt1, hlt2, by omega, by omega, by rw [he1, he2]⟩
      · obtain ⟨hlt2, he2⟩ := lat2Chars_mem c2 (List.mem_of_mem_take hc2)
        rw [← he2] at hc2
        have hk2 := (takeMem b2 hb2 _ hlt2).mp hc2
        have ha1a2 : a1 < a2 := lt_of_le_of_ne hord h12
        exact ⟨a2, _, ha2, hlt2, by omega, by omega, by rw [he2]⟩
    · rintro ⟨i1, i2, hi1, hi2, hlo, hhi, rfl⟩
      have ha1a2 : a1 < a2 := lt_of_le_of_ne hord h12
      by_cases hcase1 : i1 = a1
      · subst hcase1
        exact Or.inl (Or.inl ⟨lchar i2, (dropMem b1 hb1 i2 hi2).mpr (by omega), rfl⟩)
      · by_cases hcase2 : i1 = a2
        · subst hcase2
          exact Or.inr ⟨lchar i2, (takeMem b2 hb2 i2 hi2).mpr (by omega), rfl⟩
        · refine Or.inl (Or.inr ⟨_, ⟨lchar i1,
            (midMem a1 ha1 a2 ha2 i1 hi1).mpr ⟨by omega, by omega⟩, rfl⟩, ?_⟩)
          exact List.mem_map.mpr ⟨lchar i2, letterMem i2 hi2, rfl⟩

theorem strSlice3_cell30 (b i1 i2 : ℕ) :
    strSlice (cell30 b i1 i2).gars_id 0 3 = natTo3 b := rfl

/-- Membership in the synthesized longitude-number range of `_get_30min_ranges`. -/
theorem mem_lon_range (Bl Bu : ℕ) (s : String) :
    s ∈ (List.range' Bl (Bu + 1 - Bl)).map natTo3 ↔
      ∃ b, Bl ≤ b ∧ b ≤ Bu ∧ s = natTo3 b := by
  simp only [List.mem_map, List.mem_range'_1]
  constructor
  · rintro ⟨b, ⟨hb1, hb2⟩, rfl⟩
    exact ⟨b, hb1, by omega, rfl⟩
  · rintro ⟨b, hb1, hb2, rfl⟩
    exact ⟨b, ⟨hb1, by omega⟩, rfl⟩

/-- The concrete value of `_get_30min_ranges` on an in-range box. -/
theorem get_30min_ranges_val (R : Box)
    (hx1 : -180 ≤ R.minx) (hx2 : R.minx ≤ R.maxx) (hx3 : R.maxx < 180)
    (hy1 : -90 ≤ R.miny) (hy2 : R.miny ≤ R.maxy) (hy3 : R.maxy < 90) :
    GARSField._get_30min_ranges R = some
      ((List.range' (⌊2 * (R.minx + 180)⌋ + 1).toNat
          ((⌊2 * (R.maxx + 180)⌋ + 1).toNat + 1 -
            (⌊2 * (R.minx + 180)⌋ + 1).toNat)).map natTo3,
        GARSField._get_lat_letter_range GARS_LETTERS
          (lchar (⌊2 * (R.miny + 90)⌋.toNat / 24)) (lchar (⌊2 * (R.miny + 90)⌋.toNat % 24))
          (lchar (⌊2 * (R.maxy + 90)⌋.toNat / 24))
          (lchar (⌊2 * (R.maxy + 90)⌋.toNat % 24))) := by
  have hxlt : R.minx < 180 := lt_of_le_of_lt hx2 hx3
  have hylt : R.miny < 90 := lt_of_le_of_lt hy2 hy3
  have h1 : GARSGrid.from_latlon R.miny (if R.minx < -180 then (-180 : ℚ) else R.minx) 30 =
      some (cell30 (⌊2 * (R.minx + 180)⌋ + 1).toNat
        (⌊2 * (R.miny + 90)⌋.toNat / 24) (⌊2 * (R.miny + 90)⌋.toNat % 24)) := by
    rw [if_neg (not_lt.mpr hx1)]
    exact from_latlon_30 R.miny R.minx hx1 hxlt hy1 hylt
  have h2 : GARSGrid.from_latlon R.maxy
      (if (180 : ℚ) ≤ R.maxx then (179.999999999999 : ℚ) else R.maxx) 30 =
      some (cell30 (⌊2 * (R.maxx + 180)⌋ + 1).toNat
        (⌊2 * (R.maxy + 90)⌋.toNat / 24) (⌊2 * (R.maxy + 90)⌋.toNat % 24)) := by
    rw [if_neg (not_le.mpr hx3)]
    exact from_latlon_30 R.maxy R.maxx (by linarith) hx3 (by linarith) hy3
  have hrg := get_30min_ranges_eq R _ _ h1 h2
  have hBl : (⌊2 * (R.minx + 180)⌋ + 1).toNat ≤ 999 := by
    have : ⌊2 * (R.minx + 180)⌋ < 720 := Int.floor_lt.mpr (by push_cast; linarith)
    omega
  have hBu : (⌊2 * (R.maxx + 180)⌋ + 1).toNat ≤ 999 := by
    have : ⌊2 * (R.maxx + 180)⌋ < 720 := Int.floor_lt.mpr (by push_cast; linarith)
    omega
  rw [strSlice3_cell30, strSlice3_cell30, natTo3_strToNat _ hBl, natTo3_strToNat _ hBu] at hrg
  exact hrg

/-- `gars_30min_eq` restated with the two range lists exposed. -/
theorem gars_30min_eq' (R : Box) (A B : List String)
    (h : GARSField._get_30min_ranges R = some (A, B)) :
    GARSField.gars_30min R = some
      (buildSkip (fun s => GARSGrid.init s none) GARSGrid.polygon R
        ((A.map (fun ln => B.map (fun lt => ln ++ lt))).flatten)) :=
  gars_30min_eq R (A, B) h

/-- Intersection of a 30-minute cell's bounding box with a region,
written out as four rational inequalities. -/
theorem cell30_intersects (b i1 i2 : ℕ) (hb : b ≤ 999) (h1 : i1 < 24) (h2 : i2 < 24)
    (R : Box) :
    ((cell30 b i1 i2).polygon.intersects R = true) ↔
      (((b : ℚ) - 1) / 2 - 180 ≤ R.maxx ∧ R.minx ≤ ((b : ℚ) - 1) / 2 - 180 + 1 / 2 ∧
       -90 + (i1 : ℚ) * 12 + (i2 : ℚ) / 2 ≤ R.maxy ∧
       R.miny ≤ -90 + (i1 : ℚ) * 12 + (i2 : ℚ) / 2 + 1 / 2) := by
  rw [polygon_cell30 b i1 i2 hb h1 h2]
  simp only [Box.intersects, Bool.and_eq_true, decide_eq_true_eq, lon0, lat0]
  tauto

theorem buildSkip_singleton {γ : Type} (mk : String → Option γ) (poly : γ → Box) (R : Box)
    (c : String) (g : γ) (h1 : mk c = some g) (h2 : (poly g).intersects R = true) :
    buildSkip mk poly R [c] = [g] := by
  have hf : ((mk c).bind fun g' => if (poly g').intersects R then some g' else none) =
      some g := by
    rw [h1]
    simp only [Option.some_bind]
    rw [h2]
    exact if_pos rfl
  unfold buildSkip
  rw [List.filterMap_cons]
  rw [hf]
  rfl

/-- C1: for a simple bounding region whose west and south edges are NOT aligned
with the 30-minute grid (and which stays inside the principal coordinate
ranges), the field's enumeration at the 30-minute level, and its 15-minute
refinement, return exactly the valid cells whose bounding box intersects the
region — the brute-force set.  (The unamended claim, without the alignment
proviso, is refuted by `C1_counterexample`.) -/
theorem C1_enumeration_brute_force (R : Box)
    (hx1 : -180 ≤ R.minx) (hx2 : R.minx ≤ R.maxx) (hx3 : R.maxx < 180)
    (hy1 : -90 ≤ R.miny) (hy2 : R.miny ≤ R.maxy) (hy3 : R.maxy < 90)
    (hfx : Int.fract (2 * (R.minx + 180)) ≠ 0)
    (hfy : Int.fract (2 * (R.miny + 90)) ≠ 0) :
    (∃ l, GARSField.gars_30min R = some l ∧
      ∀ g, g ∈ l ↔ ∃ b i1 i2, 1 ≤ b ∧ b ≤ 720 ∧ i1 < 15 ∧ i2 < 24 ∧
        g = cell30 b i1 i2 ∧ (cell30 b i1 i2).polygon.intersects R = true) ∧
    (∃ l, GARSField.gars_15min R = some l ∧
      ∀ g, g ∈ l ↔ ∃ b i1 i2 d, 1 ≤ b ∧ b ≤ 720 ∧ i1 < 15 ∧ i2 < 24 ∧ 1 ≤ d ∧ d ≤ 4 ∧
        g = cell15 b i1 i2 d ∧ (cell15 b i1 i2 d).polygon.intersects R = true) := by
  have hbody : ∃ l, GARSField.gars_30min R = some l ∧
      ∀ g, g ∈ l ↔ ∃ b i1 i2, 1 ≤ b ∧ b ≤ 720 ∧ i1 < 15 ∧ i2 < 24 ∧
        g = cell30 b i1 i2 ∧ (cell30 b i1 i2).polygon.intersects R = true := by
    have hrg := get_30min_ranges_val R hx1 hx2 hx3 hy1 hy2 hy3
    refine ⟨_, gars_30min_eq' R _ _ hrg, ?_⟩
    intro g
    rw [buildSkip_mem_iff]
    have hm1nn : (0 : ℤ) ≤ ⌊2 * (R.minx + 180)⌋ := Int.le_floor.mpr (by push_cast; linarith)
    have hm2nn : (0 : ℤ) ≤ ⌊2 * (R.miny + 90)⌋ := Int.le_floor.mpr (by push_cast; linarith)
    have hm2lt : ⌊2 * (R.miny + 90)⌋ < 360 := Int.floor_lt.mpr (by push_cast; linarith)
    have hM2lt : ⌊2 * (R.maxy + 90)⌋ < 360 := Int.floor_lt.mpr (by push_cast; linarith)
    constructor
    · rintro ⟨c, hc, hmk, hI⟩
      simp only [List.mem_flatten, List.mem_map] at hc
      obtain ⟨L, ⟨ln, ⟨b0, hb0, rfl⟩, rfl⟩, hcL⟩ := hc
      obtain ⟨lts, hlts, rfl⟩ := List.mem_map.mp hcL
      obtain ⟨c1, c2, rfl⟩ := lat_letter_range_shape _ _ _ _ _ lts hlts
      obtain ⟨b, i1, i2, hb1, hb2, h1, h2, rfl⟩ :=
        init5char_cell30 (natTo3 b0 ++ (⟨[c1, c2]⟩ : String)) rfl g hmk
      exact ⟨b, i1, i2, hb1, hb2, h1, h2, rfl, hI⟩
    · rintro ⟨b, i1, i2, hb1, hb2, h1, h2, rfl, hI⟩
      have hq := hI
      rw [cell30_intersects b i1 i2 (by omega) (by omega) h2 R] at hq
      obtain ⟨q1, q2, q3, q4⟩ := hq
      have hfloorx := fract_ne_zero_floor_lt hfx
      have hfloory := fract_ne_zero_floor_lt hfy
      have hm1b : ⌊2 * (R.minx + 180)⌋ < (b : ℤ) := by
        have hle : 2 * (R.minx + 180) ≤ (b : ℚ) := by linarith
        exact_mod_cast lt_of_lt_of_le hfloorx hle
      have hbM1 : (b : ℤ) ≤ ⌊2 * (R.maxx + 180)⌋ + 1 := by
        have h' : ((b : ℤ) - 1) ≤ ⌊2 * (R.maxx + 180)⌋ :=
          Int.le_floor.mpr (by push_cast; linarith)
        omega
      have ht1 : ⌊2 * (R.miny + 90)⌋ < ((24 * i1 + i2 : ℕ) : ℤ) + 1 := by
        have hle : 2 * (R.miny + 90) ≤ ((24 * i1 + i2 : ℕ) : ℚ) + 1 := by push_cast; linarith
        exact_mod_cast lt_of_lt_of_le hfloory hle
      have ht2 : ((24 * i1 + i2 : ℕ) : ℤ) ≤ ⌊2 * (R.maxy + 90)⌋ := by
        refine Int.le_floor.mpr ?_
        push_cast
        linarith
      refine ⟨mk30 b i1 i2, ?_, init30_eq b i1 i2 hb1 hb2 h1 h2, hI⟩
      simp only [List.mem_flatten, List.mem_map]
      refine ⟨_, ⟨natTo3 b, ⟨b, ?_, rfl⟩, rfl⟩, ?_⟩
      · simp only [List.mem_range'_1]
        omega
      refine List.mem_map.mpr ⟨(⟨[lchar i1, lchar i2]⟩ : String), ?_, mk30_of_append b i1 i2⟩
      refine (mem_lat_letter_range (⌊2 * (R.miny + 90)⌋.toNat / 24)
        (⌊2 * (R.miny + 90)⌋.toNat % 24) (⌊2 * (R.maxy + 90)⌋.toNat / 24)
        (⌊2 * (R.maxy + 90)⌋.toNat % 24) (by omega) (by omega) (by omega) (by omega)
        (by omega) _).mpr ⟨i1, i2, by omega, h2, by omega, by omega, rfl⟩
  obtain ⟨l30, h30eq, h30iff⟩ := hbody
  refine ⟨⟨l30, h30eq, h30iff⟩, ?_⟩
  have hcand : ∀ c ∈ ((l30.map (fun p => quads15Strs.map (fun q => p.gars_id ++ q))).flatten),
      (GARSGrid.init c none).isSome := by
    intro c hc
    simp only [List.mem_flatten, List.mem_map] at hc
    obtain ⟨L, ⟨p, hp, rfl⟩, hcL⟩ := hc
    obtain ⟨q, hq, rfl⟩ := List.mem_map.mp hcL
    obtain ⟨b, i1, i2, hb1, hb2, h1, h2, rfl, _⟩ := (h30iff p).mp hp
    simp only [quads15Strs, List.mem_map, List.mem_range'_1] at hq
    obtain ⟨d, hd, rfl⟩ := hq
    show (GARSGrid.init ((cell30 b i1 i2).gars_id ++ dStr d) none).isSome
    rw [show (cell30 b i1 i2).gars_id ++ dStr d = mk15 b i1 i2 d from mk30_append b i1 i2 d]
    rw [init15_eq b i1 i2 d hb1 hb2 h1 h2 (by omega) (by omega)]
    rfl
  have h15eq : GARSField.gars_15min R = some (buildSkip (fun s => GARSGrid.init s none)
      GARSGrid.polygon R
      ((l30.map (fun p => quads15Strs.map (fun q => p.gars_id ++ q))).flatten)) := by
    unfold GARSField.gars_15min
    rw [h30eq]
    rw [Option.some_bind]
    exact buildStrict_eq_buildSkip _ _ _ _ hcand
  refine ⟨_, h15eq, ?_⟩
  intro g
  rw [buildSkip_mem_iff]
  constructor
  · rintro ⟨c, hc, hmk, hI⟩
    simp only [List.mem_flatten, List.mem_map] at hc
    obtain ⟨L, ⟨p, hp, rfl⟩, hcL⟩ := hc
    obtain ⟨q, hq, rfl⟩ := List.mem_map.mp hcL
    obtain ⟨b, i1, i2, hb1, hb2, h1, h2, rfl, _⟩ := (h30iff p).mp hp
    simp only [quads15Strs, List.mem_map, List.mem_range'_1] at hq
    obtain ⟨d, hd, rfl⟩ := hq
    rw [show (cell30 b i1 i2).gars_id ++ dStr d = mk15 b i1 i2 d
      from mk30_append b i1 i2 d] at hmk
    obtain ⟨b', i1', i2', hb1', hb2', h1', h2', hor⟩ := gars_init_none_inv hmk
    rcases hor with ⟨hs, hg⟩ | ⟨d', hd1', hd2', hs, hg⟩ | ⟨d', e', _, _, _, _, hs, _⟩ |
      ⟨d', e', k', _, _, _, _, _, _, hs, _⟩
    · exact absurd (congrArg (fun s => s.data.length) hs) (by simp [mk15, mk30, mkLon])
    · exact ⟨b', i1', i2', d', hb1', hb2', h1', h2', hd1', hd2', hg, hg ▸ hI⟩
    · exact absurd (congrArg (fun s => s.data.length) hs) (by simp [mk15, mk5, mkLon])
    · exact absurd (congrArg (fun s => s.data.length) hs) (by simp [mk15, mk1, mkLon])
  · rintro ⟨b, i1, i2, d, hb1, hb2, h1, h2, hd1, hd2, rfl, hI⟩
    have hq := hI
    rw [polygon_cell15 b i1 i2 d (by omega) (by omega) h2 (by omega)] at hq
    simp only [Box.intersects, Bool.and_eq_true, decide_eq_true_eq] at hq
    obtain ⟨⟨⟨q1, q2⟩, q3⟩, q4⟩ := hq
    have hdx : (0 : ℚ) ≤ dx15 d ∧ dx15 d ≤ 15 := by unfold dx15; split <;> norm_num
    have hdy : (0 : ℚ) ≤ dy15 d ∧ dy15 d ≤ 15 := by unfold dy15; split <;> norm_num
    obtain ⟨hdx0, hdx1⟩ := hdx
    obtain ⟨hdy0, hdy1⟩ := hdy
    have hparent : (cell30 b i1 i2).polygon.intersects R = true := by
      rw [polygon_cell30 b i1 i2 (by omega) (by omega) h2]
      simp only [Box.intersects, Bool.and_eq_true, decide_eq_true_eq]
      exact ⟨⟨⟨by linarith, by linarith⟩, by linarith⟩, by linarith⟩
    have hp30 : cell30 b i1 i2 ∈ l30 := (h30iff _).mpr
      ⟨b, i1, i2, hb1, hb2, h1, h2, rfl, hparent⟩
    refine ⟨mk15 b i1 i2 d, ?_, init15_eq b i1 i2 d hb1 hb2 h1 h2 hd1 hd2, hI⟩
    simp only [List.mem_flatten, List.mem_map]
    refine ⟨_, ⟨cell30 b i1 i2, hp30, rfl⟩, ?_⟩
    refine List.mem_map.mpr ⟨dStr d, ?_, mk30_append b i1 i2 d⟩
    simp only [quads15Strs, List.mem_map, List.mem_range'_1]
    exact ⟨d, by omega, rfl⟩

/-- Counterexample to the unamended C1: for the box `(0, 0.05, 0.2, 0.15)`,
whose west edge lies exactly on a 30-minute grid line, the valid cell
`360HN` (which touches the box along that edge, so its bounding box
intersects the box) is missing from the enumeration, which returns
only `361HN`. -/
theorem C1_counterexample :
    GARSGrid.init (mk30 360 7 12) none = some (cell30 360 7 12) ∧
    (cell30 360 7 12).polygon.intersects ⟨0, 1/20, 1/5, 3/20⟩ = true ∧
    GARSField.gars_30min ⟨0, 1/20, 1/5, 3/20⟩ = some [cell30 361 7 12] ∧
    cell30 360 7 12 ∉ [cell30 361 7 12] := by
  refine ⟨init30_eq 360 7 12 (by norm_num) (by norm_num) (by norm_num) (by norm_num),
    ?_, ?_, by decide⟩
  · rw [polygon_cell30 360 7 12 (by norm_num) (by norm_num) (by norm_num)]
    simp only [Box.intersects, Bool.and_eq_true, decide_eq_true_eq, lon0, lat0]
    norm_num
  · have hrg := get_30min_ranges_val ⟨0, 1/20, 1/5, 3/20⟩ (by norm_num) (by norm_num)
      (by norm_num) (by norm_num) (by norm_num) (by norm_num)
    simp only [] at hrg
    rw [show ⌊2 * ((0 : ℚ) + 180)⌋ = 360 from by
          rw [Int.floor_eq_iff]; constructor <;> norm_num,
        show ⌊2 * ((1 : ℚ)/5 + 180)⌋ = 360 from by
          rw [Int.floor_eq_iff]; constructor <;> norm_num,
        show ⌊2 * ((1 : ℚ)/20 + 90)⌋ = 180 from by
          rw [Int.floor_eq_iff]; constructor <;> norm_num,
        show ⌊2 * ((3 : ℚ)/20 + 90)⌋ = 180 from by
          rw [Int.floor_eq_iff]; constructor <;> norm_num] at hrg
    rw [show ((360 : ℤ) + 1).toNat = 361 from rfl,
        show (180 : ℤ).toNat = 180 from rfl,
        show (361 : ℕ) + 1 - 361 = 1 from rfl,
        show (180 : ℕ) / 24 = 7 from rfl,
        show (180 : ℕ) % 24 = 12 from rfl] at hrg
    have hI : (GARSGrid.polygon (cell30 361 7 12)).intersects
        (⟨0, 1/20, 1/5, 3/20⟩ : Box) = true := by
      rw [polygon_cell30 361 7 12 (by norm_num) (by norm_num) (by norm_num)]
      simp only [Box.intersects, Bool.and_eq_true, decide_eq_true_eq, lon0, lat0]
      norm_num
    rw [gars_30min_eq' ⟨0, 1/20, 1/5, 3/20⟩ _ _ hrg,
      show (((List.range' 361 1).map natTo3).map (fun ln =>
          (GARSField._get_lat_letter_range GARS_LETTERS (lchar 7) (lchar 12) (lchar 7)
            (lchar 12)).map (fun lt => ln ++ lt))).flatten = [mk30 361 7 12] from by decide,
      buildSkip_singleton _ _ _ _ _
        (init30_eq 361 7 12 (by norm_num) (by norm_num) (by norm_num) (by norm_num)) hI]

/-- Witness for C1 at the box `(1/3, 1/3, 1, 1)`, whose lower-left corner is
not grid-aligned. -/
theorem C1_witness :
    ∃ l, GARSField.gars_30min ⟨1/3, 1/3, 1, 1⟩ = some l ∧
      ∀ g, g ∈ l ↔ ∃ b i1 i2, 1 ≤ b ∧ b ≤ 720 ∧ i1 < 15 ∧ i2 < 24 ∧
        g = cell30 b i1 i2 ∧
          (cell30 b i1 i2).polygon.intersects ⟨1/3, 1/3, 1, 1⟩ = true :=
  (C1_enumeration_brute_force ⟨1/3, 1/3, 1, 1⟩ (by norm_num) (by norm_num) (by norm_num)
    (by norm_num) (by norm_num) (by norm_num)
    (show Int.fract (2 * ((1 : ℚ)/3 + 180)) ≠ 0 from by
      rw [show (2 * ((1 : ℚ)/3 + 180)) = 1082/3 from by norm_num]
      unfold Int.fract
      rw [show ⌊(1082 : ℚ)/3⌋ = 360 from by rw [Int.floor_eq_iff]; constructor <;> norm_num]
      norm_num)
    (show Int.fract (2 * ((1 : ℚ)/3 + 90)) ≠ 0 from by
      rw [show (2 * ((1 : ℚ)/3 + 90)) = 542/3 from by norm_num]
      unfold Int.fract
      rw [show ⌊(542 : ℚ)/3⌋ = 180 from by rw [Int.floor_eq_iff]; constructor <;> norm_num]
      norm_num)).1
